import Mathlib

/-!
# CloudClientDm: a shallow embedding of `cloud_client_dm.cpp` / `cloud_client_dm.h`

The facade object is a record of its member variables.  Everything the facade
calls but does not implement (the Device object of the LWM2M engine, the cloud
client, the configuration store, the user callbacks, `wait_ms`) is a
*collaborator*: an arbitrary state machine `Collaborators σ` that answers every
call.  Each call the facade issues is appended, together with the answer it
got, to a trace, so that statements such as "no create call is issued" or
"create is followed by set" are statements about that trace.

Machine integers: `uint16_t` values are naturals, with an explicit `% 65536`
on the loop counter `x`; `int64_t` values are integers (they are only passed
through).  What `printfLog` prints is not modelled; a call on a collaborator
among its arguments is.
-/

namespace CloudClient

/-! ## Enumerations -/

/-- Enumeration `M2MDevice::DeviceResource`, in the order fixed by the table
`deviceObjectResourceString` of `cloud_client_dm.cpp`. -/
inductive DeviceResource
  | Manufacturer
  | DeviceType
  | ModelNumber
  | SerialNumber
  | HardwareVersion
  | FirmwareVersion
  | SoftwareVersion
  | Reboot
  | FactoryReset
  | AvailablePowerSources
  | PowerSourceVoltage
  | PowerSourceCurrent
  | BatteryLevel
  | BatteryStatus
  | MemoryFree
  | MemoryTotal
  | ErrorCode
  | ResetErrorCode
  | CurrentTime
  | UTCOffset
  | Timezone
  | SupportedBindingMode
  deriving DecidableEq, Repr

/-- Table `deviceObjectResourceString`: the name of each Device object resource. -/
def deviceObjectResourceString : DeviceResource → String
  | .Manufacturer => "mbed.Manufacturer"
  | .DeviceType => "mbed.DeviceType"
  | .ModelNumber => "mbed.ModelNumber"
  | .SerialNumber => "mbed.SerialNumber"
  | .HardwareVersion => "mbed.HardwareVersion"
  | .FirmwareVersion => "mbed.FirmwareVersion"
  | .SoftwareVersion => "mbed.SoftwareVersion"
  | .Reboot => "mbed.Reboot"
  | .FactoryReset => "mbed.FactoryReset"
  | .AvailablePowerSources => "mbed.AvailablePowerSources"
  | .PowerSourceVoltage => "mbed.PowerSourceVoltage"
  | .PowerSourceCurrent => "mbed.PowerSourceCurrent"
  | .BatteryLevel => "mbed.BatteryLevel"
  | .BatteryStatus => "mbed.BatteryStatus"
  | .MemoryFree => "mbed.MemoryFree"
  | .MemoryTotal => "mbed.MemoryTotalKB"
  | .ErrorCode => "mbed.ErrorCode"
  | .ResetErrorCode => "mbed.ResetErrorCode"
  | .CurrentTime => "mbed.CurrentTime"
  | .UTCOffset => "mbed.UTCOffset"
  | .Timezone => "mbed.Timezone"
  | .SupportedBindingMode => "mbed.SupportedBindingMode"

/-- Enumeration `CloudClientDm::BatteryStatus`. -/
inductive BatteryStatus
  | BATTERY_STATUS_NORMAL
  | BATTERY_STATUS_CHARGING
  | BATTERY_STATUS_CHARGING_COMPLETE
  | BATTERY_STATUS_FAULT
  | BATTERY_STATUS_LOW_BATTERY
  | BATTERY_STATUS_NOT_PRESENT
  | BATTERY_STATUS_UNKNOWN
  | MAX_NUM_BATTERY_STATUS
  deriving DecidableEq, Repr

/-- Numeric value of a `BatteryStatus` enumerator. -/
def BatteryStatus.toNat : BatteryStatus → Nat
  | .BATTERY_STATUS_NORMAL => 0
  | .BATTERY_STATUS_CHARGING => 1
  | .BATTERY_STATUS_CHARGING_COMPLETE => 2
  | .BATTERY_STATUS_FAULT => 3
  | .BATTERY_STATUS_LOW_BATTERY => 4
  | .BATTERY_STATUS_NOT_PRESENT => 5
  | .BATTERY_STATUS_UNKNOWN => 6
  | .MAX_NUM_BATTERY_STATUS => 7

/-- Enumeration `CloudClientDm::PowerSource`, with every enumerator of the
header, the sentinel `POWER_SOURCE_UNUSED` and the count `MAX_NUM_POWER_SOURCES`
included. -/
inductive PowerSource
  | POWER_SOURCE_UNUSED
  | POWER_SOURCE_DC
  | POWER_SOURCE_INTERNAL_BATTERY
  | POWER_SOURCE_EXTERNAL_BATTERY
  | POWER_SOURCE_POE
  | POWER_SOURCE_USB
  | POWER_SOURCE_MAINS
  | POWER_SOURCE_SOLAR
  | MAX_NUM_POWER_SOURCES
  deriving DecidableEq, Repr

/-- Numeric value of a `PowerSource` enumerator (`POWER_SOURCE_UNUSED = 0xFF`,
`MAX_NUM_POWER_SOURCES` is one more than `POWER_SOURCE_SOLAR = 7`). -/
def PowerSource.toNat : PowerSource → Nat
  | .POWER_SOURCE_UNUSED => 0xFF
  | .POWER_SOURCE_DC => 0
  | .POWER_SOURCE_INTERNAL_BATTERY => 1
  | .POWER_SOURCE_EXTERNAL_BATTERY => 2
  | .POWER_SOURCE_POE => 4
  | .POWER_SOURCE_USB => 5
  | .POWER_SOURCE_MAINS => 6
  | .POWER_SOURCE_SOLAR => 7
  | .MAX_NUM_POWER_SOURCES => 8

/-- Enumeration `CloudClientDm::Error`. -/
inductive Error
  | ERROR_NONE
  | ERROR_LOW_BATTERY
  | ERROR_NO_EXTERNAL_POWER
  | ERROR_GPS_FAILURE
  | ERROR_LOW_RECEIVED_SIGNAL
  | ERROR_OUT_OF_MEMORY
  | ERROR_SMS_FAILURE
  | ERROR_IP_CONNECTIVITY_FAILURE
  | ERROR_PERIPHERAL_FAILURE
  | MAX_NUM_ERRORS
  deriving DecidableEq, Repr

/-- Numeric value of an `Error` enumerator. -/
def Error.toNat : Error → Nat
  | .ERROR_NONE => 0
  | .ERROR_LOW_BATTERY => 1
  | .ERROR_NO_EXTERNAL_POWER => 2
  | .ERROR_GPS_FAILURE => 3
  | .ERROR_LOW_RECEIVED_SIGNAL => 4
  | .ERROR_OUT_OF_MEMORY => 5
  | .ERROR_SMS_FAILURE => 6
  | .ERROR_IP_CONNECTIVITY_FAILURE => 7
  | .ERROR_PERIPHERAL_FAILURE => 8
  | .MAX_NUM_ERRORS => 9

/-- Status type `ccs_status_e` of the configuration store: the five values
named by `getCCSErrorString`, and any other value (its `default:` branch). -/
inductive ccs_status_e
  | CCS_STATUS_SUCCESS
  | CCS_STATUS_ERROR
  | CCS_STATUS_KEY_DOESNT_EXIST
  | CCS_STATUS_VALIDATION_FAIL
  | CCS_STATUS_MEMORY_ERROR
  | other (code : Int)
  deriving DecidableEq, Repr

/-- Number of elements of the array `_powerSourceInstance`, that is
`sizeof(_powerSourceInstance) / sizeof(_powerSourceInstance[0])`: the array is
declared with `MAX_NUM_POWER_SOURCES` elements. -/
@[reducible] def sizeofPowerSourceInstance : Nat := PowerSource.MAX_NUM_POWER_SOURCES.toNat

/-! ## Collaborators and the trace of calls -/

/-- Every call the facade issues on something it does not implement: the
factory `M2MInterfaceFactory::create_device`, the methods of `M2MDevice`, the
methods of `MbedCloudClient`, the configuration store, `wait_ms` and the three
user callbacks.  Pointers to objects and interfaces are natural-number
handles. -/
inductive Call
  | create_device
  | create_resource_string (resource : DeviceResource) (value : String)
  | create_resource_int (resource : DeviceResource) (value : Int)
  | create_resource_instance (resource : DeviceResource) (value : Int) (inst : Nat)
  | create_resource_exec (resource : DeviceResource)
  | delete_resource (resource : DeviceResource)
  | delete_resource_instance (resource : DeviceResource) (inst : Nat)
  | is_resource_present (resource : DeviceResource)
  | set_resource_value_int (resource : DeviceResource) (value : Int)
  | set_resource_value_instance (resource : DeviceResource) (value : Int) (inst : Nat)
  | resource_value_int (resource : DeviceResource) (inst : Nat)
  | set_device_resource_value (resource : DeviceResource) (value : String)
  | endpoint_info
  | error_description
  | object_name (object : Nat)
  | add_objects (objectList : List Nat)
  | on_registered
  | on_unregistered
  | on_error
  | set_update_callback (updateCallback : Nat)
  | close
  | setup (interface : Nat)
  | keep_alive
  | delete_config_parameter (key : String)
  | set_config_parameter (key : String) (value : String) (size : Nat)
  | wait_ms (ms : Nat)
  | registeredUserCallback
  | deregisteredUserCallback
  | errorUserCallback (errorCode : Int)
  deriving DecidableEq, Repr

/-- The answer a call got: nothing, a boolean (for a call returning a pointer,
`true` means the pointer is not `NULL`), an integer or a store status. -/
inductive Ret
  | unit
  | bool (b : Bool)
  | int (v : Int)
  | status (st : ccs_status_e)
  deriving DecidableEq, Repr

/-- An event of the engine: it runs one of the three callbacks that `start`
installs. -/
inductive EngineEvent
  | registered
  | deregistered
  | error (errorCode : Int)
  deriving DecidableEq, Repr

/-- The collaborators, as an arbitrary state machine over `σ`: how a call
changes their state, what it returns (read at the type the call returns), and
which engine events are delivered while the caller is inside `close` or
`wait_ms`. -/
structure Collaborators (σ : Type) where
  next : Call → σ → σ
  retBool : Call → σ → Bool
  retInt : Call → σ → Int
  retStatus : Call → σ → ccs_status_e
  async : Call → σ → List EngineEvent

/-- The world outside the facade: the collaborators' state and the trace of
the calls issued so far, oldest first, each with its answer. -/
structure World (σ : Type) where
  dev : σ
  trace : List (Call × Ret)

/-- Issue a call that returns nothing. -/
def callUnit {σ : Type} (E : Collaborators σ) (c : Call) (w : World σ) : World σ :=
  ⟨E.next c w.dev, w.trace ++ [(c, Ret.unit)]⟩

/-- Issue a call that returns a boolean or a pointer. -/
def callBool {σ : Type} (E : Collaborators σ) (c : Call) (w : World σ) : Bool × World σ :=
  (E.retBool c w.dev, ⟨E.next c w.dev, w.trace ++ [(c, Ret.bool (E.retBool c w.dev))]⟩)

/-- Issue a call that returns an integer. -/
def callInt {σ : Type} (E : Collaborators σ) (c : Call) (w : World σ) : Int × World σ :=
  (E.retInt c w.dev, ⟨E.next c w.dev, w.trace ++ [(c, Ret.int (E.retInt c w.dev))]⟩)

/-- Issue a call that returns a store status. -/
def callStatus {σ : Type} (E : Collaborators σ) (c : Call) (w : World σ) :
    ccs_status_e × World σ :=
  (E.retStatus c w.dev, ⟨E.next c w.dev, w.trace ++ [(c, Ret.status (E.retStatus c w.dev))]⟩)

/-- The C string seen through `std::string::c_str()` by `strlen`: the
characters before the first NUL. -/
def c_str (str : String) : String :=
  String.mk (str.data.takeWhile (fun ch => ch != Char.ofNat 0))

/-- Length `strlen(value)` of a C string, in bytes. -/
def strlen (value : String) : Nat := value.utf8ByteSize

/-! ## The facade object -/

/-- Member variables of `CloudClientDm`.  A user callback is represented by
whether it was supplied (its call is a `Call`); the objects of `_objectList`
are handles; `_powerSourceInstance` is the array of `uint16_t` slots. -/
structure CloudClientDm where
  _registeredUserCallback : Bool
  _deregisteredUserCallback : Bool
  _errorUserCallback : Bool
  _debugOn : Bool
  _started : Bool
  _registered : Bool
  _objectList : List Nat
  _powerSourceInstance : List Nat
  deriving DecidableEq, Repr

/-- Constructor `CloudClientDm::CloudClientDm`: both flags false, every slot of
`_powerSourceInstance` set to `POWER_SOURCE_UNUSED`. -/
def CloudClientDm.new (debugOn registeredUserCallback deregisteredUserCallback
    errorUserCallback : Bool) : CloudClientDm :=
  { _registeredUserCallback := registeredUserCallback
    _deregisteredUserCallback := deregisteredUserCallback
    _errorUserCallback := errorUserCallback
    _debugOn := debugOn
    _started := false
    _registered := false
    _objectList := []
    _powerSourceInstance :=
      List.replicate sizeofPowerSourceInstance PowerSource.POWER_SOURCE_UNUSED.toNat }

/-! ## Protected methods: callbacks -/

/-- Method `clientRegisteredCallback`. -/
def clientRegisteredCallback {σ : Type} (E : Collaborators σ) (s : CloudClientDm)
    (w : World σ) : CloudClientDm × World σ :=
  let s1 := { s with _registered := true }
  let endpoint := callBool E Call.endpoint_info w
  if s1._registeredUserCallback then
    (s1, callUnit E Call.registeredUserCallback endpoint.2)
  else (s1, endpoint.2)

/-- Method `clientDeregisteredCallback`. -/
def clientDeregisteredCallback {σ : Type} (E : Collaborators σ) (s : CloudClientDm)
    (w : World σ) : CloudClientDm × World σ :=
  let s1 := { s with _registered := false }
  if s1._deregisteredUserCallback then
    (s1, callUnit E Call.deregisteredUserCallback w)
  else (s1, w)

/-- Method `errorCallback`.  Its three `printfLog` statements print; the
argument `_cloudClient.error_description()` of the third is a call. -/
def errorCallback {σ : Type} (E : Collaborators σ) (errorCode : Int) (s : CloudClientDm)
    (w : World σ) : CloudClientDm × World σ :=
  let described := callUnit E Call.error_description w
  if s._errorUserCallback then
    (s, callUnit E (Call.errorUserCallback errorCode) described)
  else (s, described)

/-! ## Protected methods: general

The overloads of `createDeviceObjectResource`, `deleteDeviceObjectResource` and
`setDeviceObjectResource` get a suffix naming their argument types. -/

/-- Method `createDeviceObjectResource(resource, const char *value)`. -/
def createDeviceObjectResource_string {σ : Type} (E : Collaborators σ)
    (resource : DeviceResource) (value : String) (w : World σ) : Bool × World σ :=
  let deviceObject := callBool E Call.create_device w
  if deviceObject.1 then
    callBool E (Call.create_resource_string resource value) deviceObject.2
  else (false, deviceObject.2)

/-- Method `createDeviceObjectResource(resource, int64_t value)`. -/
def createDeviceObjectResource_int {σ : Type} (E : Collaborators σ)
    (resource : DeviceResource) (value : Int) (w : World σ) : Bool × World σ :=
  let deviceObject := callBool E Call.create_device w
  if deviceObject.1 then
    callBool E (Call.create_resource_int resource value) deviceObject.2
  else (false, deviceObject.2)

/-- Method `createDeviceObjectResource(resource, int64_t value, uint16_t instance)`. -/
def createDeviceObjectResource_instance {σ : Type} (E : Collaborators σ)
    (resource : DeviceResource) (value : Int) (inst : Nat) (w : World σ) : Bool × World σ :=
  let deviceObject := callBool E Call.create_device w
  if deviceObject.1 then
    callBool E (Call.create_resource_instance resource value inst) deviceObject.2
  else (false, deviceObject.2)

/-- Method `deleteDeviceObjectResource(resource, uint16_t instance)`. -/
def deleteDeviceObjectResource_instance {σ : Type} (E : Collaborators σ)
    (resource : DeviceResource) (inst : Nat) (w : World σ) : Bool × World σ :=
  let deviceObject := callBool E Call.create_device w
  if deviceObject.1 then
    callBool E (Call.delete_resource_instance resource inst) deviceObject.2
  else (false, deviceObject.2)

/-- Method `setDeviceObjectResource(resource, std::string str)`. -/
def setDeviceObjectResource_string {σ : Type} (E : Collaborators σ)
    (resource : DeviceResource) (str : String) (s : CloudClientDm) (w : World σ) :
    Bool × World σ :=
  let w1 :=
    if s._started = false then
      let deviceObject := callBool E Call.create_device w
      if deviceObject.1 then
        let present := callBool E (Call.is_resource_present resource) deviceObject.2
        if present.1 = false then
          (createDeviceObjectResource_string E resource (c_str str) present.2).2
        else present.2
      else deviceObject.2
    else w
  callBool E (Call.set_device_resource_value resource str) w1

/-- Method `setDeviceObjectResource(resource, const char *value)`. -/
def setDeviceObjectResource_cstr {σ : Type} (E : Collaborators σ)
    (resource : DeviceResource) (value : String) (s : CloudClientDm) (w : World σ) :
    Bool × World σ :=
  setDeviceObjectResource_string E resource value s w

/-- Method `setDeviceObjectResource(resource, int64_t value)`.  The body never
reads `_started`. -/
def setDeviceObjectResource_int {σ : Type} (E : Collaborators σ)
    (resource : DeviceResource) (value : Int) (_s : CloudClientDm) (w : World σ) :
    Bool × World σ :=
  let deviceObject := callBool E Call.create_device w
  if deviceObject.1 then
    let present := callBool E (Call.is_resource_present resource) deviceObject.2
    let w1 :=
      if present.1 = false then
        (createDeviceObjectResource_int E resource value present.2).2
      else present.2
    callBool E (Call.set_resource_value_int resource value) w1
  else (false, deviceObject.2)

/-- Method `setDeviceObjectResource(resource, int64_t value, uint16_t instance)`. -/
def setDeviceObjectResource_instance {σ : Type} (E : Collaborators σ)
    (resource : DeviceResource) (value : Int) (inst : Nat) (s : CloudClientDm)
    (w : World σ) : Bool × World σ :=
  let deviceObject := callBool E Call.create_device w
  if deviceObject.1 then
    let w1 :=
      if s._started = false then
        let current := callInt E (Call.resource_value_int resource inst) deviceObject.2
        if current.1 = -1 then
          (createDeviceObjectResource_instance E resource value inst current.2).2
        else current.2
      else deviceObject.2
    callBool E (Call.set_resource_value_instance resource value inst) w1
  else (false, deviceObject.2)

/-- Method `setDeviceObjectConfigResource(resource, const char *value)`. -/
def setDeviceObjectConfigResource {σ : Type} (E : Collaborators σ)
    (resource : DeviceResource) (value : String) (w : World σ) : Bool × World σ :=
  let deleted := callStatus E (Call.delete_config_parameter (deviceObjectResourceString resource)) w
  let ccsStatus := callStatus E
    (Call.set_config_parameter (deviceObjectResourceString resource) value (strlen value))
    deleted.2
  (decide (ccsStatus.1 = ccs_status_e.CCS_STATUS_SUCCESS), ccsStatus.2)

/-- Method `setDeviceObjectConfigResource(resource, std::string str)`. -/
def setDeviceObjectConfigResource_string {σ : Type} (E : Collaborators σ)
    (resource : DeviceResource) (str : String) (w : World σ) : Bool × World σ :=
  setDeviceObjectConfigResource E resource (c_str str) w

/-- Method `getCCSErrorString`. -/
def getCCSErrorString : ccs_status_e → String
  | .CCS_STATUS_SUCCESS => "CloudClientStorage::Success"
  | .CCS_STATUS_ERROR => "CloudClientStorage::Error"
  | .CCS_STATUS_KEY_DOESNT_EXIST => "CloudClientStorage::KeyDoesntExist"
  | .CCS_STATUS_VALIDATION_FAIL => "CloudClientStorage::ValidationFail"
  | .CCS_STATUS_MEMORY_ERROR => "CloudClientStorage::MemoryError"
  | .other _ => "UNKNOWN"

/-! ## Public methods: general -/

/-- Run the callbacks of the engine events, in order. -/
def deliver {σ : Type} (E : Collaborators σ) :
    List EngineEvent → CloudClientDm → World σ → CloudClientDm × World σ
  | [], s, w => (s, w)
  | EngineEvent.registered :: es, s, w =>
    deliver E es (clientRegisteredCallback E s w).1 (clientRegisteredCallback E s w).2
  | EngineEvent.deregistered :: es, s, w =>
    deliver E es (clientDeregisteredCallback E s w).1 (clientDeregisteredCallback E s w).2
  | EngineEvent.error errorCode :: es, s, w =>
    deliver E es (errorCallback E errorCode s w).1 (errorCallback E errorCode s w).2

/-- Issue a call during which the engine may run callbacks (`close`, `wait_ms`):
the call is recorded, then the callbacks of the events it delivers are run. -/
def callAsync {σ : Type} (E : Collaborators σ) (c : Call) (s : CloudClientDm)
    (w : World σ) : CloudClientDm × World σ :=
  deliver E (E.async c w.dev) s (callUnit E c w)

/-- Method `addObject`; the argument `object->name()` of its `printfLog` is a
call. -/
def addObject {σ : Type} (E : Collaborators σ) (object : Nat) (s : CloudClientDm)
    (w : World σ) : CloudClientDm × World σ :=
  ({ s with _objectList := s._objectList ++ [object] }, callUnit E (Call.object_name object) w)

/-- Method `start`; `updateCallback` is `none` for a `NULL` pointer. -/
def start {σ : Type} (E : Collaborators σ) (updateCallback : Option Nat)
    (s : CloudClientDm) (w : World σ) : Bool × CloudClientDm × World σ :=
  let s1 := { s with _started := true }
  let w1 := callUnit E (Call.add_objects s1._objectList) w
  let w2 := callUnit E Call.on_registered w1
  let w3 := callUnit E Call.on_unregistered w2
  let w4 := callUnit E Call.on_error w3
  let w5 :=
    match updateCallback with
    | some cb => callUnit E (Call.set_update_callback cb) w4
    | none => w4
  (true, s1, w5)

/-- The wait loop of `stop`:
`while (_registered && (timer.read_ms() < CLOUD_CLIENT_STOP_TIMEOUT_SECONDS * 1000)) wait_ms(100);`
where `elapsed` is what `timer.read_ms()` returns and each `wait_ms(100)`
advances it by 100.  It returns the elapsed time at which the loop is left,
with the facade and the world at that moment. -/
def stopWait {σ : Type} (E : Collaborators σ) (CLOUD_CLIENT_STOP_TIMEOUT_SECONDS : Nat)
    (elapsed : Nat) (s : CloudClientDm) (w : World σ) : Nat × CloudClientDm × World σ :=
  if s._registered = true ∧ elapsed < CLOUD_CLIENT_STOP_TIMEOUT_SECONDS * 1000 then
    stopWait E CLOUD_CLIENT_STOP_TIMEOUT_SECONDS (elapsed + 100)
      (callAsync E (Call.wait_ms 100) s w).1 (callAsync E (Call.wait_ms 100) s w).2
  else (elapsed, s, w)
termination_by CLOUD_CLIENT_STOP_TIMEOUT_SECONDS * 1000 - elapsed

/-- The sweep loop of `stop`, from counter value `x` on:
`for (uint16_t x = 0; x < sizeof(...) / sizeof(...[0]); x++) ...`.
The first argument bounds the number of iterations; `stop` passes the number
of slots. -/
def stopSweep {σ : Type} (E : Collaborators σ) :
    Nat → Nat → CloudClientDm → World σ → CloudClientDm × World σ
  | 0, _, s, w => (s, w)
  | fuel + 1, x, s, w =>
    if x < sizeofPowerSourceInstance then
      if s._powerSourceInstance.getD x 0 ≠ PowerSource.POWER_SOURCE_UNUSED.toNat then
        let d1 := deleteDeviceObjectResource_instance E DeviceResource.AvailablePowerSources x w
        let d2 := deleteDeviceObjectResource_instance E DeviceResource.PowerSourceVoltage x d1.2
        let d3 := deleteDeviceObjectResource_instance E DeviceResource.PowerSourceCurrent x d2.2
        stopSweep E fuel ((x + 1) % 65536)
          { s with _powerSourceInstance :=
              s._powerSourceInstance.set x PowerSource.POWER_SOURCE_UNUSED.toNat }
          d3.2
      else stopSweep E fuel ((x + 1) % 65536) s w
    else (s, w)

/-- Method `stop`.  The macro `CLOUD_CLIENT_STOP_TIMEOUT_SECONDS` is defined
outside the two source files and is a parameter; `timer.start()` sets the
elapsed time to 0. -/
def stop {σ : Type} (E : Collaborators σ) (CLOUD_CLIENT_STOP_TIMEOUT_SECONDS : Nat)
    (s : CloudClientDm) (w : World σ) : CloudClientDm × World σ :=
  let closed := callAsync E Call.close s w
  let waited := stopWait E CLOUD_CLIENT_STOP_TIMEOUT_SECONDS 0 closed.1 closed.2
  stopSweep E sizeofPowerSourceInstance 0 waited.2.1 waited.2.2

/-- Method `connect` (built without `MBED_CLOUD_CLIENT_SUPPORT_UPDATE`). -/
def connect {σ : Type} (E : Collaborators σ) (interface : Nat) (s : CloudClientDm)
    (w : World σ) : Bool × World σ :=
  if s._started then callBool E (Call.setup interface) w else (false, w)

/-- Method `isConnected`. -/
def isConnected (s : CloudClientDm) : Bool := s._registered

/-- Method `keepAlive`. -/
def keepAlive {σ : Type} (E : Collaborators σ) (w : World σ) : World σ :=
  callUnit E Call.keep_alive w

/-! ## Public methods: Device object -/

/-- Method `setDeviceObjectStaticDeviceType`. -/
def setDeviceObjectStaticDeviceType {σ : Type} (E : Collaborators σ) (deviceType : String)
    (w : World σ) : Bool × World σ :=
  setDeviceObjectConfigResource E DeviceResource.DeviceType deviceType w

/-- Method `setDeviceObjectStaticSerialNumber`. -/
def setDeviceObjectStaticSerialNumber {σ : Type} (E : Collaborators σ) (serialNumber : String)
    (w : World σ) : Bool × World σ :=
  setDeviceObjectConfigResource E DeviceResource.SerialNumber serialNumber w

/-- Method `setDeviceObjectStaticHardwareVersion`. -/
def setDeviceObjectStaticHardwareVersion {σ : Type} (E : Collaborators σ)
    (hardwareVersion : String) (w : World σ) : Bool × World σ :=
  setDeviceObjectConfigResource E DeviceResource.HardwareVersion hardwareVersion w

/-- Method `setDeviceObjectStaticSoftwareVersion`. -/
def setDeviceObjectStaticSoftwareVersion {σ : Type} (E : Collaborators σ)
    (softwareVersion : String) (w : World σ) : Bool × World σ :=
  setDeviceObjectConfigResource E DeviceResource.SoftwareVersion softwareVersion w

/-- Method `setDeviceObjectFirmwareVersion`. -/
def setDeviceObjectFirmwareVersion {σ : Type} (E : Collaborators σ) (firmwareVersion : String)
    (s : CloudClientDm) (w : World σ) : Bool × World σ :=
  setDeviceObjectResource_cstr E DeviceResource.FirmwareVersion firmwareVersion s w

/-- The slot search shared by `addDeviceObjectPowerSource`,
`deleteDeviceObjectPowerSource`, `setDeviceObjectVoltage` and
`setDeviceObjectCurrent`, from counter value `x` and flag `found` on:
`for (x = 0; (x < sizeof(...) / sizeof(...[0])) && !found; x++)
   if (_powerSourceInstance[x] == target) found = true;`
It returns the counter (a `uint16_t`) and the flag after the loop.  The first
argument bounds the number of iterations; the callers pass the number of
slots. -/
def findSlot (powerSourceInstance : List Nat) (target : Nat) : Nat → Nat → Bool → Nat × Bool
  | 0, x, found => (x, found)
  | fuel + 1, x, found =>
    if x < sizeofPowerSourceInstance ∧ found = false then
      findSlot powerSourceInstance target fuel ((x + 1) % 65536)
        (if powerSourceInstance.getD x 0 = target then true else found)
    else (x, found)

/-- The decrement `x--` of a `uint16_t`. -/
def decrement16 (x : Nat) : Nat := (x + 65535) % 65536

/-- Method `addDeviceObjectPowerSource`. -/
def addDeviceObjectPowerSource {σ : Type} (E : Collaborators σ) (powerSource : PowerSource)
    (s : CloudClientDm) (w : World σ) : Bool × CloudClientDm × World σ :=
  let scan := findSlot s._powerSourceInstance PowerSource.POWER_SOURCE_UNUSED.toNat
    sizeofPowerSourceInstance 0 false
  if scan.2 then
    let x := decrement16 scan.1
    let s1 := { s with _powerSourceInstance := s._powerSourceInstance.set x powerSource.toNat }
    let c1 := createDeviceObjectResource_instance E DeviceResource.AvailablePowerSources
      (powerSource.toNat : Int) x w
    if c1.1 then
      let c2 := createDeviceObjectResource_instance E DeviceResource.PowerSourceVoltage 0 x c1.2
      if c2.1 then
        let c3 := createDeviceObjectResource_instance E DeviceResource.PowerSourceCurrent 0 x c2.2
        (c3.1, s1, c3.2)
      else (false, s1, c2.2)
    else (false, s1, c1.2)
  else (false, s, w)

/-- Method `deleteDeviceObjectPowerSource`. -/
def deleteDeviceObjectPowerSource {σ : Type} (E : Collaborators σ) (powerSource : PowerSource)
    (s : CloudClientDm) (w : World σ) : Bool × CloudClientDm × World σ :=
  let scan := findSlot s._powerSourceInstance powerSource.toNat sizeofPowerSourceInstance 0 false
  if scan.2 then
    let x := decrement16 scan.1
    let d1 := deleteDeviceObjectResource_instance E DeviceResource.AvailablePowerSources x w
    if d1.1 then
      let d2 := deleteDeviceObjectResource_instance E DeviceResource.PowerSourceVoltage x d1.2
      if d2.1 then
        let d3 := deleteDeviceObjectResource_instance E DeviceResource.PowerSourceCurrent x d2.2
        if d3.1 then
          (true,
            { s with _powerSourceInstance :=
                s._powerSourceInstance.set x PowerSource.POWER_SOURCE_UNUSED.toNat },
            d3.2)
        else (false, s, d3.2)
      else (false, s, d2.2)
    else (false, s, d1.2)
  else (false, s, w)

/-- Method `setDeviceObjectVoltage`. -/
def setDeviceObjectVoltage {σ : Type} (E : Collaborators σ) (powerSource : PowerSource)
    (voltageMV : Int) (s : CloudClientDm) (w : World σ) : Bool × World σ :=
  let scan := findSlot s._powerSourceInstance powerSource.toNat sizeofPowerSourceInstance 0 false
  if scan.2 then
    setDeviceObjectResource_instance E DeviceResource.PowerSourceVoltage voltageMV
      (decrement16 scan.1) s w
  else (false, w)

/-- Method `setDeviceObjectCurrent`. -/
def setDeviceObjectCurrent {σ : Type} (E : Collaborators σ) (powerSource : PowerSource)
    (currentMA : Int) (s : CloudClientDm) (w : World σ) : Bool × World σ :=
  let scan := findSlot s._powerSourceInstance powerSource.toNat sizeofPowerSourceInstance 0 false
  if scan.2 then
    setDeviceObjectResource_instance E DeviceResource.PowerSourceCurrent currentMA
      (decrement16 scan.1) s w
  else (false, w)

/-- Method `setDeviceObjectBatteryLevel`. -/
def setDeviceObjectBatteryLevel {σ : Type} (E : Collaborators σ) (batteryLevelPercent : Int)
    (s : CloudClientDm) (w : World σ) : Bool × World σ :=
  setDeviceObjectResource_int E DeviceResource.BatteryLevel batteryLevelPercent s w

/-- Method `setDeviceObjectBatteryStatus`. -/
def setDeviceObjectBatteryStatus {σ : Type} (E : Collaborators σ)
    (batteryStatus : BatteryStatus) (s : CloudClientDm) (w : World σ) : Bool × World σ :=
  setDeviceObjectResource_int E DeviceResource.BatteryStatus (batteryStatus.toNat : Int) s w

/-- Method `setDeviceObjectMemoryTotal`. -/
def setDeviceObjectMemoryTotal {σ : Type} (E : Collaborators σ) (memoryTotalKBytes : Int)
    (s : CloudClientDm) (w : World σ) : Bool × World σ :=
  setDeviceObjectResource_int E DeviceResource.MemoryTotal memoryTotalKBytes s w

/-- Method `setDeviceObjectMemoryFree`. -/
def setDeviceObjectMemoryFree {σ : Type} (E : Collaborators σ) (memoryFreeKBytes : Int)
    (s : CloudClientDm) (w : World σ) : Bool × World σ :=
  setDeviceObjectResource_int E DeviceResource.MemoryFree memoryFreeKBytes s w

/-- Method `setDeviceObjectErrorCode`. -/
def setDeviceObjectErrorCode {σ : Type} (E : Collaborators σ) (errorCode : Error)
    (s : CloudClientDm) (w : World σ) : Bool × World σ :=
  setDeviceObjectResource_instance E DeviceResource.ErrorCode (errorCode.toNat : Int) 0 s w

/-- Method `setDeviceObjectUtcOffset`. -/
def setDeviceObjectUtcOffset {σ : Type} (E : Collaborators σ) (utcOffsetISO8601 : String)
    (s : CloudClientDm) (w : World σ) : Bool × World σ :=
  setDeviceObjectResource_cstr E DeviceResource.UTCOffset utcOffsetISO8601 s w

/-- Method `setDeviceObjectTimezone`. -/
def setDeviceObjectTimezone {σ : Type} (E : Collaborators σ) (timezoneIANA : String)
    (s : CloudClientDm) (w : World σ) : Bool × World σ :=
  setDeviceObjectResource_cstr E DeviceResource.Timezone timezoneIANA s w

/-! ## Vocabulary of the statements -/

/-- Slot `i` is the lowest-index slot of the array that holds `target`. -/
def IsFirstSlot (powerSourceInstance : List Nat) (target : Nat) (i : Nat) : Prop :=
  i < sizeofPowerSourceInstance ∧ powerSourceInstance.getD i 0 = target ∧
    ∀ j, j < i → powerSourceInstance.getD j 0 ≠ target

/-- Some slot of the array holds `target`. -/
def HoldsSomewhere (powerSourceInstance : List Nat) (target : Nat) : Prop :=
  ∃ j, j < sizeofPowerSourceInstance ∧ powerSourceInstance.getD j 0 = target

/-- The array has the size its declaration gives it. -/
def WellSized (s : CloudClientDm) : Prop :=
  s._powerSourceInstance.length = sizeofPowerSourceInstance

/-- The six calls of a full `addDeviceObjectPowerSource(powerSource)`
at instance `x`, in order. -/
def addCalls (powerSource : PowerSource) (x : Nat) : List Call :=
  [Call.create_device,
   Call.create_resource_instance DeviceResource.AvailablePowerSources (powerSource.toNat : Int) x,
   Call.create_device,
   Call.create_resource_instance DeviceResource.PowerSourceVoltage 0 x,
   Call.create_device,
   Call.create_resource_instance DeviceResource.PowerSourceCurrent 0 x]

/-- The six calls of a full deletion of the three resources at instance `x`,
in order. -/
def deleteCalls (x : Nat) : List Call :=
  [Call.create_device,
   Call.delete_resource_instance DeviceResource.AvailablePowerSources x,
   Call.create_device,
   Call.delete_resource_instance DeviceResource.PowerSourceVoltage x,
   Call.create_device,
   Call.delete_resource_instance DeviceResource.PowerSourceCurrent x]

/-- Collaborators that accept everything: every boolean answer is `true`,
every integer answer is `0`, every status is success, no event is delivered. -/
def allSucceed : Collaborators Unit :=
  { next := fun _ d => d
    retBool := fun _ _ => true
    retInt := fun _ _ => 0
    retStatus := fun _ _ => ccs_status_e.CCS_STATUS_SUCCESS
    async := fun _ _ => [] }

/-- The world before any call, for collaborators without state. -/
def emptyWorld : World Unit := ⟨(), []⟩

/-- A facade object as constructed with debug off and no user callback. -/
def fresh : CloudClientDm := CloudClientDm.new false false false false

instance (powerSourceInstance : List Nat) (target i : Nat) :
    Decidable (IsFirstSlot powerSourceInstance target i) := by
  unfold IsFirstSlot
  infer_instance

instance (powerSourceInstance : List Nat) (target : Nat) :
    Decidable (HoldsSomewhere powerSourceInstance target) := by
  unfold HoldsSomewhere
  infer_instance

instance (s : CloudClientDm) : Decidable (WellSized s) := by
  unfold WellSized
  infer_instance

/-- Kind `k` occupies at most one slot of the array. -/
def AtMostOneSlot (powerSourceInstance : List Nat) (k : PowerSource) : Prop :=
  ∀ i, i < sizeofPowerSourceInstance → ∀ j, j < sizeofPowerSourceInstance →
    powerSourceInstance.getD i 0 = k.toNat → powerSourceInstance.getD j 0 = k.toNat → i = j

instance (powerSourceInstance : List Nat) (k : PowerSource) :
    Decidable (AtMostOneSlot powerSourceInstance k) := by
  unfold AtMostOneSlot
  infer_instance

/-- A call of the public interface that reads or writes the power-source
registry. -/
inductive Op
  | add (powerSource : PowerSource)
  | delete (powerSource : PowerSource)
  | setVoltage (powerSource : PowerSource) (voltageMV : Int)
  | setCurrent (powerSource : PowerSource) (currentMA : Int)
  | stop
  deriving DecidableEq, Repr

/-- The facade and the world after one call, its return value dropped.
`setDeviceObjectVoltage` and `setDeviceObjectCurrent` write no member
variable, so the facade they leave is the one they found. -/
def Op.step {σ : Type} (E : Collaborators σ) (CLOUD_CLIENT_STOP_TIMEOUT_SECONDS : Nat)
    (op : Op) (s : CloudClientDm) (w : World σ) : CloudClientDm × World σ :=
  match op with
  | Op.add k => (addDeviceObjectPowerSource E k s w).2
  | Op.delete k => (deleteDeviceObjectPowerSource E k s w).2
  | Op.setVoltage k v => (s, (setDeviceObjectVoltage E k v s w).2)
  | Op.setCurrent k c => (s, (setDeviceObjectCurrent E k c s w).2)
  | Op.stop => CloudClient.stop E CLOUD_CLIENT_STOP_TIMEOUT_SECONDS s w

/-- The facade and the world after a sequence of calls, first call first. -/
def runOps {σ : Type} (E : Collaborators σ) (CLOUD_CLIENT_STOP_TIMEOUT_SECONDS : Nat) :
    List Op → CloudClientDm → World σ → CloudClientDm × World σ
  | [], s, w => (s, w)
  | op :: ops, s, w =>
    runOps E CLOUD_CLIENT_STOP_TIMEOUT_SECONDS ops
      (op.step E CLOUD_CLIENT_STOP_TIMEOUT_SECONDS s w).1
      (op.step E CLOUD_CLIENT_STOP_TIMEOUT_SECONDS s w).2

/-- The call, if it is an `addDeviceObjectPowerSource(k)`, is issued on a
facade in which `k` occupies no slot. -/
def Op.AddsAbsent (op : Op) (s : CloudClientDm) : Prop :=
  match op with
  | Op.add k => ¬ HoldsSomewhere s._powerSourceInstance k.toNat
  | _ => True

instance (op : Op) (s : CloudClientDm) : Decidable (op.AddsAbsent s) :=
  match op with
  | Op.add k => inferInstanceAs (Decidable (¬ HoldsSomewhere s._powerSourceInstance k.toNat))
  | Op.delete _ => isTrue trivial
  | Op.setVoltage _ _ => isTrue trivial
  | Op.setCurrent _ _ => isTrue trivial
  | Op.stop => isTrue trivial

/-- In the sequence of calls, run from `s` and `w`, every
`addDeviceObjectPowerSource(k)` is issued at a moment when `k` occupies no
slot. -/
def AddsOnlyAbsent {σ : Type} (E : Collaborators σ) (CLOUD_CLIENT_STOP_TIMEOUT_SECONDS : Nat) :
    List Op → CloudClientDm → World σ → Prop
  | [], _, _ => True
  | op :: ops, s, w =>
    op.AddsAbsent s ∧
    AddsOnlyAbsent E CLOUD_CLIENT_STOP_TIMEOUT_SECONDS ops
      (op.step E CLOUD_CLIENT_STOP_TIMEOUT_SECONDS s w).1
      (op.step E CLOUD_CLIENT_STOP_TIMEOUT_SECONDS s w).2

/-- The registry has its declared size and no kind other than the sentinel
occupies two slots. -/
def RegistryInv (s : CloudClientDm) : Prop :=
  WellSized s ∧
    ∀ k, k ≠ PowerSource.POWER_SOURCE_UNUSED → AtMostOneSlot s._powerSourceInstance k

/-- Collaborators that accept everything except that no resource is present
yet: `is_resource_present` answers `false`. -/
def nothingPresent : Collaborators Unit :=
  { next := fun _ d => d
    retBool := fun c _ =>
      match c with
      | Call.is_resource_present _ => false
      | _ => true
    retInt := fun _ _ => 0
    retStatus := fun _ _ => ccs_status_e.CCS_STATUS_SUCCESS
    async := fun _ _ => [] }

/-- Collaborators that accept everything except the creation of a
`PowerSourceVoltage` instance, which returns `NULL`. -/
def voltageRejected : Collaborators Unit :=
  { next := fun _ d => d
    retBool := fun c _ =>
      match c with
      | Call.create_resource_instance DeviceResource.PowerSourceVoltage _ _ => false
      | _ => true
    retInt := fun _ _ => 0
    retStatus := fun _ _ => ccs_status_e.CCS_STATUS_SUCCESS
    async := fun _ _ => [] }

/-- A facade object whose eight slots are all occupied. -/
def fullyOccupied : CloudClientDm :=
  { fresh with _powerSourceInstance := [0, 1, 2, 4, 5, 6, 7, 8] }

/-- A facade object after `start`, nothing else done. -/
def freshStarted : CloudClientDm := { fresh with _started := true }

/-- Every creation on the Device object succeeds: the handle is always
obtained and `create_resource_instance` never returns `NULL`. -/
def CreationsSucceed {σ : Type} (E : Collaborators σ) : Prop :=
  ∀ d, E.retBool Call.create_device d = true ∧
    ∀ r v i, E.retBool (Call.create_resource_instance r v i) d = true

/-- Every deletion on the Device object succeeds: the handle is always
obtained and `delete_resource_instance` always returns `true`. -/
def DeletionsSucceed {σ : Type} (E : Collaborators σ) : Prop :=
  ∀ d, E.retBool Call.create_device d = true ∧
    ∀ r i, E.retBool (Call.delete_resource_instance r i) d = true

/-- The trace entries appended between the world `before` and the world
`after`: the calls issued in between, with their answers. -/
def issued {σ : Type} (before after : World σ) : List (Call × Ret) :=
  after.trace.drop before.trace.length

/-- A trace entry for a call that answered `true`. -/
def answeredTrue (c : Call) : Call × Ret := (c, Ret.bool true)

/-- Collaborators that accept everything except that the Device object
cannot be obtained: `M2MInterfaceFactory::create_device` returns `NULL`. -/
def noDevice : Collaborators Unit :=
  { next := fun _ d => d
    retBool := fun c _ =>
      match c with
      | Call.create_device => false
      | _ => true
    retInt := fun _ _ => 0
    retStatus := fun _ _ => ccs_status_e.CCS_STATUS_SUCCESS
    async := fun _ _ => [] }

/-- The Device object can always be obtained. -/
def DeviceAvailable {σ : Type} (E : Collaborators σ) : Prop :=
  ∀ d, E.retBool Call.create_device d = true

/-- The engine never runs the deregistration callback. -/
def NeverDeregisters {σ : Type} (E : Collaborators σ) : Prop :=
  ∀ c d, EngineEvent.deregistered ∉ E.async c d

/-- The engine runs no callback other than the error callback. -/
def OnlyErrorEvents {σ : Type} (E : Collaborators σ) : Prop :=
  ∀ c d e, e ∈ E.async c d → ∃ errorCode, e = EngineEvent.error errorCode

/-- A call of the public interface, or one of the three callbacks run by the
engine, with its arguments. -/
inductive Method
  | addObject (object : Nat)
  | start (updateCallback : Option Nat)
  | stop
  | connect (interface : Nat)
  | keepAlive
  | clientRegisteredCallback
  | clientDeregisteredCallback
  | errorCallback (errorCode : Int)
  | setDeviceObjectStaticDeviceType (deviceType : String)
  | setDeviceObjectStaticSerialNumber (serialNumber : String)
  | setDeviceObjectStaticHardwareVersion (hardwareVersion : String)
  | setDeviceObjectStaticSoftwareVersion (softwareVersion : String)
  | setDeviceObjectFirmwareVersion (firmwareVersion : String)
  | addDeviceObjectPowerSource (powerSource : PowerSource)
  | deleteDeviceObjectPowerSource (powerSource : PowerSource)
  | setDeviceObjectVoltage (powerSource : PowerSource) (voltageMV : Int)
  | setDeviceObjectCurrent (powerSource : PowerSource) (currentMA : Int)
  | setDeviceObjectBatteryLevel (batteryLevelPercent : Int)
  | setDeviceObjectBatteryStatus (batteryStatus : BatteryStatus)
  | setDeviceObjectMemoryTotal (memoryTotalKBytes : Int)
  | setDeviceObjectMemoryFree (memoryFreeKBytes : Int)
  | setDeviceObjectErrorCode (errorCode : Error)
  | setDeviceObjectUtcOffset (utcOffsetISO8601 : String)
  | setDeviceObjectTimezone (timezoneIANA : String)
  deriving DecidableEq, Repr

/-- The facade and the world after one method, its return value dropped.  A
method that writes no member variable leaves the facade it found. -/
def Method.run {σ : Type} (E : Collaborators σ) (CLOUD_CLIENT_STOP_TIMEOUT_SECONDS : Nat)
    (m : Method) (s : CloudClientDm) (w : World σ) : CloudClientDm × World σ :=
  match m with
  | Method.addObject object => CloudClient.addObject E object s w
  | Method.start updateCallback => (CloudClient.start E updateCallback s w).2
  | Method.stop => CloudClient.stop E CLOUD_CLIENT_STOP_TIMEOUT_SECONDS s w
  | Method.connect interface => (s, (CloudClient.connect E interface s w).2)
  | Method.keepAlive => (s, CloudClient.keepAlive E w)
  | Method.clientRegisteredCallback => CloudClient.clientRegisteredCallback E s w
  | Method.clientDeregisteredCallback => CloudClient.clientDeregisteredCallback E s w
  | Method.errorCallback errorCode => CloudClient.errorCallback E errorCode s w
  | Method.setDeviceObjectStaticDeviceType v =>
    (s, (CloudClient.setDeviceObjectStaticDeviceType E v w).2)
  | Method.setDeviceObjectStaticSerialNumber v =>
    (s, (CloudClient.setDeviceObjectStaticSerialNumber E v w).2)
  | Method.setDeviceObjectStaticHardwareVersion v =>
    (s, (CloudClient.setDeviceObjectStaticHardwareVersion E v w).2)
  | Method.setDeviceObjectStaticSoftwareVersion v =>
    (s, (CloudClient.setDeviceObjectStaticSoftwareVersion E v w).2)
  | Method.setDeviceObjectFirmwareVersion v =>
    (s, (CloudClient.setDeviceObjectFirmwareVersion E v s w).2)
  | Method.addDeviceObjectPowerSource k => (CloudClient.addDeviceObjectPowerSource E k s w).2
  | Method.deleteDeviceObjectPowerSource k =>
    (CloudClient.deleteDeviceObjectPowerSource E k s w).2
  | Method.setDeviceObjectVoltage k v => (s, (CloudClient.setDeviceObjectVoltage E k v s w).2)
  | Method.setDeviceObjectCurrent k c => (s, (CloudClient.setDeviceObjectCurrent E k c s w).2)
  | Method.setDeviceObjectBatteryLevel v =>
    (s, (CloudClient.setDeviceObjectBatteryLevel E v s w).2)
  | Method.setDeviceObjectBatteryStatus b =>
    (s, (CloudClient.setDeviceObjectBatteryStatus E b s w).2)
  | Method.setDeviceObjectMemoryTotal v =>
    (s, (CloudClient.setDeviceObjectMemoryTotal E v s w).2)
  | Method.setDeviceObjectMemoryFree v =>
    (s, (CloudClient.setDeviceObjectMemoryFree E v s w).2)
  | Method.setDeviceObjectErrorCode e => (s, (CloudClient.setDeviceObjectErrorCode E e s w).2)
  | Method.setDeviceObjectUtcOffset v => (s, (CloudClient.setDeviceObjectUtcOffset E v s w).2)
  | Method.setDeviceObjectTimezone v => (s, (CloudClient.setDeviceObjectTimezone E v s w).2)

/-- The facade and the world after a sequence of methods, first one first. -/
def runMethods {σ : Type} (E : Collaborators σ) (CLOUD_CLIENT_STOP_TIMEOUT_SECONDS : Nat) :
    List Method → CloudClientDm → World σ → CloudClientDm × World σ
  | [], s, w => (s, w)
  | m :: ms, s, w =>
    runMethods E CLOUD_CLIENT_STOP_TIMEOUT_SECONDS ms
      (m.run E CLOUD_CLIENT_STOP_TIMEOUT_SECONDS s w).1
      (m.run E CLOUD_CLIENT_STOP_TIMEOUT_SECONDS s w).2

/-- The method is one of those that write the connection state: `start` and
the registration and deregistration callbacks. -/
def Method.writesConnectionState : Method → Bool
  | Method.start _ => true
  | Method.clientRegisteredCallback => true
  | Method.clientDeregisteredCallback => true
  | _ => false

/-- The status that the store's `delete_config_parameter` reports when
`setDeviceObjectConfigResource(resource, value)` runs from world `w`. -/
def deleteStatus {σ : Type} (E : Collaborators σ) (resource : DeviceResource)
    (w : World σ) : ccs_status_e :=
  E.retStatus (Call.delete_config_parameter (deviceObjectResourceString resource)) w.dev

/-- The status that the store's `set_config_parameter` reports when
`setDeviceObjectConfigResource(resource, value)` runs from world `w`: the
write comes after the delete. -/
def writeStatus {σ : Type} (E : Collaborators σ) (resource : DeviceResource)
    (value : String) (w : World σ) : ccs_status_e :=
  E.retStatus
    (Call.set_config_parameter (deviceObjectResourceString resource) value (strlen value))
    (E.next (Call.delete_config_parameter (deviceObjectResourceString resource)) w.dev)

/-- A configuration store in which the key is missing and the write fails
validation. -/
def storeRejects : Collaborators Unit :=
  { next := fun _ d => d
    retBool := fun _ _ => true
    retInt := fun _ _ => 0
    retStatus := fun c _ =>
      match c with
      | Call.delete_config_parameter _ => ccs_status_e.CCS_STATUS_KEY_DOESNT_EXIST
      | _ => ccs_status_e.CCS_STATUS_VALIDATION_FAIL
    async := fun _ _ => [] }

/-- A facade object in which DC, USB and Solar occupy slots 0, 1 and 2. -/
def threeSources : CloudClientDm :=
  { fresh with _powerSourceInstance := [0, 5, 7, 255, 255, 255, 255, 255] }

/-- The indices of the occupied slots of the array, in ascending order. -/
def occupiedSlots (powerSourceInstance : List Nat) : List Nat :=
  (List.range sizeofPowerSourceInstance).filter
    (fun x => decide (powerSourceInstance.getD x 0 ≠ PowerSource.POWER_SOURCE_UNUSED.toNat))

/-- The deletions due for the slots `xs`, in the order of `xs`: for each slot
the AvailablePowerSources, the PowerSourceVoltage and the
PowerSourceCurrent instance at that slot's index, in that order. -/
def sweepDeletions : List Nat → List (DeviceResource × Nat)
  | [] => []
  | x :: xs =>
    (DeviceResource.AvailablePowerSources, x) :: (DeviceResource.PowerSourceVoltage, x) ::
      (DeviceResource.PowerSourceCurrent, x) :: sweepDeletions xs

/-- The world after attempting the deletions of the list one after the other,
each with `deleteDeviceObjectResource(resource, instance)`, whatever each
returns. -/
def attemptDeletions {σ : Type} (E : Collaborators σ) :
    List (DeviceResource × Nat) → World σ → World σ
  | [], w => w
  | d :: rest, w =>
    attemptDeletions E rest (deleteDeviceObjectResource_instance E d.1 d.2 w).2

/-- The calls of these deletions when the Device object is obtained each
time: `create_device` then `delete_resource_instance`, for each in turn. -/
def deletionCalls : List (DeviceResource × Nat) → List Call
  | [] => []
  | d :: rest =>
    Call.create_device :: Call.delete_resource_instance d.1 d.2 :: deletionCalls rest

/-- The call is a deletion on the Device object. -/
def Call.isDeletion : Call → Bool
  | Call.delete_resource _ => true
  | Call.delete_resource_instance _ _ => true
  | _ => false

/-- Between world `w` and world `w2` calls were only appended to the trace,
none of them a deletion. -/
def NoDeletionIssued {σ : Type} (w w2 : World σ) : Prop :=
  ∃ new, w2.trace = w.trace ++ new ∧ ∀ e, e ∈ new → e.1.isDeletion = false

/-- Collaborators that accept everything except a deletion of a resource
instance, which returns `false`. -/
def deletionRejected : Collaborators Unit :=
  { next := fun _ d => d
    retBool := fun c _ =>
      match c with
      | Call.delete_resource_instance _ _ => false
      | _ => true
    retInt := fun _ _ => 0
    retStatus := fun _ _ => ccs_status_e.CCS_STATUS_SUCCESS
    async := fun _ _ => [] }

/-- Whether every call of the list, issued in order on collaborators in state
`d`, answers `true` (for a pointer: is not `NULL`). -/
def allAnswerTrue {σ : Type} (E : Collaborators σ) : List Call → σ → Bool
  | [], _ => true
  | c :: cs, d => E.retBool c d && allAnswerTrue E cs (E.next c d)

/-- The trace entries of the calls of the list issued in order on collaborators
in state `d`, up to and including the first call that answers `false`. -/
def answersUntilFalse {σ : Type} (E : Collaborators σ) : List Call → σ → List (Call × Ret)
  | [], _ => []
  | c :: cs, d =>
    (c, Ret.bool (E.retBool c d)) ::
      (if E.retBool c d then answersUntilFalse E cs (E.next c d) else [])

/-! ## The slot search -/

theorem findSlot_found (reg : List Nat) (t fuel x : Nat) :
    findSlot reg t fuel x true = (x, true) := by
  cases fuel <;> simp [findSlot]

theorem findSlot_step (reg : List Nat) (t fuel x : Nat) (hlt : x < sizeofPowerSourceInstance) :
    findSlot reg t (fuel + 1) x false =
      findSlot reg t fuel (x + 1) (if reg.getD x 0 = t then true else false) := by
  have hmod : (x + 1) % 65536 = x + 1 := by
    have : x < 8 := hlt
    omega
  simp only [findSlot, hlt, hmod, and_self, if_true]

theorem findSlot_exit (reg : List Nat) (t fuel x : Nat) (found : Bool)
    (hge : ¬ x < sizeofPowerSourceInstance) :
    findSlot reg t fuel x found = (x, found) := by
  cases fuel with
  | zero => rfl
  | succ n => simp only [findSlot, hge, false_and, if_false]

theorem findSlot_spec (reg : List Nat) (t : Nat) :
    ∀ fuel x, x ≤ sizeofPowerSourceInstance → sizeofPowerSourceInstance ≤ x + fuel →
      (∀ j, j < x → reg.getD j 0 ≠ t) →
      (∃ i, IsFirstSlot reg t i ∧ findSlot reg t fuel x false = (i + 1, true)) ∨
      ((∀ j, j < sizeofPowerSourceInstance → reg.getD j 0 ≠ t) ∧
        findSlot reg t fuel x false = (sizeofPowerSourceInstance, false)) := by
  intro fuel
  induction fuel with
  | zero =>
    intro x hx hfuel hbelow
    have hx8 : x = sizeofPowerSourceInstance := by omega
    subst hx8
    exact Or.inr ⟨hbelow, rfl⟩
  | succ n ih =>
    intro x hx hfuel hbelow
    by_cases hlt : x < sizeofPowerSourceInstance
    · by_cases hhit : reg.getD x 0 = t
      · refine Or.inl ⟨x, ⟨hlt, hhit, hbelow⟩, ?_⟩
        rw [findSlot_step reg t n x hlt, if_pos hhit, findSlot_found]
      · have hbelow1 : ∀ j, j < x + 1 → reg.getD j 0 ≠ t := by
          intro j hj
          rcases Nat.lt_succ_iff_lt_or_eq.mp hj with h | h
          · exact hbelow j h
          · subst h; exact hhit
        rw [findSlot_step reg t n x hlt, if_neg hhit]
        exact ih (x + 1) hlt (by omega) hbelow1
    · have hx8 : x = sizeofPowerSourceInstance := by omega
      subst hx8
      exact Or.inr ⟨hbelow, findSlot_exit reg t _ _ false hlt⟩

theorem isFirstSlot_unique {reg : List Nat} {t i j : Nat}
    (hi : IsFirstSlot reg t i) (hj : IsFirstSlot reg t j) : i = j := by
  rcases Nat.lt_trichotomy i j with h | h | h
  · exact absurd hi.2.1 (hj.2.2 i h)
  · exact h
  · exact absurd hj.2.1 (hi.2.2 j h)

theorem findSlot_of_first {reg : List Nat} {t i : Nat} (hi : IsFirstSlot reg t i) :
    findSlot reg t sizeofPowerSourceInstance 0 false = (i + 1, true) := by
  rcases findSlot_spec reg t sizeofPowerSourceInstance 0 (Nat.zero_le _) (by omega)
    (fun j hj => absurd hj (Nat.not_lt_zero j)) with ⟨i0, h0, heq⟩ | ⟨hnone, _⟩
  · rw [heq, isFirstSlot_unique hi h0]
  · exact absurd hi.2.1 (hnone i hi.1)

theorem findSlot_of_absent {reg : List Nat} {t : Nat} (h : ¬ HoldsSomewhere reg t) :
    findSlot reg t sizeofPowerSourceInstance 0 false = (sizeofPowerSourceInstance, false) := by
  rcases findSlot_spec reg t sizeofPowerSourceInstance 0 (Nat.zero_le _) (by omega)
    (fun j hj => absurd hj (Nat.not_lt_zero j)) with ⟨i0, h0, _⟩ | ⟨_, heq⟩
  · exact absurd ⟨i0, h0.1, h0.2.1⟩ h
  · exact heq

theorem exists_first_of_holds {reg : List Nat} {t : Nat} (h : HoldsSomewhere reg t) :
    ∃ i, IsFirstSlot reg t i := by
  rcases findSlot_spec reg t sizeofPowerSourceInstance 0 (Nat.zero_le _) (by omega)
    (fun j hj => absurd hj (Nat.not_lt_zero j)) with ⟨i0, h0, _⟩ | ⟨hnone, _⟩
  · exact ⟨i0, h0⟩
  · obtain ⟨j, hj, hjt⟩ := h
    exact absurd hjt (hnone j hj)

theorem decrement16_succ {i : Nat} (hi : i < sizeofPowerSourceInstance) :
    decrement16 (i + 1) = i := by
  have : i < 8 := hi
  unfold decrement16
  omega

theorem add_of_first {σ : Type} (E : Collaborators σ) (k : PowerSource) (s : CloudClientDm)
    (w : World σ) {i : Nat}
    (hi : IsFirstSlot s._powerSourceInstance PowerSource.POWER_SOURCE_UNUSED.toNat i) :
    addDeviceObjectPowerSource E k s w =
      (if (createDeviceObjectResource_instance E DeviceResource.AvailablePowerSources
            (k.toNat : Int) i w).1 then
        if (createDeviceObjectResource_instance E DeviceResource.PowerSourceVoltage 0 i
            (createDeviceObjectResource_instance E DeviceResource.AvailablePowerSources
              (k.toNat : Int) i w).2).1 then
          ((createDeviceObjectResource_instance E DeviceResource.PowerSourceCurrent 0 i
              (createDeviceObjectResource_instance E DeviceResource.PowerSourceVoltage 0 i
                (createDeviceObjectResource_instance E DeviceResource.AvailablePowerSources
                  (k.toNat : Int) i w).2).2).1,
            { s with _powerSourceInstance := s._powerSourceInstance.set i k.toNat },
            (createDeviceObjectResource_instance E DeviceResource.PowerSourceCurrent 0 i
              (createDeviceObjectResource_instance E DeviceResource.PowerSourceVoltage 0 i
                (createDeviceObjectResource_instance E DeviceResource.AvailablePowerSources
                  (k.toNat : Int) i w).2).2).2)
        else
          (false, { s with _powerSourceInstance := s._powerSourceInstance.set i k.toNat },
            (createDeviceObjectResource_instance E DeviceResource.PowerSourceVoltage 0 i
              (createDeviceObjectResource_instance E DeviceResource.AvailablePowerSources
                (k.toNat : Int) i w).2).2)
      else
        (false, { s with _powerSourceInstance := s._powerSourceInstance.set i k.toNat },
          (createDeviceObjectResource_instance E DeviceResource.AvailablePowerSources
            (k.toNat : Int) i w).2)) := by
  simp only [addDeviceObjectPowerSource, findSlot_of_first hi, decrement16_succ hi.1, if_true]

theorem create_instance_trace {σ : Type} (E : Collaborators σ) (r : DeviceResource) (v : Int)
    (i : Nat) (w : World σ) :
    ∃ new, (createDeviceObjectResource_instance E r v i w).2.trace = w.trace ++ new ∧
      new ≠ [] ∧
      new.map Prod.fst <+: [Call.create_device, Call.create_resource_instance r v i] ∧
      ((createDeviceObjectResource_instance E r v i w).1 = true ↔
        new = [(Call.create_device, Ret.bool true),
               (Call.create_resource_instance r v i, Ret.bool true)]) := by
  unfold createDeviceObjectResource_instance
  by_cases hd : E.retBool Call.create_device w.dev = true
  · refine ⟨[(Call.create_device, Ret.bool true),
      (Call.create_resource_instance r v i,
        Ret.bool (E.retBool (Call.create_resource_instance r v i)
          (E.next Call.create_device w.dev)))], ?_, by simp, by simp, ?_⟩
    · simp [callBool, hd]
    · simp only [callBool, hd, if_true]
      constructor
      · intro h
        rw [h]
      · intro h
        simpa using h
  · refine ⟨[(Call.create_device, Ret.bool false)], ?_, by simp, ?_, ?_⟩
    · simp at hd
      simp [callBool, hd]
    · exact ⟨[Call.create_resource_instance r v i], rfl⟩
    · simp at hd
      simp [callBool, hd]

theorem add_trace {σ : Type} (E : Collaborators σ) (k : PowerSource) (s : CloudClientDm)
    (w : World σ) {i : Nat}
    (hi : IsFirstSlot s._powerSourceInstance PowerSource.POWER_SOURCE_UNUSED.toNat i) :
    ∃ new, (addDeviceObjectPowerSource E k s w).2.2.trace = w.trace ++ new ∧
      new.map Prod.fst <+: addCalls k i ∧ new ≠ [] ∧
      ((addDeviceObjectPowerSource E k s w).1 = true ↔
        new = (addCalls k i).map answeredTrue) := by
  rw [add_of_first E k s w hi]
  obtain ⟨n1, t1, ne1, p1, f1⟩ := create_instance_trace E DeviceResource.AvailablePowerSources
    (k.toNat : Int) i w
  obtain ⟨n2, t2, ne2, p2, f2⟩ := create_instance_trace E DeviceResource.PowerSourceVoltage 0 i
    (createDeviceObjectResource_instance E DeviceResource.AvailablePowerSources
      (k.toNat : Int) i w).2
  obtain ⟨n3, t3, ne3, p3, f3⟩ := create_instance_trace E DeviceResource.PowerSourceCurrent 0 i
    (createDeviceObjectResource_instance E DeviceResource.PowerSourceVoltage 0 i
      (createDeviceObjectResource_instance E DeviceResource.AvailablePowerSources
        (k.toNat : Int) i w).2).2
  by_cases b1 : (createDeviceObjectResource_instance E DeviceResource.AvailablePowerSources
      (k.toNat : Int) i w).1 = true
  · have e1 := f1.1 b1
    by_cases b2 : (createDeviceObjectResource_instance E DeviceResource.PowerSourceVoltage 0 i
        (createDeviceObjectResource_instance E DeviceResource.AvailablePowerSources
          (k.toNat : Int) i w).2).1 = true
    · have e2 := f2.1 b2
      rw [if_pos b1, if_pos b2]
      refine ⟨n1 ++ n2 ++ n3, ?_, ?_, by simp [ne1], ?_⟩
      · rw [t3, t2, t1]; simp
      · subst e1 e2
        simpa [addCalls] using p3
      · subst e1 e2
        rw [f3]
        simp [addCalls, answeredTrue]
    · rw [if_pos b1, if_neg b2]
      refine ⟨n1 ++ n2, ?_, ?_, by simp [ne1], ?_⟩
      · rw [t2, t1]; simp
      · subst e1
        obtain ⟨rest, hrest⟩ := p2
        refine ⟨rest ++ [Call.create_device,
          Call.create_resource_instance DeviceResource.PowerSourceCurrent 0 i], ?_⟩
        simp only [List.map_append, List.append_assoc, addCalls]
        rw [← List.append_assoc (List.map Prod.fst n2), hrest]
        rfl
      · subst e1
        have hne : n2 ≠ [(Call.create_device, Ret.bool true),
            (Call.create_resource_instance DeviceResource.PowerSourceVoltage 0 i,
              Ret.bool true)] := fun h => b2 (f2.2 h)
        simp only [Bool.false_eq_true, false_iff]
        intro h
        apply hne
        have hl : n2.length ≤ 2 := by simpa using p2.length_le
        have h2 := congrArg (fun l => (l.drop 2).take 2) h
        simp only [List.drop_append_of_le_length, List.length_cons, List.length_nil, List.drop_left, addCalls] at h2
        simpa [List.take_of_length_le hl, answeredTrue] using h2
  · rw [if_neg b1]
    refine ⟨n1, t1, ?_, ne1, ?_⟩
    · obtain ⟨rest, hrest⟩ := p1
      refine ⟨rest ++ [Call.create_device,
        Call.create_resource_instance DeviceResource.PowerSourceVoltage 0 i, Call.create_device,
        Call.create_resource_instance DeviceResource.PowerSourceCurrent 0 i], ?_⟩
      rw [← List.append_assoc, hrest]
      rfl
    · have hne : n1 ≠ [(Call.create_device, Ret.bool true),
          (Call.create_resource_instance DeviceResource.AvailablePowerSources (k.toNat : Int) i,
            Ret.bool true)] := fun h => b1 (f1.2 h)
      simp only [Bool.false_eq_true, false_iff]
      intro h
      apply hne
      have hl : n1.length ≤ 2 := by simpa using p1.length_le
      have h2 := congrArg (fun l => l.take 2) h
      simpa [List.take_of_length_le hl, addCalls, answeredTrue] using h2

theorem getD_set_same {l : List Nat} {i : Nat} (v : Nat) (h : i < l.length) :
    (l.set i v).getD i 0 = v := by
  simp [List.getD_eq_getElem?_getD, h]

theorem getD_set_other {l : List Nat} {i j : Nat} (v : Nat) (h : j ≠ i) :
    (l.set i v).getD j 0 = l.getD j 0 := by
  simp [List.getD_eq_getElem?_getD, List.getElem?_set_ne (Ne.symm h)]

theorem add_registry {σ : Type} (E : Collaborators σ) (k : PowerSource) (s : CloudClientDm)
    (w : World σ) {i : Nat}
    (hi : IsFirstSlot s._powerSourceInstance PowerSource.POWER_SOURCE_UNUSED.toNat i) :
    (addDeviceObjectPowerSource E k s w).2.1 =
      { s with _powerSourceInstance := s._powerSourceInstance.set i k.toNat } := by
  rw [add_of_first E k s w hi]
  split_ifs <;> rfl

theorem create_instance_ok {σ : Type} {E : Collaborators σ} (h : CreationsSucceed E)
    (r : DeviceResource) (v : Int) (i : Nat) (w : World σ) :
    (createDeviceObjectResource_instance E r v i w).1 = true := by
  simp [createDeviceObjectResource_instance, callBool, (h _).1, (h _).2]

theorem add_ok {σ : Type} {E : Collaborators σ} (h : CreationsSucceed E) (k : PowerSource)
    (s : CloudClientDm) (w : World σ) {i : Nat}
    (hi : IsFirstSlot s._powerSourceInstance PowerSource.POWER_SOURCE_UNUSED.toNat i) :
    (addDeviceObjectPowerSource E k s w).1 = true := by
  rw [add_of_first E k s w hi]
  simp [create_instance_ok h]

theorem add_ok_trace {σ : Type} {E : Collaborators σ} (h : CreationsSucceed E) (k : PowerSource)
    (s : CloudClientDm) (w : World σ) {i : Nat}
    (hi : IsFirstSlot s._powerSourceInstance PowerSource.POWER_SOURCE_UNUSED.toNat i) :
    (addDeviceObjectPowerSource E k s w).2.2.trace =
      w.trace ++ (addCalls k i).map answeredTrue := by
  obtain ⟨new, htrace, _, _, hiff⟩ := add_trace E k s w hi
  rw [htrace, hiff.1 (add_ok h k s w hi)]

/-- C1: in a registry with an unused slot, `addDeviceObjectPowerSource(k)` writes
`k` into the lowest-index unused slot `i`, leaves every other slot as it was,
and the calls it issues are a non-empty initial part of the six creation calls
at instance `i`; and from the constructed registry, when every creation
succeeds, adding DC, USB and Solar returns `true` three times, issues the
creations at instances 0, 1 and 2, and fills slots 0, 1 and 2. -/
theorem C1_add_takes_first_unused_slot {σ : Type} (E : Collaborators σ) :
    (∀ (k : PowerSource) (s : CloudClientDm) (w : World σ),
      WellSized s →
      HoldsSomewhere s._powerSourceInstance PowerSource.POWER_SOURCE_UNUSED.toNat →
      ∃ i, IsFirstSlot s._powerSourceInstance PowerSource.POWER_SOURCE_UNUSED.toNat i ∧
        (addDeviceObjectPowerSource E k s w).2.1._powerSourceInstance.length =
          sizeofPowerSourceInstance ∧
        (addDeviceObjectPowerSource E k s w).2.1._powerSourceInstance.getD i 0 = k.toNat ∧
        (∀ j, j ≠ i →
          (addDeviceObjectPowerSource E k s w).2.1._powerSourceInstance.getD j 0 =
            s._powerSourceInstance.getD j 0) ∧
        ∃ new, (addDeviceObjectPowerSource E k s w).2.2.trace = w.trace ++ new ∧
          new ≠ [] ∧ new.map Prod.fst <+: addCalls k i) ∧
    (CreationsSucceed E → ∀ (debugOn cb1 cb2 cb3 : Bool) (w : World σ),
      (addDeviceObjectPowerSource E PowerSource.POWER_SOURCE_DC
        (CloudClientDm.new debugOn cb1 cb2 cb3) w).1 = true ∧
      (addDeviceObjectPowerSource E PowerSource.POWER_SOURCE_USB
        (addDeviceObjectPowerSource E PowerSource.POWER_SOURCE_DC
          (CloudClientDm.new debugOn cb1 cb2 cb3) w).2.1
        (addDeviceObjectPowerSource E PowerSource.POWER_SOURCE_DC
          (CloudClientDm.new debugOn cb1 cb2 cb3) w).2.2).1 = true ∧
      (addDeviceObjectPowerSource E PowerSource.POWER_SOURCE_SOLAR
        (addDeviceObjectPowerSource E PowerSource.POWER_SOURCE_USB
          (addDeviceObjectPowerSource E PowerSource.POWER_SOURCE_DC
            (CloudClientDm.new debugOn cb1 cb2 cb3) w).2.1
          (addDeviceObjectPowerSource E PowerSource.POWER_SOURCE_DC
            (CloudClientDm.new debugOn cb1 cb2 cb3) w).2.2).2.1
        (addDeviceObjectPowerSource E PowerSource.POWER_SOURCE_USB
          (addDeviceObjectPowerSource E PowerSource.POWER_SOURCE_DC
            (CloudClientDm.new debugOn cb1 cb2 cb3) w).2.1
          (addDeviceObjectPowerSource E PowerSource.POWER_SOURCE_DC
            (CloudClientDm.new debugOn cb1 cb2 cb3) w).2.2).2.2).1 = true ∧
      (addDeviceObjectPowerSource E PowerSource.POWER_SOURCE_SOLAR
        (addDeviceObjectPowerSource E PowerSource.POWER_SOURCE_USB
          (addDeviceObjectPowerSource E PowerSource.POWER_SOURCE_DC
            (CloudClientDm.new debugOn cb1 cb2 cb3) w).2.1
          (addDeviceObjectPowerSource E PowerSource.POWER_SOURCE_DC
            (CloudClientDm.new debugOn cb1 cb2 cb3) w).2.2).2.1
        (addDeviceObjectPowerSource E PowerSource.POWER_SOURCE_USB
          (addDeviceObjectPowerSource E PowerSource.POWER_SOURCE_DC
            (CloudClientDm.new debugOn cb1 cb2 cb3) w).2.1
          (addDeviceObjectPowerSource E PowerSource.POWER_SOURCE_DC
            (CloudClientDm.new debugOn cb1 cb2 cb3) w).2.2).2.2).2.1._powerSourceInstance =
        [PowerSource.POWER_SOURCE_DC.toNat, PowerSource.POWER_SOURCE_USB.toNat,
         PowerSource.POWER_SOURCE_SOLAR.toNat, PowerSource.POWER_SOURCE_UNUSED.toNat,
         PowerSource.POWER_SOURCE_UNUSED.toNat, PowerSource.POWER_SOURCE_UNUSED.toNat,
         PowerSource.POWER_SOURCE_UNUSED.toNat, PowerSource.POWER_SOURCE_UNUSED.toNat] ∧
      (addDeviceObjectPowerSource E PowerSource.POWER_SOURCE_SOLAR
        (addDeviceObjectPowerSource E PowerSource.POWER_SOURCE_USB
          (addDeviceObjectPowerSource E PowerSource.POWER_SOURCE_DC
            (CloudClientDm.new debugOn cb1 cb2 cb3) w).2.1
          (addDeviceObjectPowerSource E PowerSource.POWER_SOURCE_DC
            (CloudClientDm.new debugOn cb1 cb2 cb3) w).2.2).2.1
        (addDeviceObjectPowerSource E PowerSource.POWER_SOURCE_USB
          (addDeviceObjectPowerSource E PowerSource.POWER_SOURCE_DC
            (CloudClientDm.new debugOn cb1 cb2 cb3) w).2.1
          (addDeviceObjectPowerSource E PowerSource.POWER_SOURCE_DC
            (CloudClientDm.new debugOn cb1 cb2 cb3) w).2.2).2.2).2.2.trace =
        w.trace ++ (addCalls PowerSource.POWER_SOURCE_DC 0).map answeredTrue ++
          (addCalls PowerSource.POWER_SOURCE_USB 1).map answeredTrue ++
          (addCalls PowerSource.POWER_SOURCE_SOLAR 2).map answeredTrue) := by
  constructor
  · intro k s w hs hfree
    obtain ⟨i, hi⟩ := exists_first_of_holds hfree
    have hlen : i < s._powerSourceInstance.length := by rw [hs]; exact hi.1
    obtain ⟨new, htrace, hpre, hne, _⟩ := add_trace E k s w hi
    refine ⟨i, hi, ?_, ?_, ?_, new, htrace, hne, hpre⟩
    · rw [add_registry E k s w hi]
      simpa using hs
    · rw [add_registry E k s w hi]
      exact getD_set_same _ hlen
    · intro j hj
      rw [add_registry E k s w hi]
      exact getD_set_other _ hj
  · intro hok debugOn cb1 cb2 cb3 w
    have h0 : IsFirstSlot (CloudClientDm.new debugOn cb1 cb2 cb3)._powerSourceInstance
        PowerSource.POWER_SOURCE_UNUSED.toNat 0 :=
      ⟨by decide, rfl, fun j hj => absurd hj (Nat.not_lt_zero j)⟩
    have r1 : (addDeviceObjectPowerSource E PowerSource.POWER_SOURCE_DC
        (CloudClientDm.new debugOn cb1 cb2 cb3) w).2.1._powerSourceInstance =
        [0, 255, 255, 255, 255, 255, 255, 255] := by
      rw [add_registry E PowerSource.POWER_SOURCE_DC _ w h0]
      rfl
    have h1 : IsFirstSlot (addDeviceObjectPowerSource E PowerSource.POWER_SOURCE_DC
        (CloudClientDm.new debugOn cb1 cb2 cb3) w).2.1._powerSourceInstance
        PowerSource.POWER_SOURCE_UNUSED.toNat 1 := by
      rw [r1]
      decide
    have r2 : (addDeviceObjectPowerSource E PowerSource.POWER_SOURCE_USB
        (addDeviceObjectPowerSource E PowerSource.POWER_SOURCE_DC
          (CloudClientDm.new debugOn cb1 cb2 cb3) w).2.1
        (addDeviceObjectPowerSource E PowerSource.POWER_SOURCE_DC
          (CloudClientDm.new debugOn cb1 cb2 cb3) w).2.2).2.1._powerSourceInstance =
        [0, 5, 255, 255, 255, 255, 255, 255] := by
      rw [add_registry E PowerSource.POWER_SOURCE_USB _ _ h1]
      simp only [r1]
      rfl
    have h2 : IsFirstSlot (addDeviceObjectPowerSource E PowerSource.POWER_SOURCE_USB
        (addDeviceObjectPowerSource E PowerSource.POWER_SOURCE_DC
          (CloudClientDm.new debugOn cb1 cb2 cb3) w).2.1
        (addDeviceObjectPowerSource E PowerSource.POWER_SOURCE_DC
          (CloudClientDm.new debugOn cb1 cb2 cb3) w).2.2).2.1._powerSourceInstance
        PowerSource.POWER_SOURCE_UNUSED.toNat 2 := by
      rw [r2]
      decide
    refine ⟨add_ok hok _ _ _ h0, add_ok hok _ _ _ h1, add_ok hok _ _ _ h2, ?_, ?_⟩
    · rw [add_registry E _ _ _ h2]
      simp only [r2]
      rfl
    · rw [add_ok_trace hok _ _ _ h2, add_ok_trace hok _ _ _ h1, add_ok_trace hok _ _ _ h0]

/-- Instance of C1 on the constructed registry with collaborators that accept
everything. -/
theorem C1_add_takes_first_unused_slot_witness :
    WellSized fresh ∧
    HoldsSomewhere fresh._powerSourceInstance PowerSource.POWER_SOURCE_UNUSED.toNat ∧
    CreationsSucceed allSucceed ∧
    (∃ i, IsFirstSlot fresh._powerSourceInstance PowerSource.POWER_SOURCE_UNUSED.toNat i ∧
      (addDeviceObjectPowerSource allSucceed PowerSource.POWER_SOURCE_USB fresh
        emptyWorld).2.1._powerSourceInstance.getD i 0 = PowerSource.POWER_SOURCE_USB.toNat) ∧
    (addDeviceObjectPowerSource allSucceed PowerSource.POWER_SOURCE_DC
      (CloudClientDm.new false false false false) emptyWorld).1 = true :=
  ⟨by decide, by decide, fun _ => ⟨rfl, fun _ _ _ => rfl⟩,
    (match (C1_add_takes_first_unused_slot allSucceed).1 PowerSource.POWER_SOURCE_USB fresh
        emptyWorld (by decide) (by decide) with
      | ⟨i, hi, _, hset, _⟩ => ⟨i, hi, hset⟩),
    ((C1_add_takes_first_unused_slot allSucceed).2 (fun _ => ⟨rfl, fun _ _ _ => rfl⟩)
      false false false false emptyWorld).1⟩

/-! ## A full registry, an absent kind -/

theorem add_of_full {σ : Type} (E : Collaborators σ) (k : PowerSource) (s : CloudClientDm)
    (w : World σ)
    (hfull : ¬ HoldsSomewhere s._powerSourceInstance PowerSource.POWER_SOURCE_UNUSED.toNat) :
    addDeviceObjectPowerSource E k s w = (false, s, w) := by
  simp [addDeviceObjectPowerSource, findSlot_of_absent hfull]

/-- C3: when no slot of the registry is unused, `addDeviceObjectPowerSource`
returns `false`, issues no call at all (the trace and the collaborators are as
before) and leaves the facade, with every slot of the registry, as it was. -/
theorem C3_add_fails_when_full {σ : Type} (E : Collaborators σ) (k : PowerSource)
    (s : CloudClientDm) (w : World σ)
    (hfull : ¬ HoldsSomewhere s._powerSourceInstance PowerSource.POWER_SOURCE_UNUSED.toNat) :
    (addDeviceObjectPowerSource E k s w).1 = false ∧
    (addDeviceObjectPowerSource E k s w).2.2 = w ∧
    (addDeviceObjectPowerSource E k s w).2.1 = s ∧
    ∀ j, (addDeviceObjectPowerSource E k s w).2.1._powerSourceInstance.getD j 0 =
      s._powerSourceInstance.getD j 0 := by
  rw [add_of_full E k s w hfull]
  exact ⟨rfl, rfl, rfl, fun _ => rfl⟩

/-- Instance of C3 on a registry whose eight slots are occupied. -/
theorem C3_add_fails_when_full_witness :
    ¬ HoldsSomewhere fullyOccupied._powerSourceInstance PowerSource.POWER_SOURCE_UNUSED.toNat ∧
    (addDeviceObjectPowerSource allSucceed PowerSource.POWER_SOURCE_DC fullyOccupied
      emptyWorld).1 = false ∧
    (addDeviceObjectPowerSource allSucceed PowerSource.POWER_SOURCE_DC fullyOccupied
      emptyWorld).2.2 = emptyWorld :=
  ⟨by decide,
    (C3_add_fails_when_full allSucceed PowerSource.POWER_SOURCE_DC fullyOccupied emptyWorld
      (by decide)).1,
    (C3_add_fails_when_full allSucceed PowerSource.POWER_SOURCE_DC fullyOccupied emptyWorld
      (by decide)).2.1⟩

/-- C5: for a kind that occupies no slot, `setDeviceObjectVoltage` and
`setDeviceObjectCurrent` return `false` and issue no call at all: the world,
trace included, is as before.  Neither method writes a member variable, so the
registry is the one the call found. -/
theorem C5_set_on_absent_kind {σ : Type} (E : Collaborators σ) (k : PowerSource)
    (v c : Int) (s : CloudClientDm) (w : World σ)
    (habsent : ¬ HoldsSomewhere s._powerSourceInstance k.toNat) :
    setDeviceObjectVoltage E k v s w = (false, w) ∧
    setDeviceObjectCurrent E k c s w = (false, w) := by
  refine ⟨?_, ?_⟩
  · simp [setDeviceObjectVoltage, findSlot_of_absent habsent]
  · simp [setDeviceObjectCurrent, findSlot_of_absent habsent]

/-- Instance of C5: Solar on the constructed registry. -/
theorem C5_set_on_absent_kind_witness :
    ¬ HoldsSomewhere fresh._powerSourceInstance PowerSource.POWER_SOURCE_SOLAR.toNat ∧
    setDeviceObjectVoltage allSucceed PowerSource.POWER_SOURCE_SOLAR 3300 fresh emptyWorld =
      (false, emptyWorld) ∧
    setDeviceObjectCurrent allSucceed PowerSource.POWER_SOURCE_SOLAR 20 fresh emptyWorld =
      (false, emptyWorld) :=
  ⟨by decide,
    (C5_set_on_absent_kind allSucceed PowerSource.POWER_SOURCE_SOLAR 3300 20 fresh emptyWorld
      (by decide)).1,
    (C5_set_on_absent_kind allSucceed PowerSource.POWER_SOURCE_SOLAR 3300 20 fresh emptyWorld
      (by decide)).2⟩

/-! ## Deleting a power source -/

theorem delete_of_first {σ : Type} (E : Collaborators σ) (k : PowerSource) (s : CloudClientDm)
    (w : World σ) {i : Nat} (hi : IsFirstSlot s._powerSourceInstance k.toNat i) :
    deleteDeviceObjectPowerSource E k s w =
      (if (deleteDeviceObjectResource_instance E DeviceResource.AvailablePowerSources i w).1 then
        if (deleteDeviceObjectResource_instance E DeviceResource.PowerSourceVoltage i
            (deleteDeviceObjectResource_instance E DeviceResource.AvailablePowerSources
              i w).2).1 then
          if (deleteDeviceObjectResource_instance E DeviceResource.PowerSourceCurrent i
              (deleteDeviceObjectResource_instance E DeviceResource.PowerSourceVoltage i
                (deleteDeviceObjectResource_instance E DeviceResource.AvailablePowerSources
                  i w).2).2).1 then
            (true,
              { s with _powerSourceInstance :=
                  s._powerSourceInstance.set i PowerSource.POWER_SOURCE_UNUSED.toNat },
              (deleteDeviceObjectResource_instance E DeviceResource.PowerSourceCurrent i
                (deleteDeviceObjectResource_instance E DeviceResource.PowerSourceVoltage i
                  (deleteDeviceObjectResource_instance E DeviceResource.AvailablePowerSources
                    i w).2).2).2)
          else
            (false, s,
              (deleteDeviceObjectResource_instance E DeviceResource.PowerSourceCurrent i
                (deleteDeviceObjectResource_instance E DeviceResource.PowerSourceVoltage i
                  (deleteDeviceObjectResource_instance E DeviceResource.AvailablePowerSources
                    i w).2).2).2)
        else
          (false, s,
            (deleteDeviceObjectResource_instance E DeviceResource.PowerSourceVoltage i
              (deleteDeviceObjectResource_instance E DeviceResource.AvailablePowerSources
                i w).2).2)
      else
        (false, s,
          (deleteDeviceObjectResource_instance E DeviceResource.AvailablePowerSources i w).2)) := by
  simp only [deleteDeviceObjectPowerSource, findSlot_of_first hi, decrement16_succ hi.1, if_true]

theorem delete_of_absent {σ : Type} (E : Collaborators σ) (k : PowerSource) (s : CloudClientDm)
    (w : World σ) (habsent : ¬ HoldsSomewhere s._powerSourceInstance k.toNat) :
    deleteDeviceObjectPowerSource E k s w = (false, s, w) := by
  simp [deleteDeviceObjectPowerSource, findSlot_of_absent habsent]

theorem delete_instance_trace {σ : Type} (E : Collaborators σ) (r : DeviceResource)
    (i : Nat) (w : World σ) :
    ∃ new, (deleteDeviceObjectResource_instance E r i w).2.trace = w.trace ++ new ∧
      new ≠ [] ∧
      new.map Prod.fst <+: [Call.create_device, Call.delete_resource_instance r i] ∧
      ((deleteDeviceObjectResource_instance E r i w).1 = true ↔
        new = [(Call.create_device, Ret.bool true),
               (Call.delete_resource_instance r i, Ret.bool true)]) := by
  unfold deleteDeviceObjectResource_instance
  by_cases hd : E.retBool Call.create_device w.dev = true
  · refine ⟨[(Call.create_device, Ret.bool true),
      (Call.delete_resource_instance r i,
        Ret.bool (E.retBool (Call.delete_resource_instance r i)
          (E.next Call.create_device w.dev)))], ?_, by simp, by simp, ?_⟩
    · simp [callBool, hd]
    · simp only [callBool, hd, if_true]
      constructor
      · intro h
        rw [h]
      · intro h
        simpa using h
  · refine ⟨[(Call.create_device, Ret.bool false)], ?_, by simp, ?_, ?_⟩
    · simp at hd
      simp [callBool, hd]
    · exact ⟨[Call.delete_resource_instance r i], rfl⟩
    · simp at hd
      simp [callBool, hd]

theorem delete_trace {σ : Type} (E : Collaborators σ) (k : PowerSource) (s : CloudClientDm)
    (w : World σ) {i : Nat} (hi : IsFirstSlot s._powerSourceInstance k.toNat i) :
    ∃ new, (deleteDeviceObjectPowerSource E k s w).2.2.trace = w.trace ++ new ∧
      new.map Prod.fst <+: deleteCalls i ∧ new ≠ [] ∧
      ((deleteDeviceObjectPowerSource E k s w).1 = true ↔
        new = (deleteCalls i).map answeredTrue) := by
  rw [delete_of_first E k s w hi]
  obtain ⟨n1, t1, ne1, p1, f1⟩ :=
    delete_instance_trace E DeviceResource.AvailablePowerSources i w
  obtain ⟨n2, t2, ne2, p2, f2⟩ := delete_instance_trace E DeviceResource.PowerSourceVoltage i
    (deleteDeviceObjectResource_instance E DeviceResource.AvailablePowerSources i w).2
  obtain ⟨n3, t3, ne3, p3, f3⟩ := delete_instance_trace E DeviceResource.PowerSourceCurrent i
    (deleteDeviceObjectResource_instance E DeviceResource.PowerSourceVoltage i
      (deleteDeviceObjectResource_instance E DeviceResource.AvailablePowerSources i w).2).2
  by_cases b1 : (deleteDeviceObjectResource_instance E DeviceResource.AvailablePowerSources
      i w).1 = true
  · have e1 := f1.1 b1
    by_cases b2 : (deleteDeviceObjectResource_instance E DeviceResource.PowerSourceVoltage i
        (deleteDeviceObjectResource_instance E DeviceResource.AvailablePowerSources
          i w).2).1 = true
    · have e2 := f2.1 b2
      have hpre : List.map Prod.fst (n1 ++ n2 ++ n3) <+: deleteCalls i := by
        subst e1 e2
        simpa [deleteCalls] using p3
      have htr : (deleteDeviceObjectResource_instance E DeviceResource.PowerSourceCurrent i
          (deleteDeviceObjectResource_instance E DeviceResource.PowerSourceVoltage i
            (deleteDeviceObjectResource_instance E DeviceResource.AvailablePowerSources
              i w).2).2).2.trace = w.trace ++ (n1 ++ n2 ++ n3) := by
        rw [t3, t2, t1]; simp
      by_cases b3 : (deleteDeviceObjectResource_instance E DeviceResource.PowerSourceCurrent i
          (deleteDeviceObjectResource_instance E DeviceResource.PowerSourceVoltage i
            (deleteDeviceObjectResource_instance E DeviceResource.AvailablePowerSources
              i w).2).2).1 = true
      · rw [if_pos b1, if_pos b2, if_pos b3]
        refine ⟨n1 ++ n2 ++ n3, htr, hpre, by simp [ne1], ?_⟩
        have e3 := f3.1 b3
        subst e1 e2 e3
        simp [deleteCalls, answeredTrue]
      · rw [if_pos b1, if_pos b2, if_neg b3]
        refine ⟨n1 ++ n2 ++ n3, htr, hpre, by simp [ne1], ?_⟩
        subst e1 e2
        have hne : n3 ≠ [(Call.create_device, Ret.bool true),
            (Call.delete_resource_instance DeviceResource.PowerSourceCurrent i,
              Ret.bool true)] := fun h => b3 (f3.2 h)
        simp only [Bool.false_eq_true, false_iff]
        intro h
        apply hne
        simpa [deleteCalls, answeredTrue] using h
    · rw [if_pos b1, if_neg b2]
      refine ⟨n1 ++ n2, ?_, ?_, by simp [ne1], ?_⟩
      · rw [t2, t1]; simp
      · subst e1
        obtain ⟨rest, hrest⟩ := p2
        refine ⟨rest ++ [Call.create_device,
          Call.delete_resource_instance DeviceResource.PowerSourceCurrent i], ?_⟩
        simp only [List.map_append, List.append_assoc, deleteCalls]
        rw [← List.append_assoc (List.map Prod.fst n2), hrest]
        rfl
      · subst e1
        have hne : n2 ≠ [(Call.create_device, Ret.bool true),
            (Call.delete_resource_instance DeviceResource.PowerSourceVoltage i,
              Ret.bool true)] := fun h => b2 (f2.2 h)
        simp only [Bool.false_eq_true, false_iff]
        intro h
        apply hne
        have hl : n2.length ≤ 2 := by simpa using p2.length_le
        have h2 := congrArg (fun l => (l.drop 2).take 2) h
        simp only [List.drop_append_of_le_length, List.length_cons, List.length_nil,
          List.drop_left, deleteCalls] at h2
        simpa [List.take_of_length_le hl, answeredTrue] using h2
  · rw [if_neg b1]
    refine ⟨n1, t1, ?_, ne1, ?_⟩
    · obtain ⟨rest, hrest⟩ := p1
      refine ⟨rest ++ [Call.create_device,
        Call.delete_resource_instance DeviceResource.PowerSourceVoltage i, Call.create_device,
        Call.delete_resource_instance DeviceResource.PowerSourceCurrent i], ?_⟩
      rw [← List.append_assoc, hrest]
      rfl
    · have hne : n1 ≠ [(Call.create_device, Ret.bool true),
          (Call.delete_resource_instance DeviceResource.AvailablePowerSources i,
            Ret.bool true)] := fun h => b1 (f1.2 h)
      simp only [Bool.false_eq_true, false_iff]
      intro h
      apply hne
      have hl : n1.length ≤ 2 := by simpa using p1.length_le
      have h2 := congrArg (fun l => l.take 2) h
      simpa [List.take_of_length_le hl, deleteCalls, answeredTrue] using h2

theorem delete_registry {σ : Type} (E : Collaborators σ) (k : PowerSource) (s : CloudClientDm)
    (w : World σ) {i : Nat} (hi : IsFirstSlot s._powerSourceInstance k.toNat i) :
    ((deleteDeviceObjectPowerSource E k s w).1 = true →
      (deleteDeviceObjectPowerSource E k s w).2.1 =
        { s with _powerSourceInstance :=
            s._powerSourceInstance.set i PowerSource.POWER_SOURCE_UNUSED.toNat }) ∧
    ((deleteDeviceObjectPowerSource E k s w).1 = false →
      (deleteDeviceObjectPowerSource E k s w).2.1 = s) := by
  rw [delete_of_first E k s w hi]
  split_ifs <;> simp

theorem issued_of_trace {σ : Type} {w w1 : World σ} {new : List (Call × Ret)}
    (h : w1.trace = w.trace ++ new) : issued w w1 = new := by
  simp [issued, h]

theorem delete_ok {σ : Type} {E : Collaborators σ} (h : DeletionsSucceed E) (k : PowerSource)
    (s : CloudClientDm) (w : World σ) {i : Nat}
    (hi : IsFirstSlot s._powerSourceInstance k.toNat i) :
    (deleteDeviceObjectPowerSource E k s w).1 = true := by
  rw [delete_of_first E k s w hi]
  simp [deleteDeviceObjectResource_instance, callBool, (h _).1, (h _).2]

theorem delete_trace_contract {σ : Type} (E : Collaborators σ)
    (k : PowerSource) (s : CloudClientDm) (w : World σ) (hs : WellSized s) :
    ((deleteDeviceObjectPowerSource E k s w).1 = true ↔
      ∃ i, IsFirstSlot s._powerSourceInstance k.toNat i ∧
        issued w (deleteDeviceObjectPowerSource E k s w).2.2 =
          (deleteCalls i).map answeredTrue) ∧
    ((deleteDeviceObjectPowerSource E k s w).1 = true →
      ∃ i, IsFirstSlot s._powerSourceInstance k.toNat i ∧
        (deleteDeviceObjectPowerSource E k s w).2.1._powerSourceInstance.length =
          sizeofPowerSourceInstance ∧
        (deleteDeviceObjectPowerSource E k s w).2.1._powerSourceInstance.getD i 0 =
          PowerSource.POWER_SOURCE_UNUSED.toNat ∧
        ∀ j, j ≠ i →
          (deleteDeviceObjectPowerSource E k s w).2.1._powerSourceInstance.getD j 0 =
            s._powerSourceInstance.getD j 0) ∧
    ((deleteDeviceObjectPowerSource E k s w).1 = false →
      (deleteDeviceObjectPowerSource E k s w).2.1 = s) := by
  by_cases hk : HoldsSomewhere s._powerSourceInstance k.toNat
  · obtain ⟨i, hi⟩ := exists_first_of_holds hk
    obtain ⟨new, htrace, _, _, hiff⟩ := delete_trace E k s w hi
    have hreg := delete_registry E k s w hi
    have hlen : i < s._powerSourceInstance.length := by rw [hs]; exact hi.1
    refine ⟨⟨fun h => ⟨i, hi, ?_⟩, ?_⟩, fun h => ⟨i, hi, ?_, ?_, ?_⟩, hreg.2⟩
    · rw [issued_of_trace htrace]
      exact hiff.1 h
    · rintro ⟨i0, hi0, hcalls⟩
      rw [issued_of_trace htrace, isFirstSlot_unique hi0 hi] at hcalls
      exact hiff.2 hcalls
    · rw [hreg.1 h]
      simpa using hs
    · rw [hreg.1 h]
      exact getD_set_same _ hlen
    · intro j hj
      rw [hreg.1 h]
      exact getD_set_other _ hj
  · rw [delete_of_absent E k s w hk]
    refine ⟨⟨fun h => by simp at h, ?_⟩, fun h => by simp at h, fun _ => rfl⟩
    rintro ⟨i0, hi0, _⟩
    exact absurd ⟨i0, hi0.1, hi0.2.1⟩ hk

theorem add_trace_contract {σ : Type} (E : Collaborators σ)
    (k : PowerSource) (s : CloudClientDm) (w : World σ) (hs : WellSized s) :
    ((addDeviceObjectPowerSource E k s w).1 = true ↔
      ∃ i, IsFirstSlot s._powerSourceInstance PowerSource.POWER_SOURCE_UNUSED.toNat i ∧
        issued w (addDeviceObjectPowerSource E k s w).2.2 = (addCalls k i).map answeredTrue) ∧
    (∀ i, IsFirstSlot s._powerSourceInstance PowerSource.POWER_SOURCE_UNUSED.toNat i →
      (addDeviceObjectPowerSource E k s w).2.1._powerSourceInstance.getD i 0 = k.toNat ∧
      (∀ e, e ∈ issued w (addDeviceObjectPowerSource E k s w).2.2 →
        (∀ r, e.1 ≠ Call.delete_resource r) ∧
        (∀ r j, e.1 ≠ Call.delete_resource_instance r j)) ∧
      ((∃ c, (c, Ret.bool false) ∈ issued w (addDeviceObjectPowerSource E k s w).2.2) →
        (addDeviceObjectPowerSource E k s w).1 = false)) := by
  by_cases hk : HoldsSomewhere s._powerSourceInstance PowerSource.POWER_SOURCE_UNUSED.toNat
  · obtain ⟨i, hi⟩ := exists_first_of_holds hk
    obtain ⟨new, htrace, hpre, _, hiff⟩ := add_trace E k s w hi
    have hlen : i < s._powerSourceInstance.length := by rw [hs]; exact hi.1
    refine ⟨⟨fun h => ⟨i, hi, ?_⟩, ?_⟩, ?_⟩
    · rw [issued_of_trace htrace]
      exact hiff.1 h
    · rintro ⟨i0, hi0, hcalls⟩
      rw [issued_of_trace htrace, isFirstSlot_unique hi0 hi] at hcalls
      exact hiff.2 hcalls
    · intro i0 hi0
      rw [isFirstSlot_unique hi0 hi, issued_of_trace htrace]
      refine ⟨?_, ?_, ?_⟩
      · rw [add_registry E k s w hi]
        exact getD_set_same _ hlen
      · intro e he
        have hmem : e.1 ∈ addCalls k i :=
          hpre.subset (List.mem_map_of_mem Prod.fst he)
        constructor
        · intro r hr
          rw [hr] at hmem
          simp [addCalls] at hmem
        · intro r j hr
          rw [hr] at hmem
          simp [addCalls] at hmem
      · rintro ⟨c, hc⟩
        cases hres : (addDeviceObjectPowerSource E k s w).1 with
        | false => rfl
        | true =>
          rw [hiff.1 hres] at hc
          simp [addCalls, answeredTrue] at hc
  · rw [add_of_full E k s w hk]
    refine ⟨⟨fun h => by simp at h, ?_⟩, ?_⟩
    · rintro ⟨i0, hi0, _⟩
      exact absurd ⟨i0, hi0.1, hi0.2.1⟩ hk
    · intro i0 hi0
      exact absurd ⟨i0, hi0.1, hi0.2.1⟩ hk

theorem add_exact {σ : Type} (E : Collaborators σ) (k : PowerSource) (s : CloudClientDm)
    (w : World σ) {i : Nat}
    (hi : IsFirstSlot s._powerSourceInstance PowerSource.POWER_SOURCE_UNUSED.toNat i) :
    (addDeviceObjectPowerSource E k s w).1 = allAnswerTrue E (addCalls k i) w.dev ∧
    (addDeviceObjectPowerSource E k s w).2.2.trace =
      w.trace ++ answersUntilFalse E (addCalls k i) w.dev := by
  rw [add_of_first E k s w hi]
  simp only [createDeviceObjectResource_instance, callBool, addCalls, allAnswerTrue,
    answersUntilFalse]
  cases h1 : E.retBool Call.create_device w.dev <;> simp [h1]
  cases h2 : E.retBool (Call.create_resource_instance DeviceResource.AvailablePowerSources
    (k.toNat : Int) i) (E.next Call.create_device w.dev) <;> simp [h2]
  cases h3 : E.retBool Call.create_device
    (E.next (Call.create_resource_instance DeviceResource.AvailablePowerSources
      (k.toNat : Int) i) (E.next Call.create_device w.dev)) <;> simp [h3]
  cases h4 : E.retBool (Call.create_resource_instance DeviceResource.PowerSourceVoltage 0 i)
    (E.next Call.create_device
      (E.next (Call.create_resource_instance DeviceResource.AvailablePowerSources
        (k.toNat : Int) i) (E.next Call.create_device w.dev))) <;> simp [h4]
  cases h5 : E.retBool Call.create_device
    (E.next (Call.create_resource_instance DeviceResource.PowerSourceVoltage 0 i)
      (E.next Call.create_device
        (E.next (Call.create_resource_instance DeviceResource.AvailablePowerSources
          (k.toNat : Int) i) (E.next Call.create_device w.dev)))) <;> simp [h5]

theorem delete_exact {σ : Type} (E : Collaborators σ) (k : PowerSource) (s : CloudClientDm)
    (w : World σ) {i : Nat} (hi : IsFirstSlot s._powerSourceInstance k.toNat i) :
    (deleteDeviceObjectPowerSource E k s w).1 = allAnswerTrue E (deleteCalls i) w.dev ∧
    (deleteDeviceObjectPowerSource E k s w).2.2.trace =
      w.trace ++ answersUntilFalse E (deleteCalls i) w.dev := by
  rw [delete_of_first E k s w hi]
  simp only [deleteDeviceObjectResource_instance, callBool, deleteCalls, allAnswerTrue,
    answersUntilFalse]
  cases h1 : E.retBool Call.create_device w.dev <;> simp [h1]
  cases h2 : E.retBool (Call.delete_resource_instance DeviceResource.AvailablePowerSources i)
    (E.next Call.create_device w.dev) <;> simp [h2]
  cases h3 : E.retBool Call.create_device
    (E.next (Call.delete_resource_instance DeviceResource.AvailablePowerSources i)
      (E.next Call.create_device w.dev)) <;> simp [h3]
  cases h4 : E.retBool (Call.delete_resource_instance DeviceResource.PowerSourceVoltage i)
    (E.next Call.create_device
      (E.next (Call.delete_resource_instance DeviceResource.AvailablePowerSources i)
        (E.next Call.create_device w.dev))) <;> simp [h4]
  cases h5 : E.retBool Call.create_device
    (E.next (Call.delete_resource_instance DeviceResource.PowerSourceVoltage i)
      (E.next Call.create_device
        (E.next (Call.delete_resource_instance DeviceResource.AvailablePowerSources i)
          (E.next Call.create_device w.dev)))) <;> simp [h5]
  cases h6 : E.retBool (Call.delete_resource_instance DeviceResource.PowerSourceCurrent i)
    (E.next Call.create_device
      (E.next (Call.delete_resource_instance DeviceResource.PowerSourceVoltage i)
        (E.next Call.create_device
          (E.next (Call.delete_resource_instance DeviceResource.AvailablePowerSources i)
            (E.next Call.create_device w.dev))))) <;> simp [h6]

/-- C6: `deleteDeviceObjectPowerSource(k)` returns `true` exactly when some slot
holds `k` and the Device object gives its handle and accepts the deletion for
each of the three resource instances at the first such slot, in the order
AvailablePowerSources, PowerSourceVoltage, PowerSourceCurrent; when a slot
holds `k` the method's return value is that verdict and its calls are those six
up to and including the first that fails; when all succeed the slot is set to
unused and every other slot is as before; when the method returns `false`
(kind absent, where it issues nothing, or a failure) the facade, registry
included, is as before. -/
theorem C6_delete_frees_only_on_full_success {σ : Type} (E : Collaborators σ)
    (k : PowerSource) (s : CloudClientDm) (w : World σ) (hs : WellSized s) :
    ((deleteDeviceObjectPowerSource E k s w).1 = true ↔
      ∃ i, IsFirstSlot s._powerSourceInstance k.toNat i ∧
        allAnswerTrue E (deleteCalls i) w.dev = true) ∧
    (∀ i, IsFirstSlot s._powerSourceInstance k.toNat i →
      (deleteDeviceObjectPowerSource E k s w).1 = allAnswerTrue E (deleteCalls i) w.dev ∧
      issued w (deleteDeviceObjectPowerSource E k s w).2.2 =
        answersUntilFalse E (deleteCalls i) w.dev ∧
      (allAnswerTrue E (deleteCalls i) w.dev = true →
        (deleteDeviceObjectPowerSource E k s w).2.1 =
          { s with _powerSourceInstance :=
              s._powerSourceInstance.set i PowerSource.POWER_SOURCE_UNUSED.toNat })) ∧
    (¬ HoldsSomewhere s._powerSourceInstance k.toNat →
      deleteDeviceObjectPowerSource E k s w = (false, s, w)) ∧
    ((deleteDeviceObjectPowerSource E k s w).1 = true ↔
      ∃ i, IsFirstSlot s._powerSourceInstance k.toNat i ∧
        issued w (deleteDeviceObjectPowerSource E k s w).2.2 =
          (deleteCalls i).map answeredTrue) ∧
    ((deleteDeviceObjectPowerSource E k s w).1 = true →
      ∃ i, IsFirstSlot s._powerSourceInstance k.toNat i ∧
        (deleteDeviceObjectPowerSource E k s w).2.1._powerSourceInstance.length =
          sizeofPowerSourceInstance ∧
        (deleteDeviceObjectPowerSource E k s w).2.1._powerSourceInstance.getD i 0 =
          PowerSource.POWER_SOURCE_UNUSED.toNat ∧
        ∀ j, j ≠ i →
          (deleteDeviceObjectPowerSource E k s w).2.1._powerSourceInstance.getD j 0 =
            s._powerSourceInstance.getD j 0) ∧
    ((deleteDeviceObjectPowerSource E k s w).1 = false →
      (deleteDeviceObjectPowerSource E k s w).2.1 = s) := by
  have hold := delete_trace_contract E k s w hs
  refine ⟨⟨?_, ?_⟩, ?_, delete_of_absent E k s w, hold.1, hold.2.1, hold.2.2⟩
  · intro h
    by_cases hk : HoldsSomewhere s._powerSourceInstance k.toNat
    · obtain ⟨i, hi⟩ := exists_first_of_holds hk
      exact ⟨i, hi, (delete_exact E k s w hi).1.symm.trans h⟩
    · rw [delete_of_absent E k s w hk] at h
      exact Bool.noConfusion h
  · rintro ⟨i, hi, hall⟩
    exact (delete_exact E k s w hi).1.trans hall
  · intro i hi
    refine ⟨(delete_exact E k s w hi).1, issued_of_trace (delete_exact E k s w hi).2, ?_⟩
    intro hall
    exact (delete_registry E k s w hi).1 ((delete_exact E k s w hi).1.trans hall)

/-- Instance of C6 on a full registry: the external battery, in slot 2, is
deleted when the Device object accepts the three deletions, and is kept, the
method returning `false`, when it rejects them. -/
theorem C6_delete_frees_only_on_full_success_witness :
    WellSized fullyOccupied ∧
    IsFirstSlot fullyOccupied._powerSourceInstance
      PowerSource.POWER_SOURCE_EXTERNAL_BATTERY.toNat 2 ∧
    allAnswerTrue allSucceed (deleteCalls 2) emptyWorld.dev = true ∧
    (deleteDeviceObjectPowerSource allSucceed PowerSource.POWER_SOURCE_EXTERNAL_BATTERY
      fullyOccupied emptyWorld).1 = true ∧
    (deleteDeviceObjectPowerSource allSucceed PowerSource.POWER_SOURCE_EXTERNAL_BATTERY
      fullyOccupied emptyWorld).2.1 =
      { fullyOccupied with _powerSourceInstance :=
          fullyOccupied._powerSourceInstance.set 2 PowerSource.POWER_SOURCE_UNUSED.toNat } ∧
    allAnswerTrue deletionRejected (deleteCalls 2) emptyWorld.dev = false ∧
    (deleteDeviceObjectPowerSource deletionRejected PowerSource.POWER_SOURCE_EXTERNAL_BATTERY
      fullyOccupied emptyWorld).1 = false ∧
    (deleteDeviceObjectPowerSource deletionRejected PowerSource.POWER_SOURCE_EXTERNAL_BATTERY
      fullyOccupied emptyWorld).2.1 = fullyOccupied :=
  ⟨by decide, by decide, by decide,
    (C6_delete_frees_only_on_full_success allSucceed PowerSource.POWER_SOURCE_EXTERNAL_BATTERY
      fullyOccupied emptyWorld (by decide)).1.2 ⟨2, by decide, by decide⟩,
    ((C6_delete_frees_only_on_full_success allSucceed PowerSource.POWER_SOURCE_EXTERNAL_BATTERY
      fullyOccupied emptyWorld (by decide)).2.1 2 (by decide)).2.2 (by decide),
    by decide,
    ((C6_delete_frees_only_on_full_success deletionRejected
      PowerSource.POWER_SOURCE_EXTERNAL_BATTERY fullyOccupied emptyWorld
      (by decide)).2.1 2 (by decide)).1.trans (by decide),
    (C6_delete_frees_only_on_full_success deletionRejected
      PowerSource.POWER_SOURCE_EXTERNAL_BATTERY fullyOccupied emptyWorld
      (by decide)).2.2.2.2.2
      (((C6_delete_frees_only_on_full_success deletionRejected
        PowerSource.POWER_SOURCE_EXTERNAL_BATTERY fullyOccupied emptyWorld
        (by decide)).2.1 2 (by decide)).1.trans (by decide))⟩

/-- C7: `addDeviceObjectPowerSource(k)` returns `true` exactly when there is an
unused slot and the Device object gives its handle and accepts the creation
for each of the three resource instances at the first unused slot
(AvailablePowerSources with value `k`, PowerSourceVoltage 0,
PowerSourceCurrent 0); when there is an unused slot the method's return value
is that verdict, its calls are those six up to and including the first that
fails, none of them a deletion, and the slot is marked with `k` whatever the
verdict; without an unused slot it returns `false` and does nothing. -/
theorem C7_add_keeps_slot_on_failure {σ : Type} (E : Collaborators σ)
    (k : PowerSource) (s : CloudClientDm) (w : World σ) (hs : WellSized s) :
    ((addDeviceObjectPowerSource E k s w).1 = true ↔
      ∃ i, IsFirstSlot s._powerSourceInstance PowerSource.POWER_SOURCE_UNUSED.toNat i ∧
        allAnswerTrue E (addCalls k i) w.dev = true) ∧
    (∀ i, IsFirstSlot s._powerSourceInstance PowerSource.POWER_SOURCE_UNUSED.toNat i →
      (addDeviceObjectPowerSource E k s w).1 = allAnswerTrue E (addCalls k i) w.dev ∧
      issued w (addDeviceObjectPowerSource E k s w).2.2 =
        answersUntilFalse E (addCalls k i) w.dev ∧
      (addDeviceObjectPowerSource E k s w).2.1 =
        { s with _powerSourceInstance := s._powerSourceInstance.set i k.toNat }) ∧
    (¬ HoldsSomewhere s._powerSourceInstance PowerSource.POWER_SOURCE_UNUSED.toNat →
      addDeviceObjectPowerSource E k s w = (false, s, w)) ∧
    ((addDeviceObjectPowerSource E k s w).1 = true ↔
      ∃ i, IsFirstSlot s._powerSourceInstance PowerSource.POWER_SOURCE_UNUSED.toNat i ∧
        issued w (addDeviceObjectPowerSource E k s w).2.2 = (addCalls k i).map answeredTrue) ∧
    (∀ i, IsFirstSlot s._powerSourceInstance PowerSource.POWER_SOURCE_UNUSED.toNat i →
      (addDeviceObjectPowerSource E k s w).2.1._powerSourceInstance.getD i 0 = k.toNat ∧
      (∀ e, e ∈ issued w (addDeviceObjectPowerSource E k s w).2.2 →
        (∀ r, e.1 ≠ Call.delete_resource r) ∧
        (∀ r j, e.1 ≠ Call.delete_resource_instance r j)) ∧
      ((∃ c, (c, Ret.bool false) ∈ issued w (addDeviceObjectPowerSource E k s w).2.2) →
        (addDeviceObjectPowerSource E k s w).1 = false)) := by
  have hold := add_trace_contract E k s w hs
  refine ⟨⟨?_, ?_⟩, ?_, add_of_full E k s w, hold.1, hold.2⟩
  · intro h
    by_cases hk : HoldsSomewhere s._powerSourceInstance PowerSource.POWER_SOURCE_UNUSED.toNat
    · obtain ⟨i, hi⟩ := exists_first_of_holds hk
      exact ⟨i, hi, (add_exact E k s w hi).1.symm.trans h⟩
    · rw [add_of_full E k s w hk] at h
      exact Bool.noConfusion h
  · rintro ⟨i, hi, hall⟩
    exact (add_exact E k s w hi).1.trans hall
  · intro i hi
    exact ⟨(add_exact E k s w hi).1, issued_of_trace (add_exact E k s w hi).2,
      add_registry E k s w hi⟩

/-- Instance of C7 on the constructed registry: mains is added at slot 0 and
the method returns `true` when the Device object accepts the three creations;
when it rejects the voltage creation the method returns `false` after four
calls and slot 0 holds mains all the same. -/
theorem C7_add_keeps_slot_on_failure_witness :
    WellSized fresh ∧
    IsFirstSlot fresh._powerSourceInstance PowerSource.POWER_SOURCE_UNUSED.toNat 0 ∧
    allAnswerTrue allSucceed (addCalls PowerSource.POWER_SOURCE_MAINS 0) emptyWorld.dev =
      true ∧
    (addDeviceObjectPowerSource allSucceed PowerSource.POWER_SOURCE_MAINS fresh
      emptyWorld).1 = true ∧
    allAnswerTrue voltageRejected (addCalls PowerSource.POWER_SOURCE_MAINS 0) emptyWorld.dev =
      false ∧
    (addDeviceObjectPowerSource voltageRejected PowerSource.POWER_SOURCE_MAINS fresh
      emptyWorld).1 = false ∧
    issued emptyWorld (addDeviceObjectPowerSource voltageRejected
      PowerSource.POWER_SOURCE_MAINS fresh emptyWorld).2.2 =
      [(Call.create_device, Ret.bool true),
       (Call.create_resource_instance DeviceResource.AvailablePowerSources 6 0, Ret.bool true),
       (Call.create_device, Ret.bool true),
       (Call.create_resource_instance DeviceResource.PowerSourceVoltage 0 0,
        Ret.bool false)] ∧
    (addDeviceObjectPowerSource voltageRejected PowerSource.POWER_SOURCE_MAINS fresh
      emptyWorld).2.1._powerSourceInstance.getD 0 0 = PowerSource.POWER_SOURCE_MAINS.toNat :=
  ⟨by decide, by decide, by decide,
    (C7_add_keeps_slot_on_failure allSucceed PowerSource.POWER_SOURCE_MAINS fresh
      emptyWorld (by decide)).1.2 ⟨0, by decide, by decide⟩,
    by decide,
    ((C7_add_keeps_slot_on_failure voltageRejected PowerSource.POWER_SOURCE_MAINS fresh
      emptyWorld (by decide)).2.1 0 (by decide)).1.trans (by decide),
    ((C7_add_keeps_slot_on_failure voltageRejected PowerSource.POWER_SOURCE_MAINS fresh
      emptyWorld (by decide)).2.1 0 (by decide)).2.1.trans (by decide),
    ((C7_add_keeps_slot_on_failure voltageRejected PowerSource.POWER_SOURCE_MAINS fresh
      emptyWorld (by decide)).2.2.2.2 0 (by decide)).1⟩

/-! ## Reuse of a freed slot -/

theorem three_adds_registry {σ : Type} (E : Collaborators σ) (T : Nat)
    (debugOn cb1 cb2 cb3 : Bool) (w : World σ) :
    (runOps E T [Op.add PowerSource.POWER_SOURCE_DC, Op.add PowerSource.POWER_SOURCE_USB,
      Op.add PowerSource.POWER_SOURCE_SOLAR]
      (CloudClientDm.new debugOn cb1 cb2 cb3) w).1._powerSourceInstance =
      [0, 5, 7, 255, 255, 255, 255, 255] := by
  have h0 : IsFirstSlot (CloudClientDm.new debugOn cb1 cb2 cb3)._powerSourceInstance
      PowerSource.POWER_SOURCE_UNUSED.toNat 0 :=
    ⟨by decide, rfl, fun j hj => absurd hj (Nat.not_lt_zero j)⟩
  have r1 : (addDeviceObjectPowerSource E PowerSource.POWER_SOURCE_DC
      (CloudClientDm.new debugOn cb1 cb2 cb3) w).2.1._powerSourceInstance =
      [0, 255, 255, 255, 255, 255, 255, 255] := by
    rw [add_registry E PowerSource.POWER_SOURCE_DC _ w h0]
    rfl
  have h1 : IsFirstSlot (addDeviceObjectPowerSource E PowerSource.POWER_SOURCE_DC
      (CloudClientDm.new debugOn cb1 cb2 cb3) w).2.1._powerSourceInstance
      PowerSource.POWER_SOURCE_UNUSED.toNat 1 := by
    rw [r1]
    decide
  have r2 : (addDeviceObjectPowerSource E PowerSource.POWER_SOURCE_USB
      (addDeviceObjectPowerSource E PowerSource.POWER_SOURCE_DC
        (CloudClientDm.new debugOn cb1 cb2 cb3) w).2.1
      (addDeviceObjectPowerSource E PowerSource.POWER_SOURCE_DC
        (CloudClientDm.new debugOn cb1 cb2 cb3) w).2.2).2.1._powerSourceInstance =
      [0, 5, 255, 255, 255, 255, 255, 255] := by
    rw [add_registry E PowerSource.POWER_SOURCE_USB _ _ h1]
    simp only [r1]
    rfl
  have h2 : IsFirstSlot (addDeviceObjectPowerSource E PowerSource.POWER_SOURCE_USB
      (addDeviceObjectPowerSource E PowerSource.POWER_SOURCE_DC
        (CloudClientDm.new debugOn cb1 cb2 cb3) w).2.1
      (addDeviceObjectPowerSource E PowerSource.POWER_SOURCE_DC
        (CloudClientDm.new debugOn cb1 cb2 cb3) w).2.2).2.1._powerSourceInstance
      PowerSource.POWER_SOURCE_UNUSED.toNat 2 := by
    rw [r2]
    decide
  simp only [runOps, Op.step]
  rw [add_registry E _ _ _ h2]
  simp only [r2]
  rfl

/-- C2: after a `deleteDeviceObjectPowerSource(k)` that returned `true` and so
freed the first slot `i` holding `k`, if every slot below `i` is occupied then
slot `i` is the first unused one and the next `addDeviceObjectPowerSource(k2)`
writes `k2` there and issues its creations at instance `i`; and when every
creation and deletion succeeds, after adding DC, USB, Solar to the constructed
registry and deleting DC, adding any kind returns `true`, fills slot 0 and
issues the six creation calls at instance 0. -/
theorem C2_freed_slot_is_reused {σ : Type} (E : Collaborators σ) :
    (∀ (k k2 : PowerSource) (s : CloudClientDm) (w : World σ) (i : Nat),
      WellSized s → IsFirstSlot s._powerSourceInstance k.toNat i →
      (∀ j, j < i → s._powerSourceInstance.getD j 0 ≠ PowerSource.POWER_SOURCE_UNUSED.toNat) →
      (deleteDeviceObjectPowerSource E k s w).1 = true →
      IsFirstSlot (deleteDeviceObjectPowerSource E k s w).2.1._powerSourceInstance
        PowerSource.POWER_SOURCE_UNUSED.toNat i ∧
      (addDeviceObjectPowerSource E k2 (deleteDeviceObjectPowerSource E k s w).2.1
        (deleteDeviceObjectPowerSource E k s w).2.2).2.1._powerSourceInstance.getD i 0 =
        k2.toNat ∧
      (issued (deleteDeviceObjectPowerSource E k s w).2.2
        (addDeviceObjectPowerSource E k2 (deleteDeviceObjectPowerSource E k s w).2.1
          (deleteDeviceObjectPowerSource E k s w).2.2).2.2).map Prod.fst <+: addCalls k2 i ∧
      issued (deleteDeviceObjectPowerSource E k s w).2.2
        (addDeviceObjectPowerSource E k2 (deleteDeviceObjectPowerSource E k s w).2.1
          (deleteDeviceObjectPowerSource E k s w).2.2).2.2 ≠ []) ∧
    (CreationsSucceed E → DeletionsSucceed E →
      ∀ (debugOn cb1 cb2 cb3 : Bool) (w : World σ) (k2 : PowerSource),
      (runOps E 0 [Op.add PowerSource.POWER_SOURCE_DC, Op.add PowerSource.POWER_SOURCE_USB,
        Op.add PowerSource.POWER_SOURCE_SOLAR, Op.delete PowerSource.POWER_SOURCE_DC]
        (CloudClientDm.new debugOn cb1 cb2 cb3) w).1._powerSourceInstance =
        [PowerSource.POWER_SOURCE_UNUSED.toNat, PowerSource.POWER_SOURCE_USB.toNat,
         PowerSource.POWER_SOURCE_SOLAR.toNat, PowerSource.POWER_SOURCE_UNUSED.toNat,
         PowerSource.POWER_SOURCE_UNUSED.toNat, PowerSource.POWER_SOURCE_UNUSED.toNat,
         PowerSource.POWER_SOURCE_UNUSED.toNat, PowerSource.POWER_SOURCE_UNUSED.toNat] ∧
      (addDeviceObjectPowerSource E k2
        (runOps E 0 [Op.add PowerSource.POWER_SOURCE_DC, Op.add PowerSource.POWER_SOURCE_USB,
          Op.add PowerSource.POWER_SOURCE_SOLAR, Op.delete PowerSource.POWER_SOURCE_DC]
          (CloudClientDm.new debugOn cb1 cb2 cb3) w).1
        (runOps E 0 [Op.add PowerSource.POWER_SOURCE_DC, Op.add PowerSource.POWER_SOURCE_USB,
          Op.add PowerSource.POWER_SOURCE_SOLAR, Op.delete PowerSource.POWER_SOURCE_DC]
          (CloudClientDm.new debugOn cb1 cb2 cb3) w).2).1 = true ∧
      (addDeviceObjectPowerSource E k2
        (runOps E 0 [Op.add PowerSource.POWER_SOURCE_DC, Op.add PowerSource.POWER_SOURCE_USB,
          Op.add PowerSource.POWER_SOURCE_SOLAR, Op.delete PowerSource.POWER_SOURCE_DC]
          (CloudClientDm.new debugOn cb1 cb2 cb3) w).1
        (runOps E 0 [Op.add PowerSource.POWER_SOURCE_DC, Op.add PowerSource.POWER_SOURCE_USB,
          Op.add PowerSource.POWER_SOURCE_SOLAR, Op.delete PowerSource.POWER_SOURCE_DC]
          (CloudClientDm.new debugOn cb1 cb2 cb3) w).2).2.1._powerSourceInstance =
        [k2.toNat, PowerSource.POWER_SOURCE_USB.toNat,
         PowerSource.POWER_SOURCE_SOLAR.toNat, PowerSource.POWER_SOURCE_UNUSED.toNat,
         PowerSource.POWER_SOURCE_UNUSED.toNat, PowerSource.POWER_SOURCE_UNUSED.toNat,
         PowerSource.POWER_SOURCE_UNUSED.toNat, PowerSource.POWER_SOURCE_UNUSED.toNat] ∧
      issued
        (runOps E 0 [Op.add PowerSource.POWER_SOURCE_DC, Op.add PowerSource.POWER_SOURCE_USB,
          Op.add PowerSource.POWER_SOURCE_SOLAR, Op.delete PowerSource.POWER_SOURCE_DC]
          (CloudClientDm.new debugOn cb1 cb2 cb3) w).2
        (addDeviceObjectPowerSource E k2
          (runOps E 0 [Op.add PowerSource.POWER_SOURCE_DC, Op.add PowerSource.POWER_SOURCE_USB,
            Op.add PowerSource.POWER_SOURCE_SOLAR, Op.delete PowerSource.POWER_SOURCE_DC]
            (CloudClientDm.new debugOn cb1 cb2 cb3) w).1
          (runOps E 0 [Op.add PowerSource.POWER_SOURCE_DC, Op.add PowerSource.POWER_SOURCE_USB,
            Op.add PowerSource.POWER_SOURCE_SOLAR, Op.delete PowerSource.POWER_SOURCE_DC]
            (CloudClientDm.new debugOn cb1 cb2 cb3) w).2).2.2 =
        (addCalls k2 0).map answeredTrue) := by
  constructor
  · intro k k2 s w i hs hi hbelow hdel
    have hlen : i < s._powerSourceInstance.length := by rw [hs]; exact hi.1
    have hreg := (delete_registry E k s w hi).1 hdel
    have hfirst : IsFirstSlot (deleteDeviceObjectPowerSource E k s w).2.1._powerSourceInstance
        PowerSource.POWER_SOURCE_UNUSED.toNat i := by
      rw [hreg]
      refine ⟨hi.1, getD_set_same _ hlen, ?_⟩
      intro j hj
      show (s._powerSourceInstance.set i _).getD j 0 ≠ _
      rw [getD_set_other _ (Nat.ne_of_lt hj)]
      exact hbelow j hj
    have hlen2 : i < (deleteDeviceObjectPowerSource E k s w).2.1._powerSourceInstance.length := by
      rw [hreg]
      simpa using hlen
    obtain ⟨new, htrace, hpre, hne, _⟩ := add_trace E k2 _
      (deleteDeviceObjectPowerSource E k s w).2.2 hfirst
    refine ⟨hfirst, ?_, ?_, ?_⟩
    · rw [add_registry E k2 _ _ hfirst]
      exact getD_set_same _ hlen2
    · rw [issued_of_trace htrace]
      exact hpre
    · rw [issued_of_trace htrace]
      exact hne
  · intro hc hd debugOn cb1 cb2 cb3 w k2
    have r3 := three_adds_registry E 0 debugOn cb1 cb2 cb3 w
    have hsplit : ∀ (s : CloudClientDm) (w1 : World σ),
        runOps E 0 [Op.add PowerSource.POWER_SOURCE_DC, Op.add PowerSource.POWER_SOURCE_USB,
          Op.add PowerSource.POWER_SOURCE_SOLAR, Op.delete PowerSource.POWER_SOURCE_DC] s w1 =
        (deleteDeviceObjectPowerSource E PowerSource.POWER_SOURCE_DC
          (runOps E 0 [Op.add PowerSource.POWER_SOURCE_DC, Op.add PowerSource.POWER_SOURCE_USB,
            Op.add PowerSource.POWER_SOURCE_SOLAR] s w1).1
          (runOps E 0 [Op.add PowerSource.POWER_SOURCE_DC, Op.add PowerSource.POWER_SOURCE_USB,
            Op.add PowerSource.POWER_SOURCE_SOLAR] s w1).2).2 := by
      intro s w1
      simp only [runOps, Op.step]
    have hdc : IsFirstSlot
        (runOps E 0 [Op.add PowerSource.POWER_SOURCE_DC, Op.add PowerSource.POWER_SOURCE_USB,
          Op.add PowerSource.POWER_SOURCE_SOLAR]
          (CloudClientDm.new debugOn cb1 cb2 cb3) w).1._powerSourceInstance
        PowerSource.POWER_SOURCE_DC.toNat 0 := by
      rw [r3]
      decide
    have r4 : (runOps E 0 [Op.add PowerSource.POWER_SOURCE_DC,
        Op.add PowerSource.POWER_SOURCE_USB, Op.add PowerSource.POWER_SOURCE_SOLAR,
        Op.delete PowerSource.POWER_SOURCE_DC]
        (CloudClientDm.new debugOn cb1 cb2 cb3) w).1._powerSourceInstance =
        [255, 5, 7, 255, 255, 255, 255, 255] := by
      rw [hsplit, (delete_registry E _ _ _ hdc).1 (delete_ok hd _ _ _ hdc)]
      simp only [r3]
      rfl
    have hfree : IsFirstSlot (runOps E 0 [Op.add PowerSource.POWER_SOURCE_DC,
        Op.add PowerSource.POWER_SOURCE_USB, Op.add PowerSource.POWER_SOURCE_SOLAR,
        Op.delete PowerSource.POWER_SOURCE_DC]
        (CloudClientDm.new debugOn cb1 cb2 cb3) w).1._powerSourceInstance
        PowerSource.POWER_SOURCE_UNUSED.toNat 0 := by
      rw [r4]
      decide
    refine ⟨r4, add_ok hc _ _ _ hfree, ?_, ?_⟩
    · rw [add_registry E k2 _ _ hfree]
      simp only [r4]
      rfl
    · exact issued_of_trace (add_ok_trace hc _ _ _ hfree)

/-- Instance of C2: PoE is deleted from slot 3 of a full registry, and the
DC, USB, Solar scenario is run with collaborators that accept everything. -/
theorem C2_freed_slot_is_reused_witness :
    WellSized fullyOccupied ∧
    IsFirstSlot fullyOccupied._powerSourceInstance PowerSource.POWER_SOURCE_POE.toNat 3 ∧
    (∀ j, j < 3 → fullyOccupied._powerSourceInstance.getD j 0 ≠
      PowerSource.POWER_SOURCE_UNUSED.toNat) ∧
    (deleteDeviceObjectPowerSource allSucceed PowerSource.POWER_SOURCE_POE fullyOccupied
      emptyWorld).1 = true ∧
    CreationsSucceed allSucceed ∧ DeletionsSucceed allSucceed ∧
    IsFirstSlot (deleteDeviceObjectPowerSource allSucceed PowerSource.POWER_SOURCE_POE
      fullyOccupied emptyWorld).2.1._powerSourceInstance
      PowerSource.POWER_SOURCE_UNUSED.toNat 3 ∧
    (addDeviceObjectPowerSource allSucceed PowerSource.POWER_SOURCE_MAINS
      (runOps allSucceed 0 [Op.add PowerSource.POWER_SOURCE_DC,
        Op.add PowerSource.POWER_SOURCE_USB, Op.add PowerSource.POWER_SOURCE_SOLAR,
        Op.delete PowerSource.POWER_SOURCE_DC] fresh emptyWorld).1
      (runOps allSucceed 0 [Op.add PowerSource.POWER_SOURCE_DC,
        Op.add PowerSource.POWER_SOURCE_USB, Op.add PowerSource.POWER_SOURCE_SOLAR,
        Op.delete PowerSource.POWER_SOURCE_DC] fresh emptyWorld).2).1 = true :=
  ⟨by decide, by decide, by decide, by decide,
    fun _ => ⟨rfl, fun _ _ _ => rfl⟩, fun _ => ⟨rfl, fun _ _ => rfl⟩,
    ((C2_freed_slot_is_reused allSucceed).1 PowerSource.POWER_SOURCE_POE
      PowerSource.POWER_SOURCE_MAINS fullyOccupied emptyWorld 3 (by decide) (by decide)
      (by decide) (by decide)).1,
    ((C2_freed_slot_is_reused allSucceed).2 (fun _ => ⟨rfl, fun _ _ _ => rfl⟩)
      (fun _ => ⟨rfl, fun _ _ => rfl⟩) false false false false emptyWorld
      PowerSource.POWER_SOURCE_MAINS).2.1⟩

/-! ## Stopping -/

theorem deliver_powerSourceInstance {σ : Type} (E : Collaborators σ) :
    ∀ (es : List EngineEvent) (s : CloudClientDm) (w : World σ),
      (deliver E es s w).1._powerSourceInstance = s._powerSourceInstance := by
  intro es
  induction es with
  | nil => intro s w; rfl
  | cons e es ih =>
    intro s w
    cases e with
    | registered =>
      rw [deliver, ih]
      simp only [clientRegisteredCallback]
      split_ifs <;> rfl
    | deregistered =>
      rw [deliver, ih]
      simp only [clientDeregisteredCallback]
      split_ifs <;> rfl
    | error errorCode =>
      rw [deliver, ih]
      simp only [errorCallback]
      split_ifs <;> rfl

theorem callAsync_powerSourceInstance {σ : Type} (E : Collaborators σ) (c : Call)
    (s : CloudClientDm) (w : World σ) :
    (callAsync E c s w).1._powerSourceInstance = s._powerSourceInstance :=
  deliver_powerSourceInstance E _ s _

theorem stopWait_powerSourceInstance {σ : Type} (E : Collaborators σ) (T : Nat) :
    ∀ (n e : Nat) (s : CloudClientDm) (w : World σ), T * 1000 - e ≤ n →
      (stopWait E T e s w).2.1._powerSourceInstance = s._powerSourceInstance := by
  intro n
  induction n with
  | zero =>
    intro e s w h
    rw [stopWait]
    have hge : ¬ e < T * 1000 := by omega
    simp [hge]
  | succ n ih =>
    intro e s w h
    rw [stopWait]
    split_ifs with hc
    · rw [ih (e + 100) _ _ (by omega)]
      exact callAsync_powerSourceInstance E _ s w
    · rfl

theorem stopSweep_spec {σ : Type} (E : Collaborators σ) :
    ∀ (fuel x : Nat) (s : CloudClientDm) (w : World σ),
      x ≤ sizeofPowerSourceInstance → sizeofPowerSourceInstance ≤ x + fuel →
      s._powerSourceInstance.length = sizeofPowerSourceInstance →
      (∀ j, j < x → s._powerSourceInstance.getD j 0 = PowerSource.POWER_SOURCE_UNUSED.toNat) →
      (stopSweep E fuel x s w).1._powerSourceInstance.length = sizeofPowerSourceInstance ∧
      ∀ j, j < sizeofPowerSourceInstance →
        (stopSweep E fuel x s w).1._powerSourceInstance.getD j 0 =
          PowerSource.POWER_SOURCE_UNUSED.toNat := by
  intro fuel
  induction fuel with
  | zero =>
    intro x s w hx hfuel hlen hbelow
    have hx8 : x = sizeofPowerSourceInstance := by omega
    subst hx8
    exact ⟨hlen, hbelow⟩
  | succ n ih =>
    intro x s w hx hfuel hlen hbelow
    by_cases hlt : x < sizeofPowerSourceInstance
    · have hmod : (x + 1) % 65536 = x + 1 := by
        have : x < 8 := hlt
        omega
      by_cases hused : s._powerSourceInstance.getD x 0 ≠ PowerSource.POWER_SOURCE_UNUSED.toNat
      · simp only [stopSweep, hlt, hused, hmod, if_true, ne_eq, not_false_eq_true]
        apply ih (x + 1) _ _ hlt (by omega)
        · simpa using hlen
        · intro j hj
          rcases Nat.lt_succ_iff_lt_or_eq.mp hj with h | h
          · show (s._powerSourceInstance.set x _).getD j 0 = _
            rw [getD_set_other _ (Nat.ne_of_lt h)]
            exact hbelow j h
          · subst h
            exact getD_set_same _ (by rw [hlen]; exact hlt)
      · simp only [stopSweep, hlt, hused, hmod, if_true, if_false]
        apply ih (x + 1) _ _ hlt (by omega) hlen
        intro j hj
        rcases Nat.lt_succ_iff_lt_or_eq.mp hj with h | h
        · exact hbelow j h
        · subst h
          exact not_not.mp hused
    · have hx8 : x = sizeofPowerSourceInstance := by omega
      subst hx8
      simp only [stopSweep, hlt, if_false]
      exact ⟨hlen, hbelow⟩

/-- C8: `stop` returns (it is a total function of the facade, the world and the
collaborators, whatever they answer and whatever events they deliver), and
after it every slot of the power-source registry is unused, for every value of
`_registered` and of the timeout. -/
theorem C8_stop_empties_registry {σ : Type} (E : Collaborators σ) (T : Nat)
    (s : CloudClientDm) (w : World σ) (hs : WellSized s) :
    (stop E T s w).1._powerSourceInstance.length = sizeofPowerSourceInstance ∧
    ∀ j, j < sizeofPowerSourceInstance →
      (stop E T s w).1._powerSourceInstance.getD j 0 = PowerSource.POWER_SOURCE_UNUSED.toNat := by
  unfold stop
  apply stopSweep_spec E _ 0 _ _ (Nat.zero_le _) (by omega)
  · rw [stopWait_powerSourceInstance E T _ 0 _ _ (Nat.le_refl _),
      callAsync_powerSourceInstance]
    exact hs
  · intro j hj
    exact absurd hj (Nat.not_lt_zero j)

/-- Instance of C8 on a full registry with `_registered` true and no
deregistration event. -/
theorem C8_stop_empties_registry_witness :
    WellSized fullyOccupied ∧
    ∀ j, j < sizeofPowerSourceInstance →
      (stop allSucceed 5 { fullyOccupied with _registered := true }
        emptyWorld).1._powerSourceInstance.getD j 0 = PowerSource.POWER_SOURCE_UNUSED.toNat :=
  ⟨by decide,
    (C8_stop_empties_registry allSucceed 5 { fullyOccupied with _registered := true }
      emptyWorld (by decide)).2⟩

theorem stopWait_exit {σ : Type} (E : Collaborators σ) (T : Nat) :
    ∀ (n e : Nat) (s : CloudClientDm) (w : World σ), T * 1000 - e ≤ n →
      ((stopWait E T e s w).2.1._registered = false ∨ T * 1000 ≤ (stopWait E T e s w).1) ∧
      e ≤ (stopWait E T e s w).1 := by
  intro n
  induction n with
  | zero =>
    intro e s w h
    rw [stopWait]
    have hge : ¬ e < T * 1000 := by omega
    simp only [hge, and_false, if_false]
    exact ⟨Or.inr (by omega), Nat.le_refl _⟩
  | succ n ih =>
    intro e s w h
    rw [stopWait]
    split_ifs with hc
    · have := ih (e + 100) (callAsync E (Call.wait_ms 100) s w).1
        (callAsync E (Call.wait_ms 100) s w).2 (by omega)
      exact ⟨this.1, by omega⟩
    · refine ⟨?_, Nat.le_refl _⟩
      by_cases hr : s._registered = true
      · exact Or.inr (by
          have : ¬ e < T * 1000 := fun h2 => hc ⟨hr, h2⟩
          show T * 1000 ≤ e
          omega)
      · exact Or.inl (by simpa using hr)

/-- C9: the wait loop of `stop`, entered at elapsed time `e`, is left only in a
state where `_registered` is false or the elapsed time has reached
`CLOUD_CLIENT_STOP_TIMEOUT_SECONDS * 1000`; it is left at once, with no
`wait_ms` and nothing changed, when `_registered` is false on entry; while
`_registered` is true and the timeout is not reached it does wait; and `stop`
runs its sweep only on what this loop returns. -/
theorem C9_stop_waits_for_deregistration_or_timeout {σ : Type} (E : Collaborators σ)
    (T e : Nat) (s : CloudClientDm) (w : World σ) :
    ((stopWait E T e s w).2.1._registered = false ∨ T * 1000 ≤ (stopWait E T e s w).1) ∧
    (s._registered = false → stopWait E T e s w = (e, s, w)) ∧
    (s._registered = true → e < T * 1000 →
      stopWait E T e s w =
        stopWait E T (e + 100) (callAsync E (Call.wait_ms 100) s w).1
          (callAsync E (Call.wait_ms 100) s w).2) ∧
    stop E T s w =
      stopSweep E sizeofPowerSourceInstance 0
        (stopWait E T 0 (callAsync E Call.close s w).1 (callAsync E Call.close s w).2).2.1
        (stopWait E T 0 (callAsync E Call.close s w).1 (callAsync E Call.close s w).2).2.2 := by
  refine ⟨(stopWait_exit E T _ e s w (Nat.le_refl _)).1, ?_, ?_, rfl⟩
  · intro h
    rw [stopWait]
    simp [h]
  · intro h1 h2
    rw [stopWait]
    simp [h1, h2]

/-- Instance of C9: the loop entered with `_registered` false, and entered at
4900 ms with `_registered` true and a timeout of 5 s. -/
theorem C9_stop_waits_for_deregistration_or_timeout_witness :
    fresh._registered = false ∧
    stopWait allSucceed 5 0 fresh emptyWorld = (0, fresh, emptyWorld) ∧
    ({ fresh with _registered := true } : CloudClientDm)._registered = true ∧ 4900 < 5 * 1000 ∧
    ((stopWait allSucceed 5 4900 { fresh with _registered := true } emptyWorld).2.1._registered =
        false ∨
      5 * 1000 ≤ (stopWait allSucceed 5 4900 { fresh with _registered := true } emptyWorld).1) ∧
    stopWait allSucceed 5 4900 { fresh with _registered := true } emptyWorld =
      stopWait allSucceed 5 (4900 + 100)
        (callAsync allSucceed (Call.wait_ms 100) { fresh with _registered := true }
          emptyWorld).1
        (callAsync allSucceed (Call.wait_ms 100) { fresh with _registered := true }
          emptyWorld).2 :=
  ⟨rfl,
    (C9_stop_waits_for_deregistration_or_timeout allSucceed 5 0 fresh emptyWorld).2.1 rfl,
    rfl, by decide,
    (C9_stop_waits_for_deregistration_or_timeout allSucceed 5 4900
      { fresh with _registered := true } emptyWorld).1,
    (C9_stop_waits_for_deregistration_or_timeout allSucceed 5 4900
      { fresh with _registered := true } emptyWorld).2.2.1 rfl (by decide)⟩

/-! ## One slot per kind -/

theorem toNat_ne_unused {k : PowerSource} (hk : k ≠ PowerSource.POWER_SOURCE_UNUSED) :
    k.toNat ≠ PowerSource.POWER_SOURCE_UNUSED.toNat := by
  cases k <;> first | exact absurd rfl hk | decide

theorem registryInv_new (debugOn cb1 cb2 cb3 : Bool) :
    RegistryInv (CloudClientDm.new debugOn cb1 cb2 cb3) := by
  refine ⟨rfl, ?_⟩
  intro k hk i hi j _ hik _
  have h255 : (CloudClientDm.new debugOn cb1 cb2 cb3)._powerSourceInstance.getD i 0 =
      PowerSource.POWER_SOURCE_UNUSED.toNat := by
    have hi8 : i < 8 := hi
    interval_cases i <;> rfl
  exact absurd (h255.symm.trans hik).symm (toNat_ne_unused hk)

theorem registryInv_add {σ : Type} (E : Collaborators σ) (k : PowerSource)
    (s : CloudClientDm) (w : World σ) (hinv : RegistryInv s)
    (habsent : ¬ HoldsSomewhere s._powerSourceInstance k.toNat) :
    RegistryInv (addDeviceObjectPowerSource E k s w).2.1 := by
  by_cases hfree : HoldsSomewhere s._powerSourceInstance PowerSource.POWER_SOURCE_UNUSED.toNat
  · obtain ⟨x, hx⟩ := exists_first_of_holds hfree
    rw [add_registry E k s w hx]
    refine ⟨by simpa [WellSized] using hinv.1, ?_⟩
    intro k0 hk0 i hi j hj hik hjk
    have key : ∀ a, a < sizeofPowerSourceInstance → a ≠ x →
        (s._powerSourceInstance.set x k.toNat).getD a 0 = k0.toNat →
        s._powerSourceInstance.getD a 0 = k0.toNat := by
      intro a _ hax h
      rwa [getD_set_other _ hax] at h
    have hxlen : x < s._powerSourceInstance.length := by rw [hinv.1]; exact hx.1
    have clash : ∀ a, a < sizeofPowerSourceInstance → a ≠ x →
        (s._powerSourceInstance.set x k.toNat).getD a 0 = k0.toNat →
        (s._powerSourceInstance.set x k.toNat).getD x 0 = k0.toNat → False := by
      intro a ha hax h1 h2
      rw [getD_set_same _ hxlen] at h2
      exact habsent ⟨a, ha, by rw [h2]; exact key a ha hax h1⟩
    by_cases hix : i = x
    · by_cases hjx : j = x
      · rw [hix, hjx]
      · subst hix
        exact (clash j hj hjx hjk hik).elim
    · by_cases hjx : j = x
      · subst hjx
        exact (clash i hi hix hik hjk).elim
      · exact hinv.2 k0 hk0 i hi j hj (key i hi hix hik) (key j hj hjx hjk)
  · rw [add_of_full E k s w hfree]
    exact hinv

theorem registryInv_delete {σ : Type} (E : Collaborators σ) (k : PowerSource)
    (s : CloudClientDm) (w : World σ) (hinv : RegistryInv s) :
    RegistryInv (deleteDeviceObjectPowerSource E k s w).2.1 := by
  by_cases hk : HoldsSomewhere s._powerSourceInstance k.toNat
  · obtain ⟨x, hx⟩ := exists_first_of_holds hk
    have hreg := delete_registry E k s w hx
    cases hres : (deleteDeviceObjectPowerSource E k s w).1 with
    | false =>
      rw [hreg.2 hres]
      exact hinv
    | true =>
      rw [hreg.1 hres]
      refine ⟨by simpa [WellSized] using hinv.1, ?_⟩
      intro k0 hk0 i hi j hj hik hjk
      have hxlen : x < s._powerSourceInstance.length := by rw [hinv.1]; exact hx.1
      have key : ∀ a,
          (s._powerSourceInstance.set x PowerSource.POWER_SOURCE_UNUSED.toNat).getD a 0 =
            k0.toNat → s._powerSourceInstance.getD a 0 = k0.toNat := by
        intro a h
        by_cases hax : a = x
        · subst hax
          rw [getD_set_same _ hxlen] at h
          exact absurd h.symm (toNat_ne_unused hk0)
        · rwa [getD_set_other _ hax] at h
      exact hinv.2 k0 hk0 i hi j hj (key i hik) (key j hjk)
  · rw [delete_of_absent E k s w hk]
    exact hinv

theorem registryInv_stop {σ : Type} (E : Collaborators σ) (T : Nat)
    (s : CloudClientDm) (w : World σ) (hs : WellSized s) :
    RegistryInv (stop E T s w).1 := by
  have hempty : (stop E T s w).1._powerSourceInstance.length = sizeofPowerSourceInstance ∧
      ∀ j, j < sizeofPowerSourceInstance →
        (stop E T s w).1._powerSourceInstance.getD j 0 =
          PowerSource.POWER_SOURCE_UNUSED.toNat := by
    unfold stop
    apply stopSweep_spec E _ 0 _ _ (Nat.zero_le _) (by omega)
    · rw [stopWait_powerSourceInstance E T _ 0 _ _ (Nat.le_refl _),
        callAsync_powerSourceInstance]
      exact hs
    · intro j hj
      exact absurd hj (Nat.not_lt_zero j)
  refine ⟨hempty.1, ?_⟩
  intro k0 hk0 i hi j _ hik _
  exact absurd ((hempty.2 i hi).symm.trans hik).symm (toNat_ne_unused hk0)

theorem registryInv_step {σ : Type} (E : Collaborators σ) (T : Nat) (op : Op)
    (s : CloudClientDm) (w : World σ) (hinv : RegistryInv s) (hop : op.AddsAbsent s) :
    RegistryInv (op.step E T s w).1 := by
  cases op with
  | add k => exact registryInv_add E k s w hinv hop
  | delete k => exact registryInv_delete E k s w hinv
  | setVoltage k v => exact hinv
  | setCurrent k c => exact hinv
  | stop => exact registryInv_stop E T s w hinv.1

theorem registryInv_runOps {σ : Type} (E : Collaborators σ) (T : Nat) :
    ∀ (ops : List Op) (s : CloudClientDm) (w : World σ), RegistryInv s →
      AddsOnlyAbsent E T ops s w → RegistryInv (runOps E T ops s w).1 := by
  intro ops
  induction ops with
  | nil => intro s w hinv _; exact hinv
  | cons op ops ih =>
    intro s w hinv hadds
    exact ih _ _ (registryInv_step E T op s w hinv hadds.1) hadds.2

/-- C4, as stated, fails: the scan of `addDeviceObjectPowerSource` looks for an
unused slot only, so adding DC twice to the constructed registry puts DC in
slot 0 and in slot 1. -/
theorem C4_same_kind_added_twice_counterexample :
    (runOps allSucceed 0 [Op.add PowerSource.POWER_SOURCE_DC,
      Op.add PowerSource.POWER_SOURCE_DC] fresh emptyWorld).1._powerSourceInstance =
      [0, 0, 255, 255, 255, 255, 255, 255] ∧
    ¬ AtMostOneSlot
      (runOps allSucceed 0 [Op.add PowerSource.POWER_SOURCE_DC,
        Op.add PowerSource.POWER_SOURCE_DC] fresh emptyWorld).1._powerSourceInstance
      PowerSource.POWER_SOURCE_DC := by
  decide

/-- C4, amended: in every state reached from the constructor by a sequence of
`addDeviceObjectPowerSource`, `deleteDeviceObjectPowerSource`,
`setDeviceObjectVoltage`, `setDeviceObjectCurrent` and `stop` calls, whatever
the collaborators answer, in which each `addDeviceObjectPowerSource(k)` is
issued when `k` occupies no slot, a kind other than the sentinel occupies at
most one slot. -/
theorem C4_one_slot_per_kind_when_adds_are_new {σ : Type} (E : Collaborators σ) (T : Nat)
    (ops : List Op) (debugOn cb1 cb2 cb3 : Bool) (w : World σ) (k : PowerSource)
    (hk : k ≠ PowerSource.POWER_SOURCE_UNUSED)
    (hadds : AddsOnlyAbsent E T ops (CloudClientDm.new debugOn cb1 cb2 cb3) w) :
    AtMostOneSlot
      (runOps E T ops (CloudClientDm.new debugOn cb1 cb2 cb3) w).1._powerSourceInstance k :=
  (registryInv_runOps E T ops _ w (registryInv_new debugOn cb1 cb2 cb3) hadds).2 k hk

/-- Instance of the amended C4 on a sequence that adds DC (the voltage creation
is rejected), adds USB, deletes DC and adds DC again. -/
theorem C4_one_slot_per_kind_when_adds_are_new_witness :
    PowerSource.POWER_SOURCE_DC ≠ PowerSource.POWER_SOURCE_UNUSED ∧
    AddsOnlyAbsent voltageRejected 0
      [Op.add PowerSource.POWER_SOURCE_DC, Op.add PowerSource.POWER_SOURCE_USB,
       Op.delete PowerSource.POWER_SOURCE_DC, Op.add PowerSource.POWER_SOURCE_DC,
       Op.setVoltage PowerSource.POWER_SOURCE_USB 5000]
      (CloudClientDm.new false false false false) emptyWorld ∧
    AtMostOneSlot
      (runOps voltageRejected 0
        [Op.add PowerSource.POWER_SOURCE_DC, Op.add PowerSource.POWER_SOURCE_USB,
         Op.delete PowerSource.POWER_SOURCE_DC, Op.add PowerSource.POWER_SOURCE_DC,
         Op.setVoltage PowerSource.POWER_SOURCE_USB 5000]
        (CloudClientDm.new false false false false) emptyWorld).1._powerSourceInstance
      PowerSource.POWER_SOURCE_DC :=
  ⟨by decide, ⟨by decide, by decide, by decide, by decide, by decide, trivial⟩,
    C4_one_slot_per_kind_when_adds_are_new voltageRejected 0 _ false false false false
      emptyWorld PowerSource.POWER_SOURCE_DC (by decide)
      ⟨by decide, by decide, by decide, by decide, by decide, trivial⟩⟩

/-! ## Setting a resource before and after `start` -/

/-- C10, at the failing input: after `start`, on collaborators that report the
resource absent, the single-instance integer `setDeviceObjectResource` still
issues the creation before the set (the method never reads `_started`: its
result is the same on the facade with the flag cleared), while the string form
on the same facade issues the set only. -/
theorem C10_integer_setter_creates_after_start :
    freshStarted._started = true ∧
    (setDeviceObjectResource_int nothingPresent DeviceResource.BatteryLevel 80 freshStarted
      emptyWorld).2.trace.map Prod.fst =
      [Call.create_device, Call.is_resource_present DeviceResource.BatteryLevel,
       Call.create_device, Call.create_resource_int DeviceResource.BatteryLevel 80,
       Call.set_resource_value_int DeviceResource.BatteryLevel 80] ∧
    (setDeviceObjectResource_string nothingPresent DeviceResource.Timezone "Europe/London"
      freshStarted emptyWorld).2.trace.map Prod.fst =
      [Call.set_device_resource_value DeviceResource.Timezone "Europe/London"] ∧
    (∀ (σ : Type) (E : Collaborators σ) (r : DeviceResource) (v : Int) (s : CloudClientDm)
      (w : World σ),
      setDeviceObjectResource_int E r v s w =
        setDeviceObjectResource_int E r v { s with _started := false } w) := by
  refine ⟨rfl, ?_, ?_, fun _ _ _ _ _ _ => rfl⟩
  · decide
  · decide

/-! ## The create and delete methods -/

/-- C12, as stated, fails for the string form: when `create_device` returns
`NULL` before `start`, `setDeviceObjectResource(resource, std::string)` still
issues `set_device_resource_value` on the cloud client and returns its answer,
here `true`; after `start` it does not ask for the handle at all. -/
theorem C12_string_setter_without_device_counterexample :
    noDevice.retBool Call.create_device emptyWorld.dev = false ∧
    fresh._started = false ∧
    setDeviceObjectResource_string noDevice DeviceResource.Timezone "Europe/London" fresh
      emptyWorld =
      (true, ⟨(), [(Call.create_device, Ret.bool false),
        (Call.set_device_resource_value DeviceResource.Timezone "Europe/London",
          Ret.bool true)]⟩) ∧
    freshStarted._started = true ∧
    setDeviceObjectResource_string noDevice DeviceResource.Timezone "Europe/London"
      freshStarted emptyWorld =
      (true, ⟨(), [(Call.set_device_resource_value DeviceResource.Timezone "Europe/London",
        Ret.bool true)]⟩) :=
  ⟨rfl, rfl, rfl, rfl, rfl⟩

/-- C12, amended: the single-integer and the multi-instance-integer forms of
`setDeviceObjectResource`, started or not, ask for the Device object first and
without it return `false`, the failed `create_device` being their only call.
The string form asks for it only before `start`, and then only to decide on
the creation: without it no create call is issued.  In every case of the
string form (started or not, handle obtained or not, resource present or not,
creation accepted or not) the cloud client's `set_device_resource_value` is
the call issued last and the method returns what the cloud client answers to
it; before `start` with the handle obtained, the calls before it are
`create_device`, `is_resource_present` and, for an absent resource, the
`create_device` and `create_resource` of the creation. -/
theorem C12_update_without_device {σ : Type} (E : Collaborators σ)
    (resource : DeviceResource) (str : String) (value : Int) (inst : Nat)
    (s : CloudClientDm) (w : World σ) :
    (E.retBool Call.create_device w.dev = false →
      (setDeviceObjectResource_int E resource value s w).1 = false ∧
      issued w (setDeviceObjectResource_int E resource value s w).2 =
        [(Call.create_device, Ret.bool false)]) ∧
    (E.retBool Call.create_device w.dev = false →
      (setDeviceObjectResource_instance E resource value inst s w).1 = false ∧
      issued w (setDeviceObjectResource_instance E resource value inst s w).2 =
        [(Call.create_device, Ret.bool false)]) ∧
    (s._started = false → E.retBool Call.create_device w.dev = false →
      issued w (setDeviceObjectResource_string E resource str s w).2 =
        [(Call.create_device, Ret.bool false),
         (Call.set_device_resource_value resource str,
          Ret.bool (setDeviceObjectResource_string E resource str s w).1)]) ∧
    (s._started = true →
      issued w (setDeviceObjectResource_string E resource str s w).2 =
        [(Call.set_device_resource_value resource str,
          Ret.bool (setDeviceObjectResource_string E resource str s w).1)]) ∧
    (s._started = true →
      (setDeviceObjectResource_string E resource str s w).1 =
        E.retBool (Call.set_device_resource_value resource str) w.dev) ∧
    (s._started = false → E.retBool Call.create_device w.dev = false →
      (setDeviceObjectResource_string E resource str s w).1 =
        E.retBool (Call.set_device_resource_value resource str)
          (E.next Call.create_device w.dev)) ∧
    (s._started = false → E.retBool Call.create_device w.dev = true →
      E.retBool (Call.is_resource_present resource) (E.next Call.create_device w.dev) = true →
      (setDeviceObjectResource_string E resource str s w).1 =
        E.retBool (Call.set_device_resource_value resource str)
          (E.next (Call.is_resource_present resource) (E.next Call.create_device w.dev)) ∧
      issued w (setDeviceObjectResource_string E resource str s w).2 =
        [(Call.create_device, Ret.bool true),
         (Call.is_resource_present resource, Ret.bool true),
         (Call.set_device_resource_value resource str,
          Ret.bool (setDeviceObjectResource_string E resource str s w).1)]) ∧
    (s._started = false → E.retBool Call.create_device w.dev = true →
      E.retBool (Call.is_resource_present resource) (E.next Call.create_device w.dev) = false →
      E.retBool Call.create_device
        (E.next (Call.is_resource_present resource) (E.next Call.create_device w.dev)) =
        false →
      (setDeviceObjectResource_string E resource str s w).1 =
        E.retBool (Call.set_device_resource_value resource str)
          (E.next Call.create_device
            (E.next (Call.is_resource_present resource)
              (E.next Call.create_device w.dev))) ∧
      issued w (setDeviceObjectResource_string E resource str s w).2 =
        [(Call.create_device, Ret.bool true),
         (Call.is_resource_present resource, Ret.bool false),
         (Call.create_device, Ret.bool false),
         (Call.set_device_resource_value resource str,
          Ret.bool (setDeviceObjectResource_string E resource str s w).1)]) ∧
    (s._started = false → E.retBool Call.create_device w.dev = true →
      E.retBool (Call.is_resource_present resource) (E.next Call.create_device w.dev) = false →
      E.retBool Call.create_device
        (E.next (Call.is_resource_present resource) (E.next Call.create_device w.dev)) =
        true →
      (setDeviceObjectResource_string E resource str s w).1 =
        E.retBool (Call.set_device_resource_value resource str)
          (E.next (Call.create_resource_string resource (c_str str))
            (E.next Call.create_device
              (E.next (Call.is_resource_present resource)
                (E.next Call.create_device w.dev)))) ∧
      issued w (setDeviceObjectResource_string E resource str s w).2 =
        [(Call.create_device, Ret.bool true),
         (Call.is_resource_present resource, Ret.bool false),
         (Call.create_device, Ret.bool true),
         (Call.create_resource_string resource (c_str str),
          Ret.bool (E.retBool (Call.create_resource_string resource (c_str str))
            (E.next Call.create_device
              (E.next (Call.is_resource_present resource)
                (E.next Call.create_device w.dev))))),
         (Call.set_device_resource_value resource str,
          Ret.bool (setDeviceObjectResource_string E resource str s w).1)]) ∧
    (issued w (setDeviceObjectResource_string E resource str s w).2).getLast? =
      some (Call.set_device_resource_value resource str,
        Ret.bool (setDeviceObjectResource_string E resource str s w).1) := by
  refine ⟨?_, ?_, ?_, ?_, ?_, ?_, ?_, ?_, ?_, ?_⟩
  · intro hd
    simp [setDeviceObjectResource_int, issued, callBool, hd]
  · intro hd
    simp [setDeviceObjectResource_instance, issued, callBool, hd]
  · intro hs hd
    simp [setDeviceObjectResource_string, issued, callBool, hs, hd]
  · intro hs
    simp [setDeviceObjectResource_string, issued, callBool, hs]
  · intro hs
    simp [setDeviceObjectResource_string, callBool, hs]
  · intro hs hd
    simp [setDeviceObjectResource_string, callBool, hs, hd]
  · intro hs hd hp
    simp [setDeviceObjectResource_string, issued, callBool, hs, hd, hp]
  · intro hs hd hp hd2
    simp [setDeviceObjectResource_string, createDeviceObjectResource_string, issued, callBool,
      hs, hd, hp, hd2]
  · intro hs hd hp hd2
    simp [setDeviceObjectResource_string, createDeviceObjectResource_string, issued, callBool,
      hs, hd, hp, hd2]
  · cases hs : s._started with
    | true => simp [setDeviceObjectResource_string, issued, callBool, hs]
    | false =>
      cases hd : E.retBool Call.create_device w.dev with
      | false => simp [setDeviceObjectResource_string, issued, callBool, hs, hd]
      | true =>
        cases hp : E.retBool (Call.is_resource_present resource)
            (E.next Call.create_device w.dev) with
        | true => simp [setDeviceObjectResource_string, issued, callBool, hs, hd, hp]
        | false =>
          cases hd2 : E.retBool Call.create_device
              (E.next (Call.is_resource_present resource)
                (E.next Call.create_device w.dev)) <;>
            simp [setDeviceObjectResource_string, createDeviceObjectResource_string, issued,
              callBool, hs, hd, hp, hd2]

/-- Instance of the amended C12: collaborators that never give the Device
object, before and after `start`; and, before `start`, collaborators that give
it and report the resource absent, where the string form creates and then
sets. -/
theorem C12_update_without_device_witness :
    noDevice.retBool Call.create_device emptyWorld.dev = false ∧
    fresh._started = false ∧ freshStarted._started = true ∧
    (setDeviceObjectResource_int noDevice DeviceResource.BatteryLevel 80 freshStarted
      emptyWorld).1 = false ∧
    (setDeviceObjectResource_instance noDevice DeviceResource.ErrorCode 1 0 fresh
      emptyWorld).1 = false ∧
    issued emptyWorld (setDeviceObjectResource_string noDevice DeviceResource.UTCOffset
      "UTC+1" fresh emptyWorld).2 =
      [(Call.create_device, Ret.bool false),
       (Call.set_device_resource_value DeviceResource.UTCOffset "UTC+1",
        Ret.bool (setDeviceObjectResource_string noDevice DeviceResource.UTCOffset
          "UTC+1" fresh emptyWorld).1)] ∧
    issued emptyWorld (setDeviceObjectResource_string noDevice DeviceResource.UTCOffset
      "UTC+1" freshStarted emptyWorld).2 =
      [(Call.set_device_resource_value DeviceResource.UTCOffset "UTC+1",
        Ret.bool (setDeviceObjectResource_string noDevice DeviceResource.UTCOffset
          "UTC+1" freshStarted emptyWorld).1)] ∧
    nothingPresent.retBool Call.create_device emptyWorld.dev = true ∧
    nothingPresent.retBool (Call.is_resource_present DeviceResource.UTCOffset)
      (nothingPresent.next Call.create_device emptyWorld.dev) = false ∧
    (setDeviceObjectResource_string nothingPresent DeviceResource.UTCOffset "UTC+1" fresh
      emptyWorld).1 = true ∧
    issued emptyWorld (setDeviceObjectResource_string nothingPresent DeviceResource.UTCOffset
      "UTC+1" fresh emptyWorld).2 =
      [(Call.create_device, Ret.bool true),
       (Call.is_resource_present DeviceResource.UTCOffset, Ret.bool false),
       (Call.create_device, Ret.bool true),
       (Call.create_resource_string DeviceResource.UTCOffset (c_str "UTC+1"), Ret.bool true),
       (Call.set_device_resource_value DeviceResource.UTCOffset "UTC+1",
        Ret.bool (setDeviceObjectResource_string nothingPresent DeviceResource.UTCOffset
          "UTC+1" fresh emptyWorld).1)] :=
  ⟨rfl, rfl, rfl,
    ((C12_update_without_device noDevice DeviceResource.BatteryLevel "" 80 0 freshStarted
      emptyWorld).1 rfl).1,
    ((C12_update_without_device noDevice DeviceResource.ErrorCode "" 1 0 fresh
      emptyWorld).2.1 rfl).1,
    (C12_update_without_device noDevice DeviceResource.UTCOffset "UTC+1" 0 0 fresh
      emptyWorld).2.2.1 rfl rfl,
    (C12_update_without_device noDevice DeviceResource.UTCOffset "UTC+1" 0 0 freshStarted
      emptyWorld).2.2.2.1 rfl,
    rfl, rfl,
    ((C12_update_without_device nothingPresent DeviceResource.UTCOffset "UTC+1" 0 0 fresh
      emptyWorld).2.2.2.2.2.2.2.2.1 rfl rfl rfl rfl).1.trans rfl,
    ((C12_update_without_device nothingPresent DeviceResource.UTCOffset "UTC+1" 0 0 fresh
      emptyWorld).2.2.2.2.2.2.2.2.1 rfl rfl rfl rfl).2⟩

/-! ## The configuration store -/

theorem configResource_issued {σ : Type} (E : Collaborators σ) (resource : DeviceResource)
    (value : String) (w : World σ) :
    issued w (setDeviceObjectConfigResource E resource value w).2 =
      [(Call.delete_config_parameter (deviceObjectResourceString resource),
        Ret.status (deleteStatus E resource w)),
       (Call.set_config_parameter (deviceObjectResourceString resource) value (strlen value),
        Ret.status (writeStatus E resource value w))] := by
  simp [setDeviceObjectConfigResource, issued, callStatus, deleteStatus, writeStatus]

theorem configResource_result {σ : Type} (E : Collaborators σ) (resource : DeviceResource)
    (value : String) (w : World σ) :
    (setDeviceObjectConfigResource E resource value w).1 =
      decide (writeStatus E resource value w = ccs_status_e.CCS_STATUS_SUCCESS) := rfl

/-- C13: `setDeviceObjectConfigResource`, for every resource, value and store
behaviour, issues exactly two calls: `delete_config_parameter` on the
resource's name, then `set_config_parameter` on the same name with the value
and its length; and the four static setters do so with the names
"mbed.DeviceType", "mbed.SerialNumber", "mbed.HardwareVersion" and
"mbed.SoftwareVersion". -/
theorem C13_config_setter_deletes_then_writes {σ : Type} (E : Collaborators σ)
    (value : String) (w : World σ) :
    (∀ resource, issued w (setDeviceObjectConfigResource E resource value w).2 =
      [(Call.delete_config_parameter (deviceObjectResourceString resource),
        Ret.status (deleteStatus E resource w)),
       (Call.set_config_parameter (deviceObjectResourceString resource) value (strlen value),
        Ret.status (writeStatus E resource value w))]) ∧
    (issued w (setDeviceObjectStaticDeviceType E value w).2).map Prod.fst =
      [Call.delete_config_parameter "mbed.DeviceType",
       Call.set_config_parameter "mbed.DeviceType" value (strlen value)] ∧
    (issued w (setDeviceObjectStaticSerialNumber E value w).2).map Prod.fst =
      [Call.delete_config_parameter "mbed.SerialNumber",
       Call.set_config_parameter "mbed.SerialNumber" value (strlen value)] ∧
    (issued w (setDeviceObjectStaticHardwareVersion E value w).2).map Prod.fst =
      [Call.delete_config_parameter "mbed.HardwareVersion",
       Call.set_config_parameter "mbed.HardwareVersion" value (strlen value)] ∧
    (issued w (setDeviceObjectStaticSoftwareVersion E value w).2).map Prod.fst =
      [Call.delete_config_parameter "mbed.SoftwareVersion",
       Call.set_config_parameter "mbed.SoftwareVersion" value (strlen value)] := by
  refine ⟨fun resource => configResource_issued E resource value w, ?_, ?_, ?_, ?_⟩
  · rw [setDeviceObjectStaticDeviceType, configResource_issued]
    rfl
  · rw [setDeviceObjectStaticSerialNumber, configResource_issued]
    rfl
  · rw [setDeviceObjectStaticHardwareVersion, configResource_issued]
    rfl
  · rw [setDeviceObjectStaticSoftwareVersion, configResource_issued]
    rfl

/-- C14: `setDeviceObjectConfigResource` returns `true` exactly when the status
reported by the store's write is `CCS_STATUS_SUCCESS`, and `false` for each of
the four named failure statuses and for any other value; that status is the
answer recorded for the second call, and the result is the same for any store
that behaves alike except for the status its delete reports. -/
theorem C14_config_setter_returns_write_success {σ : Type} (E : Collaborators σ)
    (resource : DeviceResource) (value : String) (w : World σ) :
    ((setDeviceObjectConfigResource E resource value w).1 = true ↔
      writeStatus E resource value w = ccs_status_e.CCS_STATUS_SUCCESS) ∧
    (writeStatus E resource value w = ccs_status_e.CCS_STATUS_ERROR →
      (setDeviceObjectConfigResource E resource value w).1 = false) ∧
    (writeStatus E resource value w = ccs_status_e.CCS_STATUS_KEY_DOESNT_EXIST →
      (setDeviceObjectConfigResource E resource value w).1 = false) ∧
    (writeStatus E resource value w = ccs_status_e.CCS_STATUS_VALIDATION_FAIL →
      (setDeviceObjectConfigResource E resource value w).1 = false) ∧
    (writeStatus E resource value w = ccs_status_e.CCS_STATUS_MEMORY_ERROR →
      (setDeviceObjectConfigResource E resource value w).1 = false) ∧
    (∀ code, writeStatus E resource value w = ccs_status_e.other code →
      (setDeviceObjectConfigResource E resource value w).1 = false) ∧
    (issued w (setDeviceObjectConfigResource E resource value w).2).getLast? =
      some (Call.set_config_parameter (deviceObjectResourceString resource) value
        (strlen value), Ret.status (writeStatus E resource value w)) ∧
    (∀ E2 : Collaborators σ, E2.next = E.next →
      (∀ key v size d, E2.retStatus (Call.set_config_parameter key v size) d =
        E.retStatus (Call.set_config_parameter key v size) d) →
      (setDeviceObjectConfigResource E2 resource value w).1 =
        (setDeviceObjectConfigResource E resource value w).1) := by
  rw [configResource_result, configResource_issued]
  refine ⟨by simp, ?_, ?_, ?_, ?_, ?_, by simp, ?_⟩
  · intro h; rw [h]; rfl
  · intro h; rw [h]; rfl
  · intro h; rw [h]; rfl
  · intro h; rw [h]; rfl
  · intro code h; rw [h]; rfl
  · intro E2 hnext hset
    rw [configResource_result]
    simp only [writeStatus, hnext, hset]

/-- Instance of C14: a store whose write fails validation, and a store that
differs from it only in what its delete reports. -/
theorem C14_config_setter_returns_write_success_witness :
    writeStatus storeRejects DeviceResource.SerialNumber "SN-0001" emptyWorld =
      ccs_status_e.CCS_STATUS_VALIDATION_FAIL ∧
    (setDeviceObjectConfigResource storeRejects DeviceResource.SerialNumber "SN-0001"
      emptyWorld).1 = false ∧
    (setDeviceObjectConfigResource
      { storeRejects with retStatus := fun _ _ => ccs_status_e.CCS_STATUS_VALIDATION_FAIL }
      DeviceResource.SerialNumber "SN-0001" emptyWorld).1 =
      (setDeviceObjectConfigResource storeRejects DeviceResource.SerialNumber "SN-0001"
        emptyWorld).1 :=
  ⟨rfl,
    (C14_config_setter_returns_write_success storeRejects DeviceResource.SerialNumber
      "SN-0001" emptyWorld).2.2.2.1 rfl,
    (C14_config_setter_returns_write_success storeRejects DeviceResource.SerialNumber
      "SN-0001" emptyWorld).2.2.2.2.2.2.2
      { storeRejects with retStatus := fun _ _ => ccs_status_e.CCS_STATUS_VALIDATION_FAIL }
      rfl (fun _ _ _ _ => rfl)⟩

/-! ## The connection state -/

theorem deliver_single {σ : Type} (E : Collaborators σ) (e : EngineEvent)
    (s : CloudClientDm) (w : World σ) :
    deliver E [e] s w =
      (match e with
        | EngineEvent.registered => clientRegisteredCallback E s w
        | EngineEvent.deregistered => clientDeregisteredCallback E s w
        | EngineEvent.error errorCode => errorCallback E errorCode s w) := by
  cases e <;> rfl

theorem deliver_cons {σ : Type} (E : Collaborators σ) (e : EngineEvent)
    (es : List EngineEvent) (s : CloudClientDm) (w : World σ) :
    deliver E (e :: es) s w = deliver E es (deliver E [e] s w).1 (deliver E [e] s w).2 := by
  cases e <;> rfl

theorem deliver_append {σ : Type} (E : Collaborators σ) :
    ∀ (es es2 : List EngineEvent) (s : CloudClientDm) (w : World σ),
      deliver E (es ++ es2) s w = deliver E es2 (deliver E es s w).1 (deliver E es s w).2 := by
  intro es
  induction es with
  | nil => intro es2 s w; rfl
  | cons e es ih =>
    intro es2 s w
    rw [List.cons_append, deliver_cons, ih, deliver_cons E e es]

theorem deliver_inv {σ : Type} (E : Collaborators σ) (I : CloudClientDm → Prop) :
    ∀ (es : List EngineEvent),
      (∀ e, e ∈ es → ∀ s w, I s → I (deliver E [e] s w).1) →
      ∀ (s : CloudClientDm) (w : World σ), I s → I (deliver E es s w).1 := by
  intro es
  induction es with
  | nil => intro _ s w hI; exact hI
  | cons e es ih =>
    intro hstep s w hI
    rw [deliver_cons]
    exact ih (fun e2 he2 => hstep e2 (List.mem_cons_of_mem e he2)) _ _
      (hstep e (List.mem_cons_self e es) s w hI)

theorem callAsync_inv {σ : Type} (E : Collaborators σ) (I : CloudClientDm → Prop)
    (hstep : ∀ c d e, e ∈ E.async c d → ∀ s w, I s → I (deliver E [e] s w).1)
    (c : Call) (s : CloudClientDm) (w : World σ) (hI : I s) :
    I (callAsync E c s w).1 :=
  deliver_inv E I _ (fun e he => hstep c w.dev e he) s _ hI

theorem stopWait_inv {σ : Type} (E : Collaborators σ) (I : CloudClientDm → Prop)
    (hstep : ∀ c d e, e ∈ E.async c d → ∀ s w, I s → I (deliver E [e] s w).1) (T : Nat) :
    ∀ (n e : Nat) (s : CloudClientDm) (w : World σ), T * 1000 - e ≤ n → I s →
      I (stopWait E T e s w).2.1 := by
  intro n
  induction n with
  | zero =>
    intro e s w h hI
    rw [stopWait]
    have hge : ¬ e < T * 1000 := by omega
    simpa [hge] using hI
  | succ n ih =>
    intro e s w h hI
    rw [stopWait]
    split_ifs with hc
    · exact ih (e + 100) _ _ (by omega) (callAsync_inv E I hstep _ s w hI)
    · exact hI

theorem stopSweep_inv {σ : Type} (E : Collaborators σ) (I : CloudClientDm → Prop)
    (hreg : ∀ (s : CloudClientDm) (l : List Nat), I s → I { s with _powerSourceInstance := l }) :
    ∀ (fuel x : Nat) (s : CloudClientDm) (w : World σ), I s →
      I (stopSweep E fuel x s w).1 := by
  intro fuel
  induction fuel with
  | zero => intro x s w hI; exact hI
  | succ n ih =>
    intro x s w hI
    simp only [stopSweep]
    split_ifs
    · exact ih _ _ _ (hreg s _ hI)
    · exact ih _ _ _ hI
    · exact hI

theorem stop_inv {σ : Type} (E : Collaborators σ) (I : CloudClientDm → Prop)
    (hstep : ∀ c d e, e ∈ E.async c d → ∀ s w, I s → I (deliver E [e] s w).1)
    (hreg : ∀ (s : CloudClientDm) (l : List Nat), I s → I { s with _powerSourceInstance := l })
    (T : Nat) (s : CloudClientDm) (w : World σ) (hI : I s) :
    I (stop E T s w).1 := by
  unfold stop
  exact stopSweep_inv E I hreg _ _ _ _
    (stopWait_inv E I hstep T _ 0 _ _ (Nat.le_refl _) (callAsync_inv E I hstep _ s w hI))

theorem callback_started {σ : Type} (E : Collaborators σ) (e : EngineEvent)
    (s : CloudClientDm) (w : World σ) :
    (deliver E [e] s w).1._started = s._started := by
  rw [deliver_single]
  cases e with
  | registered => simp only [clientRegisteredCallback]; split_ifs <;> rfl
  | deregistered => simp only [clientDeregisteredCallback]; split_ifs <;> rfl
  | error errorCode => simp only [errorCallback]; split_ifs <;> rfl

theorem errorCallback_facade {σ : Type} (E : Collaborators σ) (errorCode : Int)
    (s : CloudClientDm) (w : World σ) : (errorCallback E errorCode s w).1 = s := by
  simp only [errorCallback]
  split_ifs <;> rfl

theorem stop_started {σ : Type} (E : Collaborators σ) (T : Nat) (s : CloudClientDm)
    (w : World σ) : (stop E T s w).1._started = s._started :=
  stop_inv E (fun s2 => s2._started = s._started)
    (fun _ _ e _ s2 w2 h => (callback_started E e s2 w2).trans h)
    (fun _ _ h => h) T s w rfl

theorem add_flags {σ : Type} (E : Collaborators σ) (k : PowerSource) (s : CloudClientDm)
    (w : World σ) :
    (addDeviceObjectPowerSource E k s w).2.1._started = s._started ∧
    (addDeviceObjectPowerSource E k s w).2.1._registered = s._registered := by
  by_cases hfree : HoldsSomewhere s._powerSourceInstance PowerSource.POWER_SOURCE_UNUSED.toNat
  · obtain ⟨x, hx⟩ := exists_first_of_holds hfree
    rw [add_registry E k s w hx]
    exact ⟨rfl, rfl⟩
  · rw [add_of_full E k s w hfree]
    exact ⟨rfl, rfl⟩

theorem delete_flags {σ : Type} (E : Collaborators σ) (k : PowerSource) (s : CloudClientDm)
    (w : World σ) :
    (deleteDeviceObjectPowerSource E k s w).2.1._started = s._started ∧
    (deleteDeviceObjectPowerSource E k s w).2.1._registered = s._registered := by
  by_cases hk : HoldsSomewhere s._powerSourceInstance k.toNat
  · obtain ⟨x, hx⟩ := exists_first_of_holds hk
    have hreg := delete_registry E k s w hx
    cases hres : (deleteDeviceObjectPowerSource E k s w).1 with
    | false => rw [hreg.2 hres]; exact ⟨rfl, rfl⟩
    | true => rw [hreg.1 hres]; exact ⟨rfl, rfl⟩
  · rw [delete_of_absent E k s w hk]
    exact ⟨rfl, rfl⟩

theorem run_started {σ : Type} (E : Collaborators σ) (T : Nat) (m : Method)
    (s : CloudClientDm) (w : World σ) (hm : ∀ cb, m ≠ Method.start cb) :
    (m.run E T s w).1._started = s._started := by
  cases m with
  | start cb => exact absurd rfl (hm cb)
  | stop => exact stop_started E T s w
  | clientRegisteredCallback => exact callback_started E EngineEvent.registered s w
  | clientDeregisteredCallback => exact callback_started E EngineEvent.deregistered s w
  | errorCallback errorCode => exact callback_started E (EngineEvent.error errorCode) s w
  | addDeviceObjectPowerSource k => exact (add_flags E k s w).1
  | deleteDeviceObjectPowerSource k => exact (delete_flags E k s w).1
  | _ => rfl

theorem run_registered {σ : Type} (E : Collaborators σ) (T : Nat) (m : Method)
    (s : CloudClientDm) (w : World σ) (h1 : m ≠ Method.clientRegisteredCallback)
    (h2 : m ≠ Method.clientDeregisteredCallback) (h3 : m ≠ Method.stop) :
    (m.run E T s w).1._registered = s._registered := by
  cases m with
  | stop => exact absurd rfl h3
  | clientRegisteredCallback => exact absurd rfl h1
  | clientDeregisteredCallback => exact absurd rfl h2
  | errorCallback errorCode =>
    show (errorCallback E errorCode s w).1._registered = s._registered
    rw [errorCallback_facade]
  | addDeviceObjectPowerSource k => exact (add_flags E k s w).2
  | deleteDeviceObjectPowerSource k => exact (delete_flags E k s w).2
  | _ => rfl

/-- C15: `_started` is false after construction; `start` returns `true` and
leaves `_started` true; every method other than `start` leaves `_started` as
it found it (the callbacks the engine runs during `stop` included); so after
any method, and after any sequence of methods, a `_started` that was true is
still true. -/
theorem C15_started_is_monotonic {σ : Type} (E : Collaborators σ) (T : Nat) :
    (∀ debugOn cb1 cb2 cb3, (CloudClientDm.new debugOn cb1 cb2 cb3)._started = false) ∧
    (∀ updateCallback s (w : World σ),
      (start E updateCallback s w).1 = true ∧
      (start E updateCallback s w).2.1._started = true) ∧
    (∀ (m : Method) s (w : World σ), (∀ cb, m ≠ Method.start cb) →
      (m.run E T s w).1._started = s._started) ∧
    (∀ (m : Method) s (w : World σ), s._started = true →
      (m.run E T s w).1._started = true) ∧
    (∀ (ms : List Method) s (w : World σ), s._started = true →
      (runMethods E T ms s w).1._started = true) := by
  have hone : ∀ (m : Method) s (w : World σ), s._started = true →
      (m.run E T s w).1._started = true := by
    intro m s w hs
    by_cases hm : ∃ cb, m = Method.start cb
    · obtain ⟨cb, rfl⟩ := hm
      rfl
    · rw [run_started E T m s w (fun cb h => hm ⟨cb, h⟩)]
      exact hs
  refine ⟨fun _ _ _ _ => rfl, fun _ _ _ => ⟨rfl, rfl⟩,
    fun m s w hm => run_started E T m s w hm, hone, ?_⟩
  intro ms
  induction ms with
  | nil => intro s w hs; exact hs
  | cons m ms ih =>
    intro s w hs
    exact ih _ _ (hone m s w hs)

/-- Instance of C15: a started facade goes through a registration, a `stop`
and a deregistration. -/
theorem C15_started_is_monotonic_witness :
    freshStarted._started = true ∧
    (runMethods allSucceed 5
      [Method.clientRegisteredCallback, Method.stop, Method.clientDeregisteredCallback]
      freshStarted emptyWorld).1._started = true ∧
    (Method.stop.run allSucceed 5 freshStarted emptyWorld).1._started = freshStarted._started :=
  ⟨rfl,
    (C15_started_is_monotonic allSucceed 5).2.2.2.2 _ freshStarted emptyWorld rfl,
    (C15_started_is_monotonic allSucceed 5).2.2.1 Method.stop freshStarted emptyWorld
      (fun _ h => Method.noConfusion h)⟩

/-- C16: with `_started` true, `connect(interface)` issues `setup(interface)`
once and nothing else, and returns what `setup` answered; with `_started`
false it returns `false` and issues no call; it writes no member variable, so
`_started`, `_registered` and the registry are as before. -/
theorem C16_connect_is_gated_on_start {σ : Type} (E : Collaborators σ) (T : Nat)
    (interface : Nat) (s : CloudClientDm) (w : World σ) :
    (s._started = true →
      (connect E interface s w).1 = E.retBool (Call.setup interface) w.dev ∧
      issued w (connect E interface s w).2 =
        [(Call.setup interface, Ret.bool (connect E interface s w).1)]) ∧
    (s._started = false → connect E interface s w = (false, w)) ∧
    ((Method.connect interface).run E T s w).1 = s := by
  refine ⟨?_, ?_, rfl⟩
  · intro hs
    simp [connect, hs, callBool, issued]
  · intro hs
    simp [connect, hs]

/-- Instance of C16 on a started and on a constructed facade. -/
theorem C16_connect_is_gated_on_start_witness :
    freshStarted._started = true ∧ fresh._started = false ∧
    issued emptyWorld (connect allSucceed 7 freshStarted emptyWorld).2 =
      [(Call.setup 7, Ret.bool (connect allSucceed 7 freshStarted emptyWorld).1)] ∧
    connect allSucceed 7 fresh emptyWorld = (false, emptyWorld) :=
  ⟨rfl, rfl,
    ((C16_connect_is_gated_on_start allSucceed 0 7 freshStarted emptyWorld).1 rfl).2,
    (C16_connect_is_gated_on_start allSucceed 0 7 fresh emptyWorld).2.1 rfl⟩

/-- C17: `isConnected` is `_registered`; it is false after construction and
after `start` on the constructed facade; it is true after the registration
callback and false after the deregistration callback, so that after any
sequence of engine events it is decided by the last of the two (an error event
changes nothing); no method other than these two callbacks, and `stop` through
them, changes it; and each of the two callbacks calls its user callback once
if it was supplied and not at all otherwise. -/
theorem C17_isConnected_follows_callbacks {σ : Type} (E : Collaborators σ) (T : Nat) :
    (∀ s, isConnected s = s._registered) ∧
    (∀ debugOn cb1 cb2 cb3, isConnected (CloudClientDm.new debugOn cb1 cb2 cb3) = false) ∧
    (∀ updateCallback debugOn cb1 cb2 cb3 (w : World σ),
      isConnected (start E updateCallback (CloudClientDm.new debugOn cb1 cb2 cb3) w).2.1 =
        false) ∧
    (∀ s (w : World σ), isConnected (clientRegisteredCallback E s w).1 = true) ∧
    (∀ s (w : World σ), isConnected (clientDeregisteredCallback E s w).1 = false) ∧
    (∀ es s (w : World σ),
      isConnected (deliver E (es ++ [EngineEvent.registered]) s w).1 = true) ∧
    (∀ es s (w : World σ),
      isConnected (deliver E (es ++ [EngineEvent.deregistered]) s w).1 = false) ∧
    (∀ es errorCode s (w : World σ),
      isConnected (deliver E (es ++ [EngineEvent.error errorCode]) s w).1 =
        isConnected (deliver E es s w).1) ∧
    (∀ (m : Method) s (w : World σ), m ≠ Method.clientRegisteredCallback →
      m ≠ Method.clientDeregisteredCallback → m ≠ Method.stop →
      isConnected (m.run E T s w).1 = isConnected s) ∧
    (∀ s (w : World σ), (issued w (clientRegisteredCallback E s w).2).map Prod.fst =
      Call.endpoint_info ::
        (if s._registeredUserCallback then [Call.registeredUserCallback] else [])) ∧
    (∀ s (w : World σ), (issued w (clientDeregisteredCallback E s w).2).map Prod.fst =
      (if s._deregisteredUserCallback then [Call.deregisteredUserCallback] else [])) := by
  have hreg : ∀ s (w : World σ), isConnected (clientRegisteredCallback E s w).1 = true := by
    intro s w
    simp only [clientRegisteredCallback]
    split_ifs <;> rfl
  have hdereg : ∀ s (w : World σ), isConnected (clientDeregisteredCallback E s w).1 = false := by
    intro s w
    simp only [clientDeregisteredCallback]
    split_ifs <;> rfl
  refine ⟨fun _ => rfl, fun _ _ _ _ => rfl, fun _ _ _ _ _ _ => rfl, hreg, hdereg,
    ?_, ?_, ?_, ?_, ?_, ?_⟩
  · intro es s w
    rw [deliver_append, deliver_single]
    exact hreg _ _
  · intro es s w
    rw [deliver_append, deliver_single]
    exact hdereg _ _
  · intro es errorCode s w
    rw [deliver_append, deliver_single]
    show isConnected (errorCallback E errorCode _ _).1 = _
    rw [errorCallback_facade]
  · intro m s w h1 h2 h3
    exact run_registered E T m s w h1 h2 h3
  · intro s w
    cases hcb : s._registeredUserCallback <;>
      simp [clientRegisteredCallback, issued, callBool, callUnit, hcb]
  · intro s w
    cases hcb : s._deregisteredUserCallback <;>
      simp [clientDeregisteredCallback, issued, callUnit, hcb]

/-- Instance of C17: `keepAlive` on a facade that registered leaves it
connected. -/
theorem C17_isConnected_follows_callbacks_witness :
    Method.keepAlive ≠ Method.clientRegisteredCallback ∧
    Method.keepAlive ≠ Method.clientDeregisteredCallback ∧
    Method.keepAlive ≠ Method.stop ∧
    isConnected (Method.keepAlive.run allSucceed 5
      (clientRegisteredCallback allSucceed freshStarted emptyWorld).1 emptyWorld).1 =
      isConnected (clientRegisteredCallback allSucceed freshStarted emptyWorld).1 :=
  ⟨by decide, by decide, by decide,
    (C17_isConnected_follows_callbacks allSucceed 5).2.2.2.2.2.2.2.2.1 Method.keepAlive
      (clientRegisteredCallback allSucceed freshStarted emptyWorld).1 emptyWorld
      (by decide) (by decide) (by decide)⟩

theorem callback_registered_of_error {σ : Type} (E : Collaborators σ) (errorCode : Int)
    (s : CloudClientDm) (w : World σ) :
    (deliver E [EngineEvent.error errorCode] s w).1._registered = s._registered := by
  rw [deliver_single]
  show (errorCallback E errorCode s w).1._registered = _
  rw [errorCallback_facade]

theorem callback_keeps_registered {σ : Type} (E : Collaborators σ) (e : EngineEvent)
    (he : e ≠ EngineEvent.deregistered) (s : CloudClientDm) (w : World σ)
    (hs : s._registered = true) : (deliver E [e] s w).1._registered = true := by
  cases e with
  | registered =>
    rw [deliver_single]
    simp only [clientRegisteredCallback]
    split_ifs <;> rfl
  | deregistered => exact absurd rfl he
  | error errorCode => rw [callback_registered_of_error]; exact hs

/-- C18: every method other than `start`, the registration callback, the
deregistration callback and `stop` leaves `_started` and `_registered` as it
found them (`connect`, `keepAlive`, the error callback, every setter, add and
delete are among them); `stop` leaves `_started` as it found it, and leaves
`_registered` as it found it when the engine runs no registration or
deregistration callback meanwhile; and when the engine runs no deregistration
callback, a `stop` entered with `_registered` true leaves its wait loop only at
the timeout and returns with `isConnected` still true. -/
theorem C18_connection_state_frame {σ : Type} (E : Collaborators σ) (T : Nat) :
    (∀ (m : Method) s (w : World σ), m.writesConnectionState = false → m ≠ Method.stop →
      (m.run E T s w).1._started = s._started ∧
      (m.run E T s w).1._registered = s._registered) ∧
    (∀ s (w : World σ), (stop E T s w).1._started = s._started) ∧
    (OnlyErrorEvents E → ∀ s (w : World σ), (stop E T s w).1._registered = s._registered) ∧
    (NeverDeregisters E → ∀ s (w : World σ), s._registered = true →
      isConnected (stop E T s w).1 = true ∧
      T * 1000 ≤ (stopWait E T 0 (callAsync E Call.close s w).1
        (callAsync E Call.close s w).2).1) := by
  refine ⟨?_, fun s w => stop_started E T s w, ?_, ?_⟩
  · intro m s w hm hstop
    refine ⟨run_started E T m s w ?_, run_registered E T m s w ?_ ?_ hstop⟩
    · intro cb h
      rw [h] at hm
      exact Bool.noConfusion hm
    · intro h
      rw [h] at hm
      exact absurd hm (by decide)
    · intro h
      rw [h] at hm
      exact absurd hm (by decide)
  · intro honly s w
    refine stop_inv E (fun s2 => s2._registered = s._registered) ?_ (fun _ _ h => h) T s w rfl
    intro c d e he s2 w2 h
    obtain ⟨errorCode, rfl⟩ := honly c d e he
    exact (callback_registered_of_error E errorCode s2 w2).trans h
  · intro hnever s w hs
    have hstep : ∀ c d e, e ∈ E.async c d → ∀ s2 (w2 : World σ), s2._registered = true →
        (deliver E [e] s2 w2).1._registered = true := by
      intro c d e he s2 w2 h
      exact callback_keeps_registered E e (fun heq => hnever c d (heq ▸ he)) s2 w2 h
    refine ⟨stop_inv E (fun s2 => s2._registered = true) hstep (fun _ _ h => h) T s w hs, ?_⟩
    have hexit := (stopWait_exit E T _ 0 (callAsync E Call.close s w).1
      (callAsync E Call.close s w).2 (Nat.le_refl _)).1
    have hstill := stopWait_inv E (fun s2 => s2._registered = true) hstep T _ 0
      (callAsync E Call.close s w).1 (callAsync E Call.close s w).2 (Nat.le_refl _)
      (callAsync_inv E (fun s2 => s2._registered = true) hstep Call.close s w hs)
    rcases hexit with hfalse | hle
    · rw [hstill] at hfalse
      exact absurd hfalse (by decide)
    · exact hle

/-- Instance of C18: a registered facade is stopped while the engine runs no
callback, and an error callback runs on it. -/
theorem C18_connection_state_frame_witness :
    OnlyErrorEvents allSucceed ∧ NeverDeregisters allSucceed ∧
    ({ freshStarted with _registered := true } : CloudClientDm)._registered = true ∧
    isConnected (stop allSucceed 5 { freshStarted with _registered := true }
      emptyWorld).1 = true ∧
    (stop allSucceed 5 { freshStarted with _registered := true } emptyWorld).1._registered =
      ({ freshStarted with _registered := true } : CloudClientDm)._registered ∧
    ((Method.errorCallback 3).run allSucceed 5 { freshStarted with _registered := true }
      emptyWorld).1._registered = true :=
  ⟨fun _ _ _ h => absurd h (List.not_mem_nil _), fun _ _ h => absurd h (List.not_mem_nil _),
    rfl,
    ((C18_connection_state_frame allSucceed 5).2.2.2
      (fun _ _ h => absurd h (List.not_mem_nil _))
      { freshStarted with _registered := true } emptyWorld rfl).1,
    (C18_connection_state_frame allSucceed 5).2.2.1
      (fun _ _ _ h => absurd h (List.not_mem_nil _))
      { freshStarted with _registered := true } emptyWorld,
    ((C18_connection_state_frame allSucceed 5).1 (Method.errorCallback 3)
      { freshStarted with _registered := true } emptyWorld rfl (by decide)).2⟩

/-! ## The multi-instance setter and the power-source setters -/

/-- C20: for a kind that occupies a slot, `setDeviceObjectVoltage(k, v)` is the
multi-instance `setDeviceObjectResource(PowerSourceVoltage, v, i)` and
`setDeviceObjectCurrent(k, c)` is the multi-instance
`setDeviceObjectResource(PowerSourceCurrent, c, i)`, with `i` the lowest index
whose slot holds `k`: same calls, same return value; neither writes a member
variable, so the registry is as before. -/
theorem C20_power_setters_delegate_to_first_slot {σ : Type} (E : Collaborators σ)
    (k : PowerSource) (v c : Int) (s : CloudClientDm) (w : World σ)
    (hk : HoldsSomewhere s._powerSourceInstance k.toNat) :
    ∃ i, IsFirstSlot s._powerSourceInstance k.toNat i ∧
      setDeviceObjectVoltage E k v s w =
        setDeviceObjectResource_instance E DeviceResource.PowerSourceVoltage v i s w ∧
      setDeviceObjectCurrent E k c s w =
        setDeviceObjectResource_instance E DeviceResource.PowerSourceCurrent c i s w ∧
      ((Method.setDeviceObjectVoltage k v).run E 0 s w).1 = s ∧
      ((Method.setDeviceObjectCurrent k c).run E 0 s w).1 = s := by
  obtain ⟨i, hi⟩ := exists_first_of_holds hk
  refine ⟨i, hi, ?_, ?_, rfl, rfl⟩
  · simp only [setDeviceObjectVoltage, findSlot_of_first hi, decrement16_succ hi.1, if_true]
  · simp only [setDeviceObjectCurrent, findSlot_of_first hi, decrement16_succ hi.1, if_true]

/-- Instance of C20: the voltage of Solar, registered in slot 2, is set
at instance 2. -/
theorem C20_power_setters_delegate_to_first_slot_witness :
    HoldsSomewhere threeSources._powerSourceInstance PowerSource.POWER_SOURCE_SOLAR.toNat ∧
    IsFirstSlot threeSources._powerSourceInstance PowerSource.POWER_SOURCE_SOLAR.toNat 2 ∧
    setDeviceObjectVoltage allSucceed PowerSource.POWER_SOURCE_SOLAR 12000 threeSources
      emptyWorld =
      setDeviceObjectResource_instance allSucceed DeviceResource.PowerSourceVoltage 12000 2
        threeSources emptyWorld :=
  ⟨by decide, by decide,
    (match C20_power_setters_delegate_to_first_slot allSucceed
        PowerSource.POWER_SOURCE_SOLAR 12000 40 threeSources emptyWorld (by decide) with
      | ⟨i, hi, hv, _⟩ =>
        (isFirstSlot_unique hi (by decide : IsFirstSlot threeSources._powerSourceInstance
          PowerSource.POWER_SOURCE_SOLAR.toNat 2)) ▸ hv)⟩

/-! ## The sweep of `stop` -/

theorem stopSweep_world {σ : Type} (E : Collaborators σ) :
    ∀ (fuel x : Nat) (s : CloudClientDm) (w : World σ),
      x + fuel = sizeofPowerSourceInstance →
      (stopSweep E fuel x s w).2 =
        attemptDeletions E
          (sweepDeletions ((List.range' x fuel).filter (fun y =>
            decide (s._powerSourceInstance.getD y 0 ≠ PowerSource.POWER_SOURCE_UNUSED.toNat))))
          w := by
  intro fuel
  induction fuel with
  | zero => intro x s w _; rfl
  | succ n ih =>
    intro x s w hx
    have hlt : x < sizeofPowerSourceInstance := by omega
    have hmod : (x + 1) % 65536 = x + 1 := by
      have : x < 8 := hlt
      omega
    rw [List.range'_succ]
    by_cases hused : s._powerSourceInstance.getD x 0 ≠ PowerSource.POWER_SOURCE_UNUSED.toNat
    · simp only [stopSweep, hlt, hused, hmod, if_true, ne_eq, not_false_eq_true]
      rw [ih (x + 1) _ _ (by omega), List.filter_cons_of_pos (by simpa using hused)]
      simp only [sweepDeletions, attemptDeletions]
      congr 2
      apply List.filter_congr
      intro y hy
      have hyx : y ≠ x := by
        have := (List.mem_range'_1.mp hy).1
        omega
      show decide ((s._powerSourceInstance.set x _).getD y 0 ≠ _) = _
      rw [getD_set_other _ hyx]
    · simp only [stopSweep, hlt, hused, hmod, if_true, if_false]
      rw [ih (x + 1) _ _ (by omega), List.filter_cons_of_neg (by simpa using hused)]

theorem attemptDeletions_calls {σ : Type} {E : Collaborators σ} (hav : DeviceAvailable E) :
    ∀ (l : List (DeviceResource × Nat)) (w : World σ),
      ∃ new, (attemptDeletions E l w).trace = w.trace ++ new ∧
        new.map Prod.fst = deletionCalls l := by
  intro l
  induction l with
  | nil => intro w; exact ⟨[], by simp [attemptDeletions], rfl⟩
  | cons d rest ih =>
    intro w
    obtain ⟨new, htrace, hcalls⟩ := ih (deleteDeviceObjectResource_instance E d.1 d.2 w).2
    refine ⟨[(Call.create_device, Ret.bool true),
      (Call.delete_resource_instance d.1 d.2,
        Ret.bool (E.retBool (Call.delete_resource_instance d.1 d.2)
          (E.next Call.create_device w.dev)))] ++ new, ?_, ?_⟩
    · rw [attemptDeletions, htrace]
      simp [deleteDeviceObjectResource_instance, callBool, hav _]
    · simp [deletionCalls, hcalls]

theorem attemptDeletions_only {σ : Type} (E : Collaborators σ) :
    ∀ (l : List (DeviceResource × Nat)) (w : World σ),
      ∃ new, (attemptDeletions E l w).trace = w.trace ++ new ∧
        ∀ e, e ∈ new → ∀ r x, e.1 = Call.delete_resource_instance r x → (r, x) ∈ l := by
  intro l
  induction l with
  | nil => intro w; exact ⟨[], by simp [attemptDeletions], by simp⟩
  | cons d rest ih =>
    intro w
    obtain ⟨new, htrace, honly⟩ := ih (deleteDeviceObjectResource_instance E d.1 d.2 w).2
    obtain ⟨n1, t1, _, p1, _⟩ := delete_instance_trace E d.1 d.2 w
    refine ⟨n1 ++ new, ?_, ?_⟩
    · rw [attemptDeletions, htrace, t1, List.append_assoc]
    · intro e he r x hcall
      rcases List.mem_append.mp he with h1 | h2
      · have hmem : e.1 ∈ [Call.create_device, Call.delete_resource_instance d.1 d.2] :=
          p1.subset (List.mem_map_of_mem Prod.fst h1)
        rw [hcall] at hmem
        simp at hmem
        rw [hmem.1, hmem.2]
        exact List.mem_cons_self _ _
      · exact List.mem_cons_of_mem _ (honly e h2 r x hcall)

theorem mem_sweepDeletions {r : DeviceResource} {x : Nat} :
    ∀ {xs : List Nat}, (r, x) ∈ sweepDeletions xs → x ∈ xs := by
  intro xs
  induction xs with
  | nil => intro h; simp [sweepDeletions] at h
  | cons y ys ih =>
    intro h
    simp only [sweepDeletions, List.mem_cons, Prod.mk.injEq] at h
    rcases h with h | h | h | h
    · exact h.2 ▸ List.mem_cons_self _ _
    · exact h.2 ▸ List.mem_cons_self _ _
    · exact h.2 ▸ List.mem_cons_self _ _
    · exact List.mem_cons_of_mem _ (ih h)

theorem mem_occupiedSlots {reg : List Nat} {x : Nat} (h : x ∈ occupiedSlots reg) :
    x < sizeofPowerSourceInstance ∧
      reg.getD x 0 ≠ PowerSource.POWER_SOURCE_UNUSED.toNat := by
  unfold occupiedSlots at h
  rw [List.mem_filter] at h
  exact ⟨List.mem_range.mp h.1, of_decide_eq_true h.2⟩

theorem occupiedSlots_of_all_unused {reg : List Nat}
    (h : ∀ j, j < sizeofPowerSourceInstance →
      reg.getD j 0 = PowerSource.POWER_SOURCE_UNUSED.toNat) :
    occupiedSlots reg = [] := by
  unfold occupiedSlots
  rw [List.filter_eq_nil_iff]
  intro x hx
  rw [decide_eq_true_eq]
  exact fun hne => hne (h x (List.mem_range.mp hx))

theorem stopSweep_world_full {σ : Type} (E : Collaborators σ) (s : CloudClientDm)
    (w : World σ) :
    (stopSweep E sizeofPowerSourceInstance 0 s w).2 =
      attemptDeletions E (sweepDeletions (occupiedSlots s._powerSourceInstance)) w := by
  rw [stopSweep_world E _ 0 s w (Nat.zero_add _), occupiedSlots, List.range_eq_range']

theorem stop_all_unused {σ : Type} (E : Collaborators σ) (T : Nat) (s : CloudClientDm)
    (w : World σ) (hs : WellSized s) :
    WellSized (stop E T s w).1 ∧
    ∀ j, j < sizeofPowerSourceInstance →
      (stop E T s w).1._powerSourceInstance.getD j 0 = PowerSource.POWER_SOURCE_UNUSED.toNat := by
  unfold stop WellSized
  apply stopSweep_spec E _ 0 _ _ (Nat.zero_le _) (by omega)
  · rw [stopWait_powerSourceInstance E T _ 0 _ _ (Nat.le_refl _),
      callAsync_powerSourceInstance]
    exact hs
  · intro j hj
    exact absurd hj (Nat.not_lt_zero j)

theorem noDeletionIssued_refl {σ : Type} (w : World σ) : NoDeletionIssued w w :=
  ⟨[], by simp, by simp⟩

theorem noDeletionIssued_trans {σ : Type} {w1 w2 w3 : World σ}
    (h12 : NoDeletionIssued w1 w2) (h23 : NoDeletionIssued w2 w3) : NoDeletionIssued w1 w3 := by
  obtain ⟨n1, t1, p1⟩ := h12
  obtain ⟨n2, t2, p2⟩ := h23
  refine ⟨n1 ++ n2, by rw [t2, t1, List.append_assoc], ?_⟩
  intro e he
  rcases List.mem_append.mp he with h | h
  · exact p1 e h
  · exact p2 e h

theorem callUnit_noDeletion {σ : Type} (E : Collaborators σ) (c : Call) (w : World σ)
    (hc : c.isDeletion = false) : NoDeletionIssued w (callUnit E c w) :=
  ⟨[(c, Ret.unit)], rfl, by simpa using hc⟩

theorem callback_noDeletion {σ : Type} (E : Collaborators σ) (e : EngineEvent)
    (s : CloudClientDm) (w : World σ) : NoDeletionIssued w (deliver E [e] s w).2 := by
  rw [deliver_single]
  cases e with
  | registered =>
    have h1 : NoDeletionIssued w (callBool E Call.endpoint_info w).2 :=
      ⟨[(Call.endpoint_info, Ret.bool (E.retBool Call.endpoint_info w.dev))], rfl,
        by simp [Call.isDeletion]⟩
    simp only [clientRegisteredCallback]
    split_ifs
    · exact noDeletionIssued_trans h1 (callUnit_noDeletion E _ _ rfl)
    · exact h1
  | deregistered =>
    simp only [clientDeregisteredCallback]
    split_ifs
    · exact callUnit_noDeletion E _ _ rfl
    · exact noDeletionIssued_refl w
  | error errorCode =>
    simp only [errorCallback]
    split_ifs
    · exact noDeletionIssued_trans (callUnit_noDeletion E Call.error_description w rfl)
        (callUnit_noDeletion E (Call.errorUserCallback errorCode) _ rfl)
    · exact callUnit_noDeletion E Call.error_description w rfl

theorem deliver_noDeletion {σ : Type} (E : Collaborators σ) :
    ∀ (es : List EngineEvent) (s : CloudClientDm) (w : World σ),
      NoDeletionIssued w (deliver E es s w).2 := by
  intro es
  induction es with
  | nil => intro s w; exact noDeletionIssued_refl w
  | cons e es ih =>
    intro s w
    rw [deliver_cons]
    exact noDeletionIssued_trans (callback_noDeletion E e s w) (ih _ _)

theorem callAsync_noDeletion {σ : Type} (E : Collaborators σ) (c : Call)
    (hc : c.isDeletion = false) (s : CloudClientDm) (w : World σ) :
    NoDeletionIssued w (callAsync E c s w).2 :=
  noDeletionIssued_trans (callUnit_noDeletion E c w hc) (deliver_noDeletion E _ s _)

theorem stopWait_noDeletion {σ : Type} (E : Collaborators σ) (T : Nat) :
    ∀ (n e : Nat) (s : CloudClientDm) (w : World σ), T * 1000 - e ≤ n →
      NoDeletionIssued w (stopWait E T e s w).2.2 := by
  intro n
  induction n with
  | zero =>
    intro e s w h
    rw [stopWait]
    have hge : ¬ e < T * 1000 := by omega
    simpa [hge] using noDeletionIssued_refl w
  | succ n ih =>
    intro e s w h
    rw [stopWait]
    split_ifs with hc
    · exact noDeletionIssued_trans (callAsync_noDeletion E (Call.wait_ms 100) rfl s w)
        (ih (e + 100) _ _ (by omega))
    · exact noDeletionIssued_refl w

/-- C21: the sweep of `stop` leaves the world that results from attempting,
for the slots occupied on entry taken in ascending index order, the deletion
of the AvailablePowerSources, PowerSourceVoltage and
PowerSourceCurrent instance at the slot's index, in that order and whatever
each attempt returns;
with the Device object available its calls are exactly `create_device` and
`delete_resource_instance` for each of them in turn; no
`delete_resource_instance` it issues is at an unused slot; `stop` runs this
sweep on the registry it was entered with; and a second `stop` right after the
first issues only the calls of its `close` and wait loop, none a deletion. -/
theorem C21_stop_sweeps_occupied_slots_in_order {σ : Type} (E : Collaborators σ) (T : Nat)
    (s : CloudClientDm) (w : World σ) :
    (stopSweep E sizeofPowerSourceInstance 0 s w).2 =
      attemptDeletions E (sweepDeletions (occupiedSlots s._powerSourceInstance)) w ∧
    (DeviceAvailable E →
      (issued w (stopSweep E sizeofPowerSourceInstance 0 s w).2).map Prod.fst =
        deletionCalls (sweepDeletions (occupiedSlots s._powerSourceInstance))) ∧
    (∀ e, e ∈ issued w (stopSweep E sizeofPowerSourceInstance 0 s w).2 →
      ∀ r x, e.1 = Call.delete_resource_instance r x →
        x < sizeofPowerSourceInstance ∧
        s._powerSourceInstance.getD x 0 ≠ PowerSource.POWER_SOURCE_UNUSED.toNat) ∧
    (stop E T s w).2 =
      attemptDeletions E (sweepDeletions (occupiedSlots s._powerSourceInstance))
        (stopWait E T 0 (callAsync E Call.close s w).1 (callAsync E Call.close s w).2).2.2 ∧
    (WellSized s →
      (stop E T (stop E T s w).1 (stop E T s w).2).2 =
        (stopWait E T 0 (callAsync E Call.close (stop E T s w).1 (stop E T s w).2).1
          (callAsync E Call.close (stop E T s w).1 (stop E T s w).2).2).2.2 ∧
      ∀ e, e ∈ issued (stop E T s w).2 (stop E T (stop E T s w).1 (stop E T s w).2).2 →
        e.1.isDeletion = false) := by
  have hstop : ∀ (s0 : CloudClientDm) (w0 : World σ),
      (stop E T s0 w0).2 =
        attemptDeletions E (sweepDeletions (occupiedSlots s0._powerSourceInstance))
          (stopWait E T 0 (callAsync E Call.close s0 w0).1
            (callAsync E Call.close s0 w0).2).2.2 := by
    intro s0 w0
    have hreg : (stopWait E T 0 (callAsync E Call.close s0 w0).1
        (callAsync E Call.close s0 w0).2).2.1._powerSourceInstance =
        s0._powerSourceInstance := by
      rw [stopWait_powerSourceInstance E T _ 0 _ _ (Nat.le_refl _),
        callAsync_powerSourceInstance]
    show (stopSweep E sizeofPowerSourceInstance 0 _ _).2 = _
    rw [stopSweep_world_full, hreg]
  refine ⟨stopSweep_world_full E s w, ?_, ?_, hstop s w, ?_⟩
  · intro hav
    obtain ⟨new, htrace, hcalls⟩ := attemptDeletions_calls hav
      (sweepDeletions (occupiedSlots s._powerSourceInstance)) w
    rw [stopSweep_world_full, issued_of_trace htrace, hcalls]
  · intro e he r x hcall
    obtain ⟨new, htrace, honly⟩ := attemptDeletions_only E
      (sweepDeletions (occupiedSlots s._powerSourceInstance)) w
    rw [stopSweep_world_full, issued_of_trace htrace] at he
    exact mem_occupiedSlots (mem_sweepDeletions (honly e he r x hcall))
  · intro hs
    have hnone : occupiedSlots (stop E T s w).1._powerSourceInstance = [] :=
      occupiedSlots_of_all_unused (stop_all_unused E T s w hs).2
    have hsecond : (stop E T (stop E T s w).1 (stop E T s w).2).2 =
        (stopWait E T 0 (callAsync E Call.close (stop E T s w).1 (stop E T s w).2).1
          (callAsync E Call.close (stop E T s w).1 (stop E T s w).2).2).2.2 := by
      rw [hstop, hnone]
      rfl
    refine ⟨hsecond, ?_⟩
    intro e he
    obtain ⟨new, htrace, hno⟩ := noDeletionIssued_trans
      (callAsync_noDeletion E Call.close rfl (stop E T s w).1 (stop E T s w).2)
      (stopWait_noDeletion E T _ 0 (callAsync E Call.close (stop E T s w).1 (stop E T s w).2).1
        (callAsync E Call.close (stop E T s w).1 (stop E T s w).2).2 (Nat.le_refl _))
    rw [hsecond, issued_of_trace htrace] at he
    exact hno e he

/-- Instance of C21: DC, USB and Solar in slots 0, 1 and 2, every deletion
rejected: the sweep still issues the three deletions of each slot, slot by
slot. -/
theorem C21_stop_sweeps_occupied_slots_in_order_witness :
    DeviceAvailable deletionRejected ∧ WellSized threeSources ∧
    (issued emptyWorld (stopSweep deletionRejected sizeofPowerSourceInstance 0 threeSources
      emptyWorld).2).map Prod.fst =
      [Call.create_device,
       Call.delete_resource_instance DeviceResource.AvailablePowerSources 0,
       Call.create_device, Call.delete_resource_instance DeviceResource.PowerSourceVoltage 0,
       Call.create_device, Call.delete_resource_instance DeviceResource.PowerSourceCurrent 0,
       Call.create_device,
       Call.delete_resource_instance DeviceResource.AvailablePowerSources 1,
       Call.create_device, Call.delete_resource_instance DeviceResource.PowerSourceVoltage 1,
       Call.create_device, Call.delete_resource_instance DeviceResource.PowerSourceCurrent 1,
       Call.create_device,
       Call.delete_resource_instance DeviceResource.AvailablePowerSources 2,
       Call.create_device, Call.delete_resource_instance DeviceResource.PowerSourceVoltage 2,
       Call.create_device,
       Call.delete_resource_instance DeviceResource.PowerSourceCurrent 2] ∧
    (∀ e, e ∈ issued (stop deletionRejected 5 threeSources emptyWorld).2
        (stop deletionRejected 5 (stop deletionRejected 5 threeSources emptyWorld).1
          (stop deletionRejected 5 threeSources emptyWorld).2).2 →
      e.1.isDeletion = false) :=
  ⟨fun _ => rfl, by decide,
    ((C21_stop_sweeps_occupied_slots_in_order deletionRejected 5 threeSources
      emptyWorld).2.1 (fun _ => rfl)).trans (by decide),
    ((C21_stop_sweeps_occupied_slots_in_order deletionRejected 5 threeSources
      emptyWorld).2.2.2.2 (by decide)).2⟩

/-! ## The index after the scan -/

theorem findSlot_cases (reg : List Nat) (t : Nat) :
    (∃ i, IsFirstSlot reg t i ∧
      findSlot reg t sizeofPowerSourceInstance 0 false = (i + 1, true)) ∨
    (¬ HoldsSomewhere reg t ∧
      findSlot reg t sizeofPowerSourceInstance 0 false = (sizeofPowerSourceInstance, false)) := by
  rcases findSlot_spec reg t sizeofPowerSourceInstance 0 (Nat.zero_le _) (by omega)
    (fun j hj => absurd hj (Nat.not_lt_zero j)) with h | ⟨hnone, heq⟩
  · exact Or.inl h
  · refine Or.inr ⟨?_, heq⟩
    rintro ⟨j, hj, hjt⟩
    exact hnone j hj hjt

theorem absent_of_not_found {reg : List Nat} {t : Nat}
    (h : (findSlot reg t sizeofPowerSourceInstance 0 false).2 = false) :
    ¬ HoldsSomewhere reg t := by
  rcases findSlot_cases reg t with ⟨i, _, heq⟩ | ⟨habsent, _⟩
  · rw [heq] at h
    exact Bool.noConfusion h
  · exact habsent

theorem first_of_found {reg : List Nat} {t : Nat}
    (h : (findSlot reg t sizeofPowerSourceInstance 0 false).2 = true) :
    (findSlot reg t sizeofPowerSourceInstance 0 false).1 =
        decrement16 (findSlot reg t sizeofPowerSourceInstance 0 false).1 + 1 ∧
      IsFirstSlot reg t (decrement16 (findSlot reg t sizeofPowerSourceInstance 0 false).1) := by
  rcases findSlot_cases reg t with ⟨i, hi, heq⟩ | ⟨_, heq⟩
  · rw [heq]
    show i + 1 = decrement16 (i + 1) + 1 ∧ IsFirstSlot reg t (decrement16 (i + 1))
    rw [decrement16_succ hi.1]
    exact ⟨rfl, hi⟩
  · rw [heq] at h
    exact absurd h (by decide)

/-- C22: the scan of the four power-source methods, for any array and any
value searched, is left by its own loop condition; when it has set its flag
the counter is at least 1, so that `x--` does not wrap, and the decremented
counter is below the number of slots (and below the array's length) and is the
first slot holding the value; that index is the one
`addDeviceObjectPowerSource` writes and the setters pass on; when the flag is
not set no slot holds the value, the counter is the number of slots, and each
method returns `false` at once with the facade (its array included) and the
world as they were. -/
theorem C22_scan_index_in_bounds {σ : Type} (E : Collaborators σ) (k : PowerSource)
    (v c : Int) (s : CloudClientDm) (w : World σ) (target : Nat) :
    ¬ ((findSlot s._powerSourceInstance target sizeofPowerSourceInstance 0 false).1 <
          sizeofPowerSourceInstance ∧
        (findSlot s._powerSourceInstance target sizeofPowerSourceInstance 0 false).2 = false) ∧
    ((findSlot s._powerSourceInstance target sizeofPowerSourceInstance 0 false).2 = true →
      1 ≤ (findSlot s._powerSourceInstance target sizeofPowerSourceInstance 0 false).1 ∧
      decrement16 (findSlot s._powerSourceInstance target sizeofPowerSourceInstance 0 false).1
        + 1 = (findSlot s._powerSourceInstance target sizeofPowerSourceInstance 0 false).1 ∧
      decrement16 (findSlot s._powerSourceInstance target sizeofPowerSourceInstance 0 false).1
        < sizeofPowerSourceInstance ∧
      (WellSized s →
        decrement16
          (findSlot s._powerSourceInstance target sizeofPowerSourceInstance 0 false).1 <
          s._powerSourceInstance.length) ∧
      IsFirstSlot s._powerSourceInstance target
        (decrement16
          (findSlot s._powerSourceInstance target sizeofPowerSourceInstance 0 false).1)) ∧
    ((findSlot s._powerSourceInstance target sizeofPowerSourceInstance 0 false).2 = false →
      (findSlot s._powerSourceInstance target sizeofPowerSourceInstance 0 false).1 =
        sizeofPowerSourceInstance ∧
      ¬ HoldsSomewhere s._powerSourceInstance target) ∧
    ((findSlot s._powerSourceInstance PowerSource.POWER_SOURCE_UNUSED.toNat
        sizeofPowerSourceInstance 0 false).2 = true →
      (addDeviceObjectPowerSource E k s w).2.1._powerSourceInstance =
        s._powerSourceInstance.set
          (decrement16 (findSlot s._powerSourceInstance PowerSource.POWER_SOURCE_UNUSED.toNat
            sizeofPowerSourceInstance 0 false).1) k.toNat) ∧
    ((findSlot s._powerSourceInstance k.toNat sizeofPowerSourceInstance 0 false).2 = true →
      setDeviceObjectVoltage E k v s w =
        setDeviceObjectResource_instance E DeviceResource.PowerSourceVoltage v
          (decrement16
            (findSlot s._powerSourceInstance k.toNat sizeofPowerSourceInstance 0 false).1)
          s w ∧
      setDeviceObjectCurrent E k c s w =
        setDeviceObjectResource_instance E DeviceResource.PowerSourceCurrent c
          (decrement16
            (findSlot s._powerSourceInstance k.toNat sizeofPowerSourceInstance 0 false).1)
          s w) ∧
    ((findSlot s._powerSourceInstance PowerSource.POWER_SOURCE_UNUSED.toNat
        sizeofPowerSourceInstance 0 false).2 = false →
      addDeviceObjectPowerSource E k s w = (false, s, w)) ∧
    ((findSlot s._powerSourceInstance k.toNat sizeofPowerSourceInstance 0 false).2 = false →
      deleteDeviceObjectPowerSource E k s w = (false, s, w) ∧
      setDeviceObjectVoltage E k v s w = (false, w) ∧
      setDeviceObjectCurrent E k c s w = (false, w)) := by
  refine ⟨?_, ?_, ?_, ?_, ?_, ?_, ?_⟩
  · rcases findSlot_cases s._powerSourceInstance target with ⟨i, _, heq⟩ | ⟨_, heq⟩
    · rw [heq]
      exact fun h => Bool.noConfusion h.2
    · rw [heq]
      exact fun h => absurd h.1 (Nat.lt_irrefl _)
  · intro hfound
    obtain ⟨hdec, hfirst⟩ := first_of_found hfound
    refine ⟨by omega, hdec.symm, hfirst.1, ?_, hfirst⟩
    intro hs
    rw [hs]
    exact hfirst.1
  · intro hnot
    refine ⟨?_, absent_of_not_found hnot⟩
    rcases findSlot_cases s._powerSourceInstance target with ⟨i, _, heq⟩ | ⟨_, heq⟩
    · rw [heq] at hnot
      exact Bool.noConfusion hnot
    · rw [heq]
  · intro hfound
    rw [add_registry E k s w (first_of_found hfound).2]
  · intro hfound
    constructor
    · simp only [setDeviceObjectVoltage, hfound, if_true]
    · simp only [setDeviceObjectCurrent, hfound, if_true]
  · intro hnot
    exact add_of_full E k s w (absent_of_not_found hnot)
  · intro hnot
    have habsent := absent_of_not_found hnot
    refine ⟨delete_of_absent E k s w habsent, ?_, ?_⟩
    · simp [setDeviceObjectVoltage, findSlot_of_absent habsent]
    · simp [setDeviceObjectCurrent, findSlot_of_absent habsent]

/-- Instance of C22: the scan for USB in a registry holding DC, USB and Solar
stops with the counter at 2 and the index 1; the scan for an unused slot in a
full registry does not set its flag. -/
theorem C22_scan_index_in_bounds_witness :
    (findSlot threeSources._powerSourceInstance PowerSource.POWER_SOURCE_USB.toNat
      sizeofPowerSourceInstance 0 false).2 = true ∧
    WellSized threeSources ∧
    IsFirstSlot threeSources._powerSourceInstance PowerSource.POWER_SOURCE_USB.toNat
      (decrement16 (findSlot threeSources._powerSourceInstance
        PowerSource.POWER_SOURCE_USB.toNat sizeofPowerSourceInstance 0 false).1) ∧
    decrement16 (findSlot threeSources._powerSourceInstance
      PowerSource.POWER_SOURCE_USB.toNat sizeofPowerSourceInstance 0 false).1 <
      threeSources._powerSourceInstance.length ∧
    (findSlot fullyOccupied._powerSourceInstance PowerSource.POWER_SOURCE_UNUSED.toNat
      sizeofPowerSourceInstance 0 false).2 = false ∧
    addDeviceObjectPowerSource allSucceed PowerSource.POWER_SOURCE_MAINS fullyOccupied
      emptyWorld = (false, fullyOccupied, emptyWorld) ∧
    (findSlot fresh._powerSourceInstance PowerSource.POWER_SOURCE_POE.toNat
      sizeofPowerSourceInstance 0 false).2 = false ∧
    deleteDeviceObjectPowerSource allSucceed PowerSource.POWER_SOURCE_POE fresh emptyWorld =
      (false, fresh, emptyWorld) :=
  ⟨by decide, by decide,
    ((C22_scan_index_in_bounds allSucceed PowerSource.POWER_SOURCE_USB 0 0 threeSources
      emptyWorld PowerSource.POWER_SOURCE_USB.toNat).2.1 (by decide)).2.2.2.2,
    ((C22_scan_index_in_bounds allSucceed PowerSource.POWER_SOURCE_USB 0 0 threeSources
      emptyWorld PowerSource.POWER_SOURCE_USB.toNat).2.1 (by decide)).2.2.2.1 (by decide),
    by decide,
    (C22_scan_index_in_bounds allSucceed PowerSource.POWER_SOURCE_MAINS 0 0 fullyOccupied
      emptyWorld 0).2.2.2.2.2.1 (by decide),
    by decide,
    ((C22_scan_index_in_bounds allSucceed PowerSource.POWER_SOURCE_POE 0 0 fresh
      emptyWorld 0).2.2.2.2.2.2 (by decide)).1⟩

/-! ## The sentinel as an argument -/

theorem set_getD_self (l : List Nat) :
    ∀ (i v : Nat), l.getD i 0 = v → l.set i v = l := by
  induction l with
  | nil => intro i v _; rfl
  | cons a l ih =>
    intro i v h
    cases i with
    | zero =>
      have hav : a = v := h
      rw [hav]
      rfl
    | succ i =>
      have h2 : l.getD i 0 = v := h
      show a :: l.set i v = a :: l
      rw [ih i v h2]

theorem facade_set_self (s : CloudClientDm) {i v : Nat}
    (h : s._powerSourceInstance.getD i 0 = v) :
    ({ s with _powerSourceInstance := s._powerSourceInstance.set i v } : CloudClientDm) = s := by
  rw [set_getD_self _ i v h]

theorem setInstance_issued_ne_nil {σ : Type} (E : Collaborators σ) (r : DeviceResource)
    (v : Int) (i : Nat) (s : CloudClientDm) (w : World σ) :
    issued w (setDeviceObjectResource_instance E r v i s w).2 ≠ [] := by
  cases hd : E.retBool Call.create_device w.dev with
  | false => simp [setDeviceObjectResource_instance, issued, callBool, hd]
  | true =>
    cases hs : s._started with
    | true => simp [setDeviceObjectResource_instance, issued, callBool, hs, hd]
    | false =>
      by_cases hcur : E.retInt (Call.resource_value_int r i)
          (E.next Call.create_device w.dev) = -1
      · cases hd2 : E.retBool Call.create_device
            (E.next (Call.resource_value_int r i) (E.next Call.create_device w.dev)) <;>
          simp [setDeviceObjectResource_instance, createDeviceObjectResource_instance, issued,
            callBool, callInt, hs, hd, hcur, hd2]
      · simp [setDeviceObjectResource_instance, issued, callBool, callInt, hs, hd, hcur]

theorem setInstance_last {σ : Type} (E : Collaborators σ) (r : DeviceResource)
    (v : Int) (i : Nat) (s : CloudClientDm) (w : World σ)
    (hd : E.retBool Call.create_device w.dev = true) :
    (issued w (setDeviceObjectResource_instance E r v i s w).2).getLast? =
      some (Call.set_resource_value_instance r v i,
        Ret.bool (setDeviceObjectResource_instance E r v i s w).1) := by
  cases hs : s._started with
  | true => simp [setDeviceObjectResource_instance, issued, callBool, hs, hd]
  | false =>
    by_cases hcur : E.retInt (Call.resource_value_int r i)
        (E.next Call.create_device w.dev) = -1
    · cases hd2 : E.retBool Call.create_device
          (E.next (Call.resource_value_int r i) (E.next Call.create_device w.dev)) <;>
        simp [setDeviceObjectResource_instance, createDeviceObjectResource_instance, issued,
          callBool, callInt, hs, hd, hcur, hd2]
    · simp [setDeviceObjectResource_instance, issued, callBool, callInt, hs, hd, hcur]

/-- C23: in a registry with an unused slot, with `i` the first unused slot,
`deleteDeviceObjectPowerSource(POWER_SOURCE_UNUSED)` issues a non-empty initial
part of the six deletion calls at instance `i` (all six, returning `true`, when
every deletion succeeds) and leaves the facade as it was;
`setDeviceObjectVoltage` and `setDeviceObjectCurrent` with the sentinel are
the multi-instance setter at instance `i`, which issues calls and, with the
Device object obtained, ends with the set at instance `i`; and
`addDeviceObjectPowerSource(POWER_SOURCE_UNUSED)` issues a non-empty initial
part of the six creation calls at instance `i` with value 0xFF (all six,
returning `true`, when every creation succeeds) and leaves the facade, slot `i`
and the whole registry included, as it was. -/
theorem C23_sentinel_is_accepted {σ : Type} (E : Collaborators σ) (v c : Int)
    (s : CloudClientDm) (w : World σ)
    (hfree : HoldsSomewhere s._powerSourceInstance PowerSource.POWER_SOURCE_UNUSED.toNat) :
    ∃ i, IsFirstSlot s._powerSourceInstance PowerSource.POWER_SOURCE_UNUSED.toNat i ∧
      (issued w (deleteDeviceObjectPowerSource E PowerSource.POWER_SOURCE_UNUSED s w).2.2 ≠ [] ∧
        (issued w (deleteDeviceObjectPowerSource E PowerSource.POWER_SOURCE_UNUSED s
          w).2.2).map Prod.fst <+: deleteCalls i ∧
        (deleteDeviceObjectPowerSource E PowerSource.POWER_SOURCE_UNUSED s w).2.1 = s ∧
        (DeletionsSucceed E →
          (deleteDeviceObjectPowerSource E PowerSource.POWER_SOURCE_UNUSED s w).1 = true ∧
          issued w (deleteDeviceObjectPowerSource E PowerSource.POWER_SOURCE_UNUSED s w).2.2 =
            (deleteCalls i).map answeredTrue)) ∧
      (setDeviceObjectVoltage E PowerSource.POWER_SOURCE_UNUSED v s w =
          setDeviceObjectResource_instance E DeviceResource.PowerSourceVoltage v i s w ∧
        issued w (setDeviceObjectVoltage E PowerSource.POWER_SOURCE_UNUSED v s w).2 ≠ [] ∧
        (E.retBool Call.create_device w.dev = true →
          (issued w (setDeviceObjectVoltage E PowerSource.POWER_SOURCE_UNUSED v s
            w).2).getLast? =
            some (Call.set_resource_value_instance DeviceResource.PowerSourceVoltage v i,
              Ret.bool (setDeviceObjectVoltage E PowerSource.POWER_SOURCE_UNUSED v s w).1))) ∧
      (setDeviceObjectCurrent E PowerSource.POWER_SOURCE_UNUSED c s w =
          setDeviceObjectResource_instance E DeviceResource.PowerSourceCurrent c i s w ∧
        issued w (setDeviceObjectCurrent E PowerSource.POWER_SOURCE_UNUSED c s w).2 ≠ [] ∧
        (E.retBool Call.create_device w.dev = true →
          (issued w (setDeviceObjectCurrent E PowerSource.POWER_SOURCE_UNUSED c s
            w).2).getLast? =
            some (Call.set_resource_value_instance DeviceResource.PowerSourceCurrent c i,
              Ret.bool (setDeviceObjectCurrent E PowerSource.POWER_SOURCE_UNUSED c s w).1))) ∧
      (issued w (addDeviceObjectPowerSource E PowerSource.POWER_SOURCE_UNUSED s w).2.2 ≠ [] ∧
        (issued w (addDeviceObjectPowerSource E PowerSource.POWER_SOURCE_UNUSED s
          w).2.2).map Prod.fst <+: addCalls PowerSource.POWER_SOURCE_UNUSED i ∧
        (addDeviceObjectPowerSource E PowerSource.POWER_SOURCE_UNUSED s w).2.1 = s ∧
        (CreationsSucceed E →
          (addDeviceObjectPowerSource E PowerSource.POWER_SOURCE_UNUSED s w).1 = true ∧
          issued w (addDeviceObjectPowerSource E PowerSource.POWER_SOURCE_UNUSED s w).2.2 =
            (addCalls PowerSource.POWER_SOURCE_UNUSED i).map answeredTrue)) := by
  obtain ⟨i, hi⟩ := exists_first_of_holds hfree
  have hv : setDeviceObjectVoltage E PowerSource.POWER_SOURCE_UNUSED v s w =
      setDeviceObjectResource_instance E DeviceResource.PowerSourceVoltage v i s w := by
    simp only [setDeviceObjectVoltage, findSlot_of_first hi, decrement16_succ hi.1, if_true]
  have hc : setDeviceObjectCurrent E PowerSource.POWER_SOURCE_UNUSED c s w =
      setDeviceObjectResource_instance E DeviceResource.PowerSourceCurrent c i s w := by
    simp only [setDeviceObjectCurrent, findSlot_of_first hi, decrement16_succ hi.1, if_true]
  obtain ⟨dnew, dtrace, dpre, dne, diff⟩ :=
    delete_trace E PowerSource.POWER_SOURCE_UNUSED s w hi
  obtain ⟨anew, atrace, apre, ane, _⟩ := add_trace E PowerSource.POWER_SOURCE_UNUSED s w hi
  refine ⟨i, hi, ⟨?_, ?_, ?_, ?_⟩, ⟨hv, ?_, ?_⟩, ⟨hc, ?_, ?_⟩, ⟨?_, ?_, ?_, ?_⟩⟩
  · rw [issued_of_trace dtrace]
    exact dne
  · rw [issued_of_trace dtrace]
    exact dpre
  · have hreg := delete_registry E PowerSource.POWER_SOURCE_UNUSED s w hi
    cases hres : (deleteDeviceObjectPowerSource E PowerSource.POWER_SOURCE_UNUSED s w).1 with
    | false => exact hreg.2 hres
    | true =>
      rw [hreg.1 hres]
      exact facade_set_self s hi.2.1
  · intro hdel
    have hok := delete_ok hdel PowerSource.POWER_SOURCE_UNUSED s w hi
    refine ⟨hok, ?_⟩
    rw [issued_of_trace dtrace]
    exact diff.1 hok
  · rw [hv]
    exact setInstance_issued_ne_nil E _ v i s w
  · intro hd
    rw [hv]
    exact setInstance_last E _ v i s w hd
  · rw [hc]
    exact setInstance_issued_ne_nil E _ c i s w
  · intro hd
    rw [hc]
    exact setInstance_last E _ c i s w hd
  · rw [issued_of_trace atrace]
    exact ane
  · rw [issued_of_trace atrace]
    exact apre
  · rw [add_registry E PowerSource.POWER_SOURCE_UNUSED s w hi]
    exact facade_set_self s hi.2.1
  · intro hcre
    exact ⟨add_ok hcre _ s w hi, issued_of_trace (add_ok_trace hcre _ s w hi)⟩

/-- Instance of C23 on a registry holding DC, USB and Solar: the first unused
slot is 3, and with collaborators that accept everything the sentinel is
deleted, and added, at instance 3 with the registry unchanged. -/
theorem C23_sentinel_is_accepted_witness :
    HoldsSomewhere threeSources._powerSourceInstance PowerSource.POWER_SOURCE_UNUSED.toNat ∧
    DeletionsSucceed allSucceed ∧ CreationsSucceed allSucceed ∧
    ∃ i, IsFirstSlot threeSources._powerSourceInstance
        PowerSource.POWER_SOURCE_UNUSED.toNat i ∧
      (deleteDeviceObjectPowerSource allSucceed PowerSource.POWER_SOURCE_UNUSED threeSources
        emptyWorld).1 = true ∧
      issued emptyWorld (deleteDeviceObjectPowerSource allSucceed
        PowerSource.POWER_SOURCE_UNUSED threeSources emptyWorld).2.2 =
        (deleteCalls i).map answeredTrue ∧
      (addDeviceObjectPowerSource allSucceed PowerSource.POWER_SOURCE_UNUSED threeSources
        emptyWorld).1 = true ∧
      issued emptyWorld (addDeviceObjectPowerSource allSucceed
        PowerSource.POWER_SOURCE_UNUSED threeSources emptyWorld).2.2 =
        (addCalls PowerSource.POWER_SOURCE_UNUSED i).map answeredTrue ∧
      (addDeviceObjectPowerSource allSucceed PowerSource.POWER_SOURCE_UNUSED threeSources
        emptyWorld).2.1 = threeSources :=
  ⟨by decide, fun _ => ⟨rfl, fun _ _ => rfl⟩, fun _ => ⟨rfl, fun _ _ _ => rfl⟩,
    (match C23_sentinel_is_accepted allSucceed 3300 20 threeSources emptyWorld (by decide) with
      | ⟨i, hi, hdel, _, _, hadd⟩ =>
        ⟨i, hi,
          (hdel.2.2.2 (fun _ => ⟨rfl, fun _ _ => rfl⟩)).1,
          (hdel.2.2.2 (fun _ => ⟨rfl, fun _ _ => rfl⟩)).2,
          (hadd.2.2.2 (fun _ => ⟨rfl, fun _ _ _ => rfl⟩)).1,
          (hadd.2.2.2 (fun _ => ⟨rfl, fun _ _ _ => rfl⟩)).2,
          hadd.2.2.1⟩)⟩

end CloudClient
